import Mathlib

/-!
# NfcTag: technology discovery, Kovio de-duplication and activation tracking

A shallow embedding of `lib-nci/NfcTag.cpp`.

* Every member function becomes a pure function on the record `NfcTag`
  (explicit state passing).  What a call reads from its environment (the
  clock, the object handed out by the manager) is an argument or a field.
* The C arrays `mTechList`, `mTechHandles`, `mTechLibNfcTypes`, `mTechParams`
  and all byte buffers are index-to-value maps `Nat → α`.  The declared array
  occupies the indices below its bound; a store at a larger index is an
  out-of-bounds store, which the model keeps visible instead of hiding it.
  What the program does after such a store is undefined: the values of the
  model at and after it only record that the store was made, and statements
  on what a call appends are made for states in which every store is in
  bounds.
* `UINT8` values are `Nat`, `int` values are `Int`; the only place where a
  machine width matters is the `UINT32` result of `TimeDiff`.
* The C unions (`tNFC_RF_TECH_PARAMU`, `tNFA_TAG_PARAMS`, the interface
  parameters) are records holding every arm that the source reads; each arm
  is read exactly where the source reads it.  A statement proved for all such
  records holds for every value of the union.  The concrete inputs of the
  evaluations fill the arm that belongs to their discovery mode, and the
  functions evaluated on them read no other arm.
* The named constants of the controller-stack headers are not part of the
  repository; they are the fields of `NciDefs`, a parameter of every function.
  A `switch` is an `if` chain in the order of its case labels; the two agree
  when the labels are pairwise different (`NciDefs.WellFormed`).
* Logging and the signalling of `mReadCompleteEvent` have no effect on the
  member variables and are left out; only `NfcTag.abort`, whose whole body is
  the signal, carries the event along as a count of its `notifyOne` calls.
* The operations of `NfcTagManager` are declared in `NfcTagManager.h` without
  their bodies; the sections on pending operation slots and on the bounded
  wait follow the specification instead and say so at every definition.
-/

namespace Nfcd

/-! ## Constants of the controller stack (parameters) -/

/-- The named constants that `NfcTag.cpp` takes from headers outside the
repository (`NfcTag.h`, `nfc_api.h`, `nci_defs.h`, `nfa_api.h`, `rw_int.h`). -/
structure NciDefs where
  MAX_NUM_TECHNOLOGY : Nat
  NFC_KOVIO_MAX_LEN : Nat
  NFC_NFCID0_MAX_LEN : Nat
  NFC_NFCID2_LEN : Nat
  I93_UID_BYTE_LEN : Nat
  NFC_PROTOCOL_UNKNOWN : Nat
  NFC_PROTOCOL_T1T : Nat
  NFC_PROTOCOL_T2T : Nat
  NFC_PROTOCOL_T3T : Nat
  NFC_PROTOCOL_ISO_DEP : Nat
  NFC_PROTOCOL_15693 : Nat
  NFC_PROTOCOL_KOVIO : Nat
  NFA_PROTOCOL_ISO_DEP : Nat
  NFA_PROTOCOL_NFC_DEP : Nat
  NFC_DISCOVERY_TYPE_POLL_A : Nat
  NFC_DISCOVERY_TYPE_POLL_A_ACTIVE : Nat
  NFC_DISCOVERY_TYPE_LISTEN_A : Nat
  NFC_DISCOVERY_TYPE_LISTEN_A_ACTIVE : Nat
  NFC_DISCOVERY_TYPE_POLL_B : Nat
  NFC_DISCOVERY_TYPE_POLL_B_PRIME : Nat
  NFC_DISCOVERY_TYPE_LISTEN_B : Nat
  NFC_DISCOVERY_TYPE_LISTEN_B_PRIME : Nat
  NFC_DISCOVERY_TYPE_POLL_F : Nat
  NFC_DISCOVERY_TYPE_POLL_F_ACTIVE : Nat
  NFC_DISCOVERY_TYPE_LISTEN_F : Nat
  NFC_DISCOVERY_TYPE_LISTEN_F_ACTIVE : Nat
  NFC_DISCOVERY_TYPE_POLL_ISO15693 : Nat
  NFC_DISCOVERY_TYPE_LISTEN_ISO15693 : Nat
  NFC_DISCOVERY_TYPE_POLL_KOVIO : Nat
  NCI_DISCOVERY_TYPE_LISTEN_A : Nat
  NFC_INTERFACE_EE_DIRECT_RF : Nat
  NFC_INTERFACE_ISO_DEP : Nat
  NFA_INTERFACE_FRAME : Nat
  NFA_INTERFACE_ISO_DEP : Nat
  NFA_INTERFACE_NFC_DEP : Nat
  NFA_STATUS_OK : Nat
  NFA_STATUS_TIMEOUT : Nat
  NFA_DEACTIVATE_TYPE_SLEEP : Nat
  RW_T1T_IS_TOPAZ96 : Nat
  RW_T1T_IS_TOPAZ512 : Nat
  TARGET_TYPE_UNKNOWN : Int
  TARGET_TYPE_ISO14443_3A : Int
  TARGET_TYPE_ISO14443_3B : Int
  TARGET_TYPE_ISO14443_4 : Int
  TARGET_TYPE_FELICA : Int
  TARGET_TYPE_ISO15693 : Int
  TARGET_TYPE_MIFARE_UL : Int
  TARGET_TYPE_KOVIO_BARCODE : Int

/-- The case labels of the protocol `switch` of the activation path. -/
def NciDefs.protocolCases (c : NciDefs) : List Nat :=
  [c.NFC_PROTOCOL_T1T, c.NFC_PROTOCOL_T2T, c.NFC_PROTOCOL_T3T, c.NFC_PROTOCOL_ISO_DEP,
   c.NFC_PROTOCOL_15693, c.NFC_PROTOCOL_KOVIO]

/-- The four technology-A discovery modes. -/
def NciDefs.modesA (c : NciDefs) : List Nat :=
  [c.NFC_DISCOVERY_TYPE_POLL_A, c.NFC_DISCOVERY_TYPE_POLL_A_ACTIVE,
   c.NFC_DISCOVERY_TYPE_LISTEN_A, c.NFC_DISCOVERY_TYPE_LISTEN_A_ACTIVE]

/-- The four technology-B discovery modes. -/
def NciDefs.modesB (c : NciDefs) : List Nat :=
  [c.NFC_DISCOVERY_TYPE_POLL_B, c.NFC_DISCOVERY_TYPE_POLL_B_PRIME,
   c.NFC_DISCOVERY_TYPE_LISTEN_B, c.NFC_DISCOVERY_TYPE_LISTEN_B_PRIME]

/-- The four technology-F discovery modes. -/
def NciDefs.modesF (c : NciDefs) : List Nat :=
  [c.NFC_DISCOVERY_TYPE_POLL_F, c.NFC_DISCOVERY_TYPE_POLL_F_ACTIVE,
   c.NFC_DISCOVERY_TYPE_LISTEN_F, c.NFC_DISCOVERY_TYPE_LISTEN_F_ACTIVE]

/-- The two ISO 15693 discovery modes. -/
def NciDefs.modesI93 (c : NciDefs) : List Nat :=
  [c.NFC_DISCOVERY_TYPE_POLL_ISO15693, c.NFC_DISCOVERY_TYPE_LISTEN_ISO15693]

/-- The case labels of the discovery-mode `switch` of `fillNativeNfcTagMembers5`. -/
def NciDefs.modeCases (c : NciDefs) : List Nat :=
  c.modesA ++ (c.modesB ++ (c.modesF ++ (c.modesI93 ++ [ c.NFC_DISCOVERY_TYPE_POLL_KOVIO])))

/-- What a C compiler demands of the constants for `NfcTag.cpp` to compile:
the case labels of each `switch` are pairwise different. -/
def NciDefs.WellFormed (c : NciDefs) : Prop :=
  c.protocolCases.Nodup ∧ c.modeCases.Nodup ∧ c.RW_T1T_IS_TOPAZ96 ≠ c.RW_T1T_IS_TOPAZ512

instance (c : NciDefs) : Decidable c.WellFormed := by
  unfold NciDefs.WellFormed; infer_instance

/-- The values these constants have in the controller-stack headers the
repository was built against; one instance of `NciDefs`, used for concrete
evaluations. -/
def stdDefs : NciDefs where
  MAX_NUM_TECHNOLOGY := 10
  NFC_KOVIO_MAX_LEN := 32
  NFC_NFCID0_MAX_LEN := 4
  NFC_NFCID2_LEN := 8
  I93_UID_BYTE_LEN := 8
  NFC_PROTOCOL_UNKNOWN := 0x00
  NFC_PROTOCOL_T1T := 0x01
  NFC_PROTOCOL_T2T := 0x02
  NFC_PROTOCOL_T3T := 0x03
  NFC_PROTOCOL_ISO_DEP := 0x04
  NFC_PROTOCOL_15693 := 0x83
  NFC_PROTOCOL_KOVIO := 0x8a
  NFA_PROTOCOL_ISO_DEP := 0x04
  NFA_PROTOCOL_NFC_DEP := 0x05
  NFC_DISCOVERY_TYPE_POLL_A := 0x00
  NFC_DISCOVERY_TYPE_POLL_A_ACTIVE := 0x03
  NFC_DISCOVERY_TYPE_LISTEN_A := 0x80
  NFC_DISCOVERY_TYPE_LISTEN_A_ACTIVE := 0x83
  NFC_DISCOVERY_TYPE_POLL_B := 0x01
  NFC_DISCOVERY_TYPE_POLL_B_PRIME := 0x74
  NFC_DISCOVERY_TYPE_LISTEN_B := 0x81
  NFC_DISCOVERY_TYPE_LISTEN_B_PRIME := 0xf4
  NFC_DISCOVERY_TYPE_POLL_F := 0x02
  NFC_DISCOVERY_TYPE_POLL_F_ACTIVE := 0x05
  NFC_DISCOVERY_TYPE_LISTEN_F := 0x82
  NFC_DISCOVERY_TYPE_LISTEN_F_ACTIVE := 0x85
  NFC_DISCOVERY_TYPE_POLL_ISO15693 := 0x06
  NFC_DISCOVERY_TYPE_LISTEN_ISO15693 := 0x86
  NFC_DISCOVERY_TYPE_POLL_KOVIO := 0x77
  NCI_DISCOVERY_TYPE_LISTEN_A := 0x80
  NFC_INTERFACE_EE_DIRECT_RF := 0x00
  NFC_INTERFACE_ISO_DEP := 0x02
  NFA_INTERFACE_FRAME := 0x01
  NFA_INTERFACE_ISO_DEP := 0x02
  NFA_INTERFACE_NFC_DEP := 0x03
  NFA_STATUS_OK := 0x00
  NFA_STATUS_TIMEOUT := 0xb2
  NFA_DEACTIVATE_TYPE_SLEEP := 0x01
  RW_T1T_IS_TOPAZ96 := 0x11
  RW_T1T_IS_TOPAZ512 := 0x12
  TARGET_TYPE_UNKNOWN := -1
  TARGET_TYPE_ISO14443_3A := 1
  TARGET_TYPE_ISO14443_3B := 2
  TARGET_TYPE_ISO14443_4 := 3
  TARGET_TYPE_FELICA := 4
  TARGET_TYPE_ISO15693 := 5
  TARGET_TYPE_MIFARE_UL := 9
  TARGET_TYPE_KOVIO_BARCODE := 10

/-! ## Data delivered by the controller stack -/

/-- Poll-A arm of the technology-parameter union (`param.pa`). -/
structure tNFC_RF_PA_PARAMS where
  sens_res : Nat → Nat
  nfcid1_len : Nat
  nfcid1 : Nat → Nat
  sel_rsp : Nat

/-- Poll-B arm of the technology-parameter union (`param.pb`). -/
structure tNFC_RF_PB_PARAMS where
  sensb_res_len : Nat
  sensb_res : Nat → Nat
  nfcid0 : Nat → Nat

/-- Poll-F arm of the technology-parameter union (`param.pf`). -/
structure tNFC_RF_PF_PARAMS where
  sensf_res : Nat → Nat
  nfcid2 : Nat → Nat

/-- Kovio arm of the technology-parameter union (`param.pk`). -/
structure tNFC_RF_PKOVIO_PARAMS where
  uid_len : Nat
  uid : Nat → Nat

/-- The union `tNFC_RF_TECH_PARAMU`, one field per arm that the source reads. -/
structure tNFC_RF_TECH_PARAMU where
  pa : tNFC_RF_PA_PARAMS
  pb : tNFC_RF_PB_PARAMS
  pf : tNFC_RF_PF_PARAMS
  pk : tNFC_RF_PKOVIO_PARAMS

/-- Raw RF technology parameters: discovery mode and per-technology payload. -/
structure tNFC_RF_TECH_PARAMS where
  mode : Nat
  param : tNFC_RF_TECH_PARAMU

/-- The all-zero record that `memset (mTechParams, 0, ...)` leaves in a slot. -/
def tNFC_RF_TECH_PARAMS.zero : tNFC_RF_TECH_PARAMS where
  mode := 0
  param :=
    { pa := { sens_res := fun _ => 0, nfcid1_len := 0, nfcid1 := fun _ => 0, sel_rsp := 0 }
      pb := { sensb_res_len := 0, sensb_res := fun _ => 0, nfcid0 := fun _ => 0 }
      pf := { sensf_res := fun _ => 0, nfcid2 := fun _ => 0 }
      pk := { uid_len := 0, uid := fun _ => 0 } }

/-- RATS response of an ISO-DEP activation on technology A (`pa_iso`). -/
structure tNFC_INTF_PA_ISO_DEP where
  his_byte_len : Nat
  his_byte : Nat → Nat

/-- ATTRIB response of an ISO-DEP activation on technology B (`pb_iso`). -/
structure tNFC_INTF_PB_ISO_DEP where
  hi_info_len : Nat
  hi_info : Nat → Nat

/-- Activated RF interface: its type and the arms of `intf_param.intf_param`. -/
structure tNFC_INTF_PARAMS where
  type : Nat
  pa_iso : tNFC_INTF_PA_ISO_DEP
  pb_iso : tNFC_INTF_PB_ISO_DEP

/-- The stack's activation notification (`activate_ntf`). -/
structure tNFC_ACTIVATE_DEVT where
  rf_disc_id : Nat
  protocol : Nat
  rf_tech_param : tNFC_RF_TECH_PARAMS
  intf_param : tNFC_INTF_PARAMS

/-- Tag parameters of an activation (`params`): the arms `t1t`, `t3t`, `i93`. -/
structure tNFA_TAG_PARAMS where
  t1t_hr : Nat → Nat
  t3t_num_system_codes : Nat
  t3t_p_system_codes : Nat → Nat
  i93_afi : Nat
  i93_dsfid : Nat
  i93_uid : Nat → Nat

/-- Data of `NFA_ACTIVATED_EVT`. -/
structure tNFA_ACTIVATED where
  activate_ntf : tNFC_ACTIVATE_DEVT
  params : tNFA_TAG_PARAMS

/-- The stack's discovery notification (`discovery_ntf`). -/
structure tNFC_RESULT_DEVT where
  rf_disc_id : Nat
  protocol : Nat
  rf_tech_param : tNFC_RF_TECH_PARAMS
  more : Bool

/-- Data of `NFA_DISC_RESULT_EVT`. -/
structure tNFA_DISC_RESULT where
  status : Nat
  discovery_ntf : tNFC_RESULT_DEVT

/-- Data of `NFA_DEACTIVATED_EVT`. -/
structure tNFA_DEACTIVATED where
  type : Nat

/-- A `struct timespec`. -/
structure timespec where
  tv_sec : Int
  tv_nsec : Int

/-! ## The tag object -/

/-- `NfcTag::ActivationState`. -/
inductive ActivationState where
  | Idle
  | Sleep
  | Active
  deriving DecidableEq, Repr

/-- The object handed to the service layer by `createNativeNfcTag`. -/
structure NativeNfcTag where
  mTechList : List Int
  mTechHandles : List Int
  mTechLibNfcTypes : List Int
  mTechPollBytes : List (List Nat)
  mTechActBytes : List (List Nat)
  mUid : List (List Nat)
  mConnectedTechIndex : Int

/-- The collaborator behind `mNfcManager`: the object `getNativeStruct` hands
out (`none` for `NULL`) and the objects passed to `notifyNdefMessageListeners`
so far, oldest first. -/
structure NativeNfcManager where
  nativeNfcTag : Option NativeNfcTag
  notified : List NativeNfcTag

/-- The member variables of `NfcTag`. -/
structure NfcTag where
  mNfcManager : NativeNfcManager
  mActivationState : ActivationState
  mProtocol : Nat
  mNumTechList : Nat
  mTechList : Nat → Int
  mTechHandles : Nat → Int
  mTechLibNfcTypes : Nat → Int
  mTechParams : Nat → tNFC_RF_TECH_PARAMS
  mtT1tMaxMessageSize : Int
  mReadCompletedStatus : Nat
  mLastKovioUidLen : Nat
  mLastKovioUid : Nat → Nat
  mLastKovioTime : timespec
  mNdefDetectionTimedOut : Bool

/-- `memset (a, 0, sizeof a)` on an array of `n` elements: the slots below `n`
become `z`, nothing else is touched. -/
def memsetArray {α : Type} (a : Nat → α) (n : Nat) (z : α) : Nat → α :=
  fun i => if i < n then z else a i

/-- `memcpy (dst, src, n)` on byte buffers. -/
def memcpyBytes (dst src : Nat → Nat) (n : Nat) : Nat → Nat :=
  fun i => if i < n then src i else dst i

/-- `memcmp (a, b, n) == 0` on byte buffers. -/
def memcmpEq (a b : Nat → Nat) (n : Nat) : Bool :=
  decide (∀ i, i < n → a i = b i)

/-- The constructor `NfcTag::NfcTag ()`.  Members the constructor leaves
uninitialised (`mNfcManager`, `mLastKovioTime`) are arguments. -/
def NfcTag.new (c : NciDefs) (mgr : NativeNfcManager) (t0 : timespec) : NfcTag where
  mNfcManager := mgr
  mActivationState := ActivationState.Idle
  mProtocol := c.NFC_PROTOCOL_UNKNOWN
  mNumTechList := 0
  mTechList := fun _ => 0
  mTechHandles := fun _ => 0
  mTechLibNfcTypes := fun _ => 0
  mTechParams := fun _ => tNFC_RF_TECH_PARAMS.zero
  mtT1tMaxMessageSize := 0
  mReadCompletedStatus := c.NFA_STATUS_OK
  mLastKovioUidLen := 0
  mLastKovioUid := fun _ => 0
  mLastKovioTime := t0
  mNdefDetectionTimedOut := false

/-- `NfcTag::resetTechnologies`. -/
def resetTechnologies (c : NciDefs) (s : NfcTag) : NfcTag :=
  { s with
    mNumTechList := 0
    mTechList := memsetArray s.mTechList c.MAX_NUM_TECHNOLOGY 0
    mTechHandles := memsetArray s.mTechHandles c.MAX_NUM_TECHNOLOGY 0
    mTechLibNfcTypes := memsetArray s.mTechLibNfcTypes c.MAX_NUM_TECHNOLOGY 0
    mTechParams := memsetArray s.mTechParams c.MAX_NUM_TECHNOLOGY tNFC_RF_TECH_PARAMS.zero }

/-! ## Stores into the registry arrays -/

/-- The assignment `mTechList [mNumTechList] = v`. -/
def NfcTag.storeTechList (s : NfcTag) (v : Int) : NfcTag :=
  { s with mTechList := Function.update s.mTechList s.mNumTechList v }

/-- The assignment `mTechHandles [mNumTechList] = v`. -/
def NfcTag.storeTechHandles (s : NfcTag) (v : Int) : NfcTag :=
  { s with mTechHandles := Function.update s.mTechHandles s.mNumTechList v }

/-- The assignment `mTechLibNfcTypes [mNumTechList] = v`. -/
def NfcTag.storeTechLibNfcTypes (s : NfcTag) (v : Int) : NfcTag :=
  { s with mTechLibNfcTypes := Function.update s.mTechLibNfcTypes s.mNumTechList v }

/-- The copy `memcpy (&(mTechParams[mNumTechList]), &p, sizeof p)`. -/
def NfcTag.storeTechParams (s : NfcTag) (p : tNFC_RF_TECH_PARAMS) : NfcTag :=
  { s with mTechParams := Function.update s.mTechParams s.mNumTechList p }

/-- The copy `memcpy (&(mTechParams[i]), &p, sizeof p)`. -/
def NfcTag.setTechParams (s : NfcTag) (i : Nat) (p : tNFC_RF_TECH_PARAMS) : NfcTag :=
  { s with mTechParams := Function.update s.mTechParams i p }

/-- The statement `mNumTechList++`. -/
def NfcTag.incNumTechList (s : NfcTag) : NfcTag :=
  { s with mNumTechList := s.mNumTechList + 1 }

/-! ## Technology discovery -/

/-- `NfcTag::discoverTechnologies (tNFA_ACTIVATED&)`: the activation path. -/
def discoverTechnologies_ACTIVATED (c : NciDefs) (s : NfcTag)
    (activationData : tNFA_ACTIVATED) : NfcTag :=
  let rfDetail := activationData.activate_ntf
  let s : NfcTag := { s with mNumTechList := 0 }
  let s := s.storeTechHandles rfDetail.rf_disc_id
  let s := s.storeTechLibNfcTypes rfDetail.protocol
  let s := s.storeTechParams rfDetail.rf_tech_param
  let s : NfcTag :=
    if rfDetail.protocol = c.NFC_PROTOCOL_T1T then
      s.storeTechList c.TARGET_TYPE_ISO14443_3A
    else if rfDetail.protocol = c.NFC_PROTOCOL_T2T then
      let s := s.storeTechList c.TARGET_TYPE_ISO14443_3A
      let tech_params := rfDetail.rf_tech_param
      if (tech_params.param.pa.nfcid1 0 = 0x04 ∧ rfDetail.rf_tech_param.param.pa.sel_rsp = 0) ∨
          rfDetail.rf_tech_param.param.pa.sel_rsp = 0x18 ∨
          rfDetail.rf_tech_param.param.pa.sel_rsp = 0x08 then
        if rfDetail.rf_tech_param.param.pa.sel_rsp = 0 then
          let s := s.incNumTechList
          let s := s.storeTechHandles rfDetail.rf_disc_id
          let s := s.storeTechLibNfcTypes rfDetail.protocol
          let s := s.storeTechParams rfDetail.rf_tech_param
          s.storeTechList c.TARGET_TYPE_MIFARE_UL
        else s
      else s
    else if rfDetail.protocol = c.NFC_PROTOCOL_T3T then
      s.storeTechList c.TARGET_TYPE_FELICA
    else if rfDetail.protocol = c.NFC_PROTOCOL_ISO_DEP then
      let s := s.storeTechList c.TARGET_TYPE_ISO14443_4
      if rfDetail.rf_tech_param.mode = c.NFC_DISCOVERY_TYPE_POLL_A ∨
          rfDetail.rf_tech_param.mode = c.NFC_DISCOVERY_TYPE_POLL_A_ACTIVE ∨
          rfDetail.rf_tech_param.mode = c.NFC_DISCOVERY_TYPE_LISTEN_A ∨
          rfDetail.rf_tech_param.mode = c.NFC_DISCOVERY_TYPE_LISTEN_A_ACTIVE then
        let s := s.incNumTechList
        let s := s.storeTechHandles rfDetail.rf_disc_id
        let s := s.storeTechLibNfcTypes rfDetail.protocol
        let s := s.storeTechList c.TARGET_TYPE_ISO14443_3A
        s.storeTechParams rfDetail.rf_tech_param
      else if rfDetail.rf_tech_param.mode = c.NFC_DISCOVERY_TYPE_POLL_B ∨
          rfDetail.rf_tech_param.mode = c.NFC_DISCOVERY_TYPE_POLL_B_PRIME ∨
          rfDetail.rf_tech_param.mode = c.NFC_DISCOVERY_TYPE_LISTEN_B ∨
          rfDetail.rf_tech_param.mode = c.NFC_DISCOVERY_TYPE_LISTEN_B_PRIME then
        let s := s.incNumTechList
        let s := s.storeTechHandles rfDetail.rf_disc_id
        let s := s.storeTechLibNfcTypes rfDetail.protocol
        let s := s.storeTechList c.TARGET_TYPE_ISO14443_3B
        s.storeTechParams rfDetail.rf_tech_param
      else s
    else if rfDetail.protocol = c.NFC_PROTOCOL_15693 then
      s.storeTechList c.TARGET_TYPE_ISO15693
    else if rfDetail.protocol = c.NFC_PROTOCOL_KOVIO then
      s.storeTechList c.TARGET_TYPE_KOVIO_BARCODE
    else
      s.storeTechList c.TARGET_TYPE_UNKNOWN
  s.incNumTechList

/-- `NfcTag::discoverTechnologies (tNFA_DISC_RESULT&)`: the discovery path. -/
def discoverTechnologies_DISC_RESULT (c : NciDefs) (s : NfcTag)
    (discoveryData : tNFA_DISC_RESULT) : NfcTag :=
  let discovery_ntf := discoveryData.discovery_ntf
  if s.mNumTechList ≥ c.MAX_NUM_TECHNOLOGY then
    s
  else
    let s := s.storeTechHandles discovery_ntf.rf_disc_id
    let s := s.storeTechLibNfcTypes discovery_ntf.protocol
    let s := s.storeTechParams discovery_ntf.rf_tech_param
    let s : NfcTag :=
      if discovery_ntf.protocol = c.NFC_PROTOCOL_T1T then
        s.storeTechList c.TARGET_TYPE_ISO14443_3A
      else if discovery_ntf.protocol = c.NFC_PROTOCOL_T2T then
        let s := s.storeTechList c.TARGET_TYPE_ISO14443_3A
        let s : NfcTag :=
          if discovery_ntf.rf_tech_param.param.pa.sel_rsp = 0 then
            let s := s.incNumTechList
            let s := s.storeTechHandles discovery_ntf.rf_disc_id
            let s := s.storeTechLibNfcTypes discovery_ntf.protocol
            s.storeTechList c.TARGET_TYPE_MIFARE_UL
          else s
        s.storeTechParams discovery_ntf.rf_tech_param
      else if discovery_ntf.protocol = c.NFC_PROTOCOL_T3T then
        s.storeTechList c.TARGET_TYPE_FELICA
      else if discovery_ntf.protocol = c.NFC_PROTOCOL_ISO_DEP then
        let s := s.storeTechList c.TARGET_TYPE_ISO14443_4
        if discovery_ntf.rf_tech_param.mode = c.NFC_DISCOVERY_TYPE_POLL_A ∨
            discovery_ntf.rf_tech_param.mode = c.NFC_DISCOVERY_TYPE_POLL_A_ACTIVE ∨
            discovery_ntf.rf_tech_param.mode = c.NFC_DISCOVERY_TYPE_LISTEN_A ∨
            discovery_ntf.rf_tech_param.mode = c.NFC_DISCOVERY_TYPE_LISTEN_A_ACTIVE then
          let s := s.incNumTechList
          let s := s.storeTechHandles discovery_ntf.rf_disc_id
          let s := s.storeTechLibNfcTypes discovery_ntf.protocol
          let s := s.storeTechList c.TARGET_TYPE_ISO14443_3A
          s.storeTechParams discovery_ntf.rf_tech_param
        else if discovery_ntf.rf_tech_param.mode = c.NFC_DISCOVERY_TYPE_POLL_B ∨
            discovery_ntf.rf_tech_param.mode = c.NFC_DISCOVERY_TYPE_POLL_B_PRIME ∨
            discovery_ntf.rf_tech_param.mode = c.NFC_DISCOVERY_TYPE_LISTEN_B ∨
            discovery_ntf.rf_tech_param.mode = c.NFC_DISCOVERY_TYPE_LISTEN_B_PRIME then
          let s := s.incNumTechList
          let s := s.storeTechHandles discovery_ntf.rf_disc_id
          let s := s.storeTechLibNfcTypes discovery_ntf.protocol
          let s := s.storeTechList c.TARGET_TYPE_ISO14443_3B
          s.storeTechParams discovery_ntf.rf_tech_param
        else s
      else if discovery_ntf.protocol = c.NFC_PROTOCOL_15693 then
        s.storeTechList c.TARGET_TYPE_ISO15693
      else
        s.storeTechList c.TARGET_TYPE_UNKNOWN
    s.incNumTechList

/-! ## Read-only views of the registry -/

/-- The technology tags of the registry entries, `mTechList [0 .. mNumTechList-1]`. -/
def NfcTag.techList (s : NfcTag) : List Int :=
  (List.range s.mNumTechList).map s.mTechList

/-- The handles of the registry entries, `mTechHandles [0 .. mNumTechList-1]`. -/
def NfcTag.techHandles (s : NfcTag) : List Int :=
  (List.range s.mNumTechList).map s.mTechHandles

/-- The library protocols of the registry entries,
`mTechLibNfcTypes [0 .. mNumTechList-1]`. -/
def NfcTag.techLibNfcTypes (s : NfcTag) : List Int :=
  (List.range s.mNumTechList).map s.mTechLibNfcTypes

/-! ## Lifecycle -/

/-- `NfcTag::initialize` (the name `initialize` is a keyword of Lean). -/
def NfcTag.initializeTag (c : NciDefs) (s : NfcTag) (pNfcManager : NativeNfcManager) : NfcTag :=
  let s : NfcTag := { s with mNfcManager := pNfcManager }
  let s : NfcTag := { s with mActivationState := ActivationState.Idle }
  let s : NfcTag := { s with mProtocol := c.NFC_PROTOCOL_UNKNOWN }
  let s : NfcTag := { s with mNumTechList := 0 }
  let s : NfcTag := { s with mtT1tMaxMessageSize := 0 }
  let s : NfcTag := { s with mReadCompletedStatus := c.NFA_STATUS_OK }
  resetTechnologies c s

/-- `NfcTag::getActivationState`. -/
def getActivationState (s : NfcTag) : ActivationState :=
  s.mActivationState

/-- `NfcTag::setDeactivationState`. -/
def setDeactivationState (c : NciDefs) (s : NfcTag) (deactivated : tNFA_DEACTIVATED) : NfcTag :=
  let s : NfcTag := { s with mActivationState := ActivationState.Idle }
  let s : NfcTag := { s with mNdefDetectionTimedOut := false }
  if deactivated.type = c.NFA_DEACTIVATE_TYPE_SLEEP then
    { s with mActivationState := ActivationState.Sleep }
  else s

/-- `NfcTag::setActivationState`. -/
def setActivationState (s : NfcTag) : NfcTag :=
  let s : NfcTag := { s with mNdefDetectionTimedOut := false }
  { s with mActivationState := ActivationState.Active }

/-- `NfcTag::getProtocol`. -/
def getProtocol (s : NfcTag) : Nat :=
  s.mProtocol

/-! ## Kovio de-duplication -/

/-- `TimeDiff`: the difference is computed on integers and converted to the
`UINT32` return type, that is, reduced modulo 2^32.  The division is C's
truncating division. -/
def TimeDiff (start end_ : timespec) : Nat :=
  let temp : timespec :=
    if end_.tv_nsec - start.tv_nsec < 0 then
      { tv_sec := end_.tv_sec - start.tv_sec - 1
        tv_nsec := 1000000000 + end_.tv_nsec - start.tv_nsec }
    else
      { tv_sec := end_.tv_sec - start.tv_sec
        tv_nsec := end_.tv_nsec - start.tv_nsec }
  ((temp.tv_sec * 1000 + Int.tdiv temp.tv_nsec 1000000) % 4294967296).toNat

/-- `NfcTag::IsSameKovio`; `now` is the value `clock_gettime (CLOCK_REALTIME, ..)`
delivers.  Returns the result and the object after the call. -/
def IsSameKovio (c : NciDefs) (s : NfcTag) (activationData : tNFA_ACTIVATED) (now : timespec) :
    Bool × NfcTag :=
  let rfDetail := activationData.activate_ntf
  if rfDetail.protocol ≠ c.NFC_PROTOCOL_KOVIO then
    (false, s)
  else
    let s := s.setTechParams 0 rfDetail.rf_tech_param
    if (s.mTechParams 0).mode ≠ c.NFC_DISCOVERY_TYPE_POLL_KOVIO then
      (false, s)
    else
      let rVal : Bool :=
        if (s.mTechParams 0).param.pk.uid_len = s.mLastKovioUidLen then
          if memcmpEq s.mLastKovioUid (s.mTechParams 0).param.pk.uid
              (s.mTechParams 0).param.pk.uid_len then
            if TimeDiff s.mLastKovioTime now < 500 then true else false
          else false
        else false
      let s : NfcTag :=
        if ¬ rVal then
          let s : NfcTag := { s with mLastKovioUidLen := (s.mTechParams 0).param.pk.uid_len }
          let s : NfcTag :=
            if s.mLastKovioUidLen > c.NFC_KOVIO_MAX_LEN then
              { s with mLastKovioUidLen := c.NFC_KOVIO_MAX_LEN }
            else s
          { s with mLastKovioUid :=
              memcpyBytes s.mLastKovioUid (s.mTechParams 0).param.pk.uid s.mLastKovioUidLen }
        else s
      let s : NfcTag := { s with mLastKovioTime := now }
      (rVal, s)

/-! ## Type-1 tag message size -/

/-- `NfcTag::getT1tMaxMessageSize`. -/
def getT1tMaxMessageSize (c : NciDefs) (s : NfcTag) : Int :=
  if s.mProtocol ≠ c.NFC_PROTOCOL_T1T then
    0
  else
    s.mtT1tMaxMessageSize

/-- `NfcTag::calculateT1tMaxMessageSize`. -/
def calculateT1tMaxMessageSize (c : NciDefs) (s : NfcTag) (activate : tNFA_ACTIVATED) : NfcTag :=
  if activate.activate_ntf.protocol ≠ c.NFC_PROTOCOL_T1T then
    { s with mtT1tMaxMessageSize := 0 }
  else if activate.params.t1t_hr 0 = c.RW_T1T_IS_TOPAZ96 then
    { s with mtT1tMaxMessageSize := 90 }
  else if activate.params.t1t_hr 0 = c.RW_T1T_IS_TOPAZ512 then
    { s with mtT1tMaxMessageSize := 462 }
  else
    { s with mtT1tMaxMessageSize := 0 }

/-! ## Type-2 tag responses -/

/-- `NfcTag::isT2tNackResponse`. -/
def isT2tNackResponse (response : Nat → Nat) (responseLen : Nat) : Bool :=
  let isNack := false
  if responseLen = 1 then
    if response 0 = 0xA then
      false
    else
      true
  else isNack

/-- `NfcTag::isNdefDetectionTimedOut`. -/
def isNdefDetectionTimedOut (s : NfcTag) : Bool :=
  s.mNdefDetectionTimedOut

/-! ## Building the object handed to the service layer -/

/-- The bytes `buf[off], .., buf[off + n - 1]` pushed one by one into a fresh vector. -/
def bytesFrom (buf : Nat → Nat) (off n : Nat) : List Nat :=
  (List.range n).map (fun idx => buf (idx + off))

/-- `NfcTag::fillNativeNfcTagMembers1`. -/
def fillNativeNfcTagMembers1 (s : NfcTag) (pNativeNfcTag : NativeNfcTag) : NativeNfcTag :=
  (List.range s.mNumTechList).foldl
    (fun t i =>
      { t with
        mTechList := t.mTechList ++ [s.mTechList i]
        mTechHandles := t.mTechHandles ++ [s.mTechHandles i]
        mTechLibNfcTypes := t.mTechLibNfcTypes ++ [s.mTechLibNfcTypes i] })
    pNativeNfcTag

/-- `NfcTag::fillNativeNfcTagMembers2`. -/
def fillNativeNfcTagMembers2 (pNativeNfcTag : NativeNfcTag) : NativeNfcTag :=
  { pNativeNfcTag with mConnectedTechIndex := 0 }

/-- The body of the loop of `fillNativeNfcTagMembers3` for index `i`: the
contents of the local vector `pollBytes` when it is pushed.  Every arm of the
`switch` starts with `pollBytes.clear ()`, so the previous round's contents
play no part. -/
def pollBytesStep (c : NciDefs) (s : NfcTag) (activationData : tNFA_ACTIVATED)
    (i : Nat) : List Nat :=
  let mode := (s.mTechParams i).mode
  if mode = c.NFC_DISCOVERY_TYPE_POLL_A ∨ mode = c.NFC_DISCOVERY_TYPE_POLL_A_ACTIVE ∨
      mode = c.NFC_DISCOVERY_TYPE_LISTEN_A ∨ mode = c.NFC_DISCOVERY_TYPE_LISTEN_A_ACTIVE then
    bytesFrom (s.mTechParams i).param.pa.sens_res 0 2
  else if mode = c.NFC_DISCOVERY_TYPE_POLL_B ∨ mode = c.NFC_DISCOVERY_TYPE_POLL_B_PRIME ∨
      mode = c.NFC_DISCOVERY_TYPE_LISTEN_B ∨ mode = c.NFC_DISCOVERY_TYPE_LISTEN_B_PRIME then
    if s.mTechList i = c.TARGET_TYPE_ISO14443_3B then
      let len : Int := (s.mTechParams i).param.pb.sensb_res_len
      let len : Int := len - 4
      bytesFrom (s.mTechParams i).param.pb.sensb_res 4 len.toNat
    else
      []
  else if mode = c.NFC_DISCOVERY_TYPE_POLL_F ∨ mode = c.NFC_DISCOVERY_TYPE_POLL_F_ACTIVE ∨
      mode = c.NFC_DISCOVERY_TYPE_LISTEN_F ∨ mode = c.NFC_DISCOVERY_TYPE_LISTEN_F_ACTIVE then
    let result : Nat → Nat := fun _ => 0
    let len := 10
    let result : Nat → Nat :=
      fun k => if k < 8 then (s.mTechParams i).param.pf.sensf_res (k + 8) else result k
    let result : Nat → Nat :=
      if activationData.params.t3t_num_system_codes > 0 then
        let systemCode := activationData.params.t3t_p_system_codes 0
        Function.update (Function.update result 8 ((systemCode / 256) % 256)) 9 (systemCode % 256)
      else result
    bytesFrom result 0 len
  else if mode = c.NFC_DISCOVERY_TYPE_POLL_ISO15693 ∨
      mode = c.NFC_DISCOVERY_TYPE_LISTEN_ISO15693 then
    [activationData.params.i93_afi, activationData.params.i93_dsfid]
  else
    []

/-- `NfcTag::fillNativeNfcTagMembers3`. -/
def fillNativeNfcTagMembers3 (c : NciDefs) (s : NfcTag) (pNativeNfcTag : NativeNfcTag)
    (activationData : tNFA_ACTIVATED) : NativeNfcTag :=
  (List.range s.mNumTechList).foldl
    (fun t i =>
      let pollBytes := pollBytesStep c s activationData i
      { t with mTechPollBytes := t.mTechPollBytes ++ [pollBytes] })
    pNativeNfcTag

/-- The body of the loop of `fillNativeNfcTagMembers4` for index `i`: the new
contents of the local vector `actBytes`, whose old contents are `actBytes`
(one arm of the `switch` leaves the vector as the previous round left it). -/
def actBytesStep (c : NciDefs) (s : NfcTag) (activationData : tNFA_ACTIVATED)
    (actBytes : List Nat) (i : Nat) : List Nat :=
  let type := s.mTechLibNfcTypes i
  let mode := (s.mTechParams i).mode
  if type = (c.NFC_PROTOCOL_T1T : Int) then
    [(s.mTechParams i).param.pa.sel_rsp]
  else if type = (c.NFC_PROTOCOL_T2T : Int) then
    [(s.mTechParams i).param.pa.sel_rsp]
  else if type = (c.NFC_PROTOCOL_T3T : Int) then
    []
  else if type = (c.NFC_PROTOCOL_ISO_DEP : Int) then
    if s.mTechList i = c.TARGET_TYPE_ISO14443_4 then
      if mode = c.NFC_DISCOVERY_TYPE_POLL_A ∨ mode = c.NFC_DISCOVERY_TYPE_POLL_A_ACTIVE ∨
          mode = c.NFC_DISCOVERY_TYPE_LISTEN_A ∨ mode = c.NFC_DISCOVERY_TYPE_LISTEN_A_ACTIVE then
        if activationData.activate_ntf.intf_param.type = c.NFC_INTERFACE_ISO_DEP then
          let pa_iso := activationData.activate_ntf.intf_param.pa_iso
          bytesFrom pa_iso.his_byte 0 pa_iso.his_byte_len
        else
          []
      else if mode = c.NFC_DISCOVERY_TYPE_POLL_B ∨ mode = c.NFC_DISCOVERY_TYPE_POLL_B_PRIME ∨
          mode = c.NFC_DISCOVERY_TYPE_LISTEN_B ∨ mode = c.NFC_DISCOVERY_TYPE_LISTEN_B_PRIME then
        if activationData.activate_ntf.intf_param.type = c.NFC_INTERFACE_ISO_DEP then
          let pb_iso := activationData.activate_ntf.intf_param.pb_iso
          bytesFrom pb_iso.hi_info 0 pb_iso.hi_info_len
        else
          []
      else
        actBytes
    else if s.mTechList i = c.TARGET_TYPE_ISO14443_3A then
      [(s.mTechParams i).param.pa.sel_rsp]
    else
      []
  else if type = (c.NFC_PROTOCOL_15693 : Int) then
    [activationData.params.i93_afi, activationData.params.i93_dsfid]
  else
    []

/-- `NfcTag::fillNativeNfcTagMembers4`; as in the source, the bytes are pushed
onto `mTechPollBytes`. -/
def fillNativeNfcTagMembers4 (c : NciDefs) (s : NfcTag) (pNativeNfcTag : NativeNfcTag)
    (activationData : tNFA_ACTIVATED) : NativeNfcTag :=
  ((List.range s.mNumTechList).foldl
    (fun (st : List Nat × NativeNfcTag) i =>
      let actBytes := actBytesStep c s activationData st.1 i
      (actBytes, { st.2 with mTechPollBytes := st.2.mTechPollBytes ++ [actBytes] }))
    (([] : List Nat), pNativeNfcTag)).2

/-- The local vector `uid` of `fillNativeNfcTagMembers5` when it is pushed. -/
def uidBytes (c : NciDefs) (s : NfcTag) (activationData : tNFA_ACTIVATED) : List Nat :=
  let mode := (s.mTechParams 0).mode
  if mode = c.NFC_DISCOVERY_TYPE_POLL_KOVIO then
    let len := (s.mTechParams 0).param.pk.uid_len
    bytesFrom (s.mTechParams 0).param.pk.uid 0 len
  else if mode = c.NFC_DISCOVERY_TYPE_POLL_A ∨ mode = c.NFC_DISCOVERY_TYPE_POLL_A_ACTIVE ∨
      mode = c.NFC_DISCOVERY_TYPE_LISTEN_A ∨ mode = c.NFC_DISCOVERY_TYPE_LISTEN_A_ACTIVE then
    let len := (s.mTechParams 0).param.pa.nfcid1_len
    bytesFrom (s.mTechParams 0).param.pa.nfcid1 0 len
  else if mode = c.NFC_DISCOVERY_TYPE_POLL_B ∨ mode = c.NFC_DISCOVERY_TYPE_POLL_B_PRIME ∨
      mode = c.NFC_DISCOVERY_TYPE_LISTEN_B ∨ mode = c.NFC_DISCOVERY_TYPE_LISTEN_B_PRIME then
    bytesFrom (s.mTechParams 0).param.pb.nfcid0 0 c.NFC_NFCID0_MAX_LEN
  else if mode = c.NFC_DISCOVERY_TYPE_POLL_F ∨ mode = c.NFC_DISCOVERY_TYPE_POLL_F_ACTIVE ∨
      mode = c.NFC_DISCOVERY_TYPE_LISTEN_F ∨ mode = c.NFC_DISCOVERY_TYPE_LISTEN_F_ACTIVE then
    bytesFrom (s.mTechParams 0).param.pf.nfcid2 0 c.NFC_NFCID2_LEN
  else if mode = c.NFC_DISCOVERY_TYPE_POLL_ISO15693 ∨
      mode = c.NFC_DISCOVERY_TYPE_LISTEN_ISO15693 then
    let data : Nat → Nat := fun i => activationData.params.i93_uid (c.I93_UID_BYTE_LEN - i - 1)
    bytesFrom data 0 c.I93_UID_BYTE_LEN
  else
    []

/-- `NfcTag::fillNativeNfcTagMembers5`. -/
def fillNativeNfcTagMembers5 (c : NciDefs) (s : NfcTag) (pNativeNfcTag : NativeNfcTag)
    (activationData : tNFA_ACTIVATED) : NativeNfcTag :=
  { pNativeNfcTag with mUid := pNativeNfcTag.mUid ++ [uidBytes c s activationData] }

/-- `NfcTag::createNativeNfcTag`: when the manager hands out no object the
call returns at once; otherwise the object is filled in place and passed to
`notifyNdefMessageListeners`. -/
def createNativeNfcTag (c : NciDefs) (s : NfcTag) (activationData : tNFA_ACTIVATED) : NfcTag :=
  match s.mNfcManager.nativeNfcTag with
  | none => s
  | some pNativeNfcTag =>
    let pNativeNfcTag := fillNativeNfcTagMembers1 s pNativeNfcTag
    let pNativeNfcTag := fillNativeNfcTagMembers2 pNativeNfcTag
    let pNativeNfcTag := fillNativeNfcTagMembers3 c s pNativeNfcTag activationData
    let pNativeNfcTag := fillNativeNfcTagMembers4 c s pNativeNfcTag activationData
    let pNativeNfcTag := fillNativeNfcTagMembers5 c s pNativeNfcTag activationData
    { s with mNfcManager :=
        { nativeNfcTag := some pNativeNfcTag
          notified := s.mNfcManager.notified ++ [pNativeNfcTag] } }

/-! ## Connection events -/

/-- The pair `(event, data)` received by `connectionEventHandler`: the event
code selects the arm of the union `tNFA_CONN_EVT_DATA` that is read. -/
inductive ConnEvent where
  | NFA_DISC_RESULT_EVT (disc_result : tNFA_DISC_RESULT)
  | NFA_ACTIVATED_EVT (activated : tNFA_ACTIVATED)
  | NFA_DEACTIVATED_EVT (deactivated : tNFA_DEACTIVATED)
  | NFA_READ_CPLT_EVT (status : Nat)
  | NFA_NDEF_DETECT_EVT (status : Nat)
  | other (event : Nat)

/-- `NfcTag::connectionEventHandler`; `now` is the clock value read by
`IsSameKovio` during the call. -/
def connectionEventHandler (c : NciDefs) (s : NfcTag) (event : ConnEvent) (now : timespec) :
    NfcTag :=
  match event with
  | .NFA_DISC_RESULT_EVT disc_result =>
    if disc_result.status = c.NFA_STATUS_OK then
      discoverTechnologies_DISC_RESULT c s disc_result
    else s
  | .NFA_ACTIVATED_EVT activated =>
    if activated.activate_ntf.rf_tech_param.mode < c.NCI_DISCOVERY_TYPE_LISTEN_A ∧
        activated.activate_ntf.intf_param.type ≠ c.NFC_INTERFACE_EE_DIRECT_RF then
      let r := IsSameKovio c s activated now
      let s := r.2
      if r.1 then
        s
      else
        let s : NfcTag := { s with mProtocol := activated.activate_ntf.protocol }
        let s := calculateT1tMaxMessageSize c s activated
        let s := discoverTechnologies_ACTIVATED c s activated
        createNativeNfcTag c s activated
    else s
  | .NFA_DEACTIVATED_EVT _ =>
    let s : NfcTag := { s with mProtocol := c.NFC_PROTOCOL_UNKNOWN }
    resetTechnologies c s
  | .NFA_READ_CPLT_EVT status =>
    { s with mReadCompletedStatus := status }
  | .NFA_NDEF_DETECT_EVT status =>
    { s with mNdefDetectionTimedOut := decide (status = c.NFA_STATUS_TIMEOUT) }
  | .other _ => s

/-! ## Reachable states -/

/-- A call of a member function that can change the object, as made by the
users of the class: `initialize`, `setDeactivationState`, `setActivationState`,
`connectionEventHandler` and `resetTechnologies` (which is also all that
`selectP2p` does to the member variables). -/
inductive Call where
  | initializeTag (pNfcManager : NativeNfcManager)
  | setDeactivationState (deactivated : tNFA_DEACTIVATED)
  | setActivationState
  | connectionEventHandler (event : ConnEvent) (now : timespec)
  | resetTechnologies

/-- The object after the call `k`. -/
def NfcTag.call (c : NciDefs) (s : NfcTag) (k : Call) : NfcTag :=
  match k with
  | .initializeTag pNfcManager => s.initializeTag c pNfcManager
  | .setDeactivationState deactivated => setDeactivationState c s deactivated
  | .setActivationState => setActivationState s
  | .connectionEventHandler event now => connectionEventHandler c s event now
  | .resetTechnologies => resetTechnologies c s

/-- The states of the object that a sequence of calls can produce after
construction. -/
inductive Reachable (c : NciDefs) : NfcTag → Prop where
  | new (mgr : NativeNfcManager) (t0 : timespec) : Reachable c (NfcTag.new c mgr t0)
  | call {s : NfcTag} (k : Call) (h : Reachable c s) : Reachable c (s.call c k)

/-! ## Queries on the registry -/

/-- The loop of `NfcTag::isP2pDiscovered` over the indices still to visit;
`retval` starts as false and the loop stops at the first NFC-DEP entry. -/
def isP2pDiscovered.loop (c : NciDefs) (s : NfcTag) : List Nat → Bool
  | [] => false
  | i :: rest =>
    if s.mTechLibNfcTypes i = (c.NFA_PROTOCOL_NFC_DEP : Int) then
      true
    else
      isP2pDiscovered.loop c s rest

/-- `NfcTag::isP2pDiscovered`. -/
def isP2pDiscovered (c : NciDefs) (s : NfcTag) : Bool :=
  isP2pDiscovered.loop c s (List.range s.mNumTechList)

/-- The loop of `NfcTag::isMifareUltralight` over the indices still to visit;
`retval` starts as false and the loop stops at the first entry whose mode is
poll A, listen A or listen A active. -/
def isMifareUltralight.loop (c : NciDefs) (s : NfcTag) : List Nat → Bool
  | [] => false
  | i :: rest =>
    if (s.mTechParams i).mode = c.NFC_DISCOVERY_TYPE_POLL_A ∨
        (s.mTechParams i).mode = c.NFC_DISCOVERY_TYPE_LISTEN_A ∨
        (s.mTechParams i).mode = c.NFC_DISCOVERY_TYPE_LISTEN_A_ACTIVE then
      if (s.mTechParams i).param.pa.sens_res 0 = 0x44 ∧
          (s.mTechParams i).param.pa.sens_res 1 = 0 then
        true
      else
        false
    else
      isMifareUltralight.loop c s rest

/-- `NfcTag::isMifareUltralight`. -/
def isMifareUltralight (c : NciDefs) (s : NfcTag) : Bool :=
  isMifareUltralight.loop c s (List.range s.mNumTechList)

/-- The calls that keep a set NDEF-timeout flag set: every call except
`setDeactivationState`, `setActivationState` and the handling of an
NDEF-detect completion whose status is not `NFA_STATUS_TIMEOUT`. -/
def Call.keepsNdefTimeout (c : NciDefs) : Call → Prop
  | .setDeactivationState _ => False
  | .setActivationState => False
  | .connectionEventHandler (.NFA_NDEF_DETECT_EVT status) _ => status = c.NFA_STATUS_TIMEOUT
  | _ => True

/-! ## The interpreter rules of the specification (discovery path) -/

/-- Entry `i` of the registry as a triple: technology tag, handle, library
protocol. -/
def NfcTag.entry (s : NfcTag) (i : Nat) : Int × Int × Int :=
  (s.mTechList i, s.mTechHandles i, s.mTechLibNfcTypes i)

/-- The registry entries `0 .. mNumTechList-1` as triples, in index order. -/
def NfcTag.entries (s : NfcTag) : List (Int × Int × Int) :=
  (List.range s.mNumTechList).map s.entry

/-- The technology tags that the rules of the specification (section 4.1) give
for one discovery notification, written from the specification's wording: T1T
gives ISO14443-3A; T2T gives ISO14443-3A, followed by Mifare-Ultralight when
the select response is 0; T3T gives Felica; ISO-DEP gives ISO14443-4, followed
by ISO14443-3A for an A-variant mode or ISO14443-3B for a B-variant mode;
ISO15693 gives ISO15693; anything else (Kovio included, on this path) gives
Unknown. -/
def specDiscoveryTags (c : NciDefs) (ntf : tNFC_RESULT_DEVT) : List Int :=
  if ntf.protocol = c.NFC_PROTOCOL_T1T then
    [c.TARGET_TYPE_ISO14443_3A]
  else if ntf.protocol = c.NFC_PROTOCOL_T2T then
    if ntf.rf_tech_param.param.pa.sel_rsp = 0 then
      [c.TARGET_TYPE_ISO14443_3A, c.TARGET_TYPE_MIFARE_UL]
    else
      [c.TARGET_TYPE_ISO14443_3A]
  else if ntf.protocol = c.NFC_PROTOCOL_T3T then
    [c.TARGET_TYPE_FELICA]
  else if ntf.protocol = c.NFC_PROTOCOL_ISO_DEP then
    if ntf.rf_tech_param.mode ∈ c.modesA then
      [c.TARGET_TYPE_ISO14443_4, c.TARGET_TYPE_ISO14443_3A]
    else if ntf.rf_tech_param.mode ∈ c.modesB then
      [c.TARGET_TYPE_ISO14443_4, c.TARGET_TYPE_ISO14443_3B]
    else
      [c.TARGET_TYPE_ISO14443_4]
  else if ntf.protocol = c.NFC_PROTOCOL_15693 then
    [c.TARGET_TYPE_ISO15693]
  else
    [c.TARGET_TYPE_UNKNOWN]

/-- The interpretation of one discovery notification by the rules of the
specification: one triple per technology tag, each with the notification's
handle and protocol. -/
def specDiscoveryEntries (c : NciDefs) (ntf : tNFC_RESULT_DEVT) : List (Int × Int × Int) :=
  (specDiscoveryTags c ntf).map (fun tag => (tag, (ntf.rf_disc_id : Int), (ntf.protocol : Int)))

/-- The contents of the local vector `actBytes` of `fillNativeNfcTagMembers4`
when it is pushed in round `i` of the loop: the vector starts empty and each
round applies the body of the loop to what the previous round left. -/
def actBytesAt (c : NciDefs) (s : NfcTag) (activationData : tNFA_ACTIVATED) : Nat → List Nat
  | 0 => actBytesStep c s activationData [] 0
  | i + 1 => actBytesStep c s activationData (actBytesAt c s activationData i) (i + 1)

/-! ## Unblocking the reader -/

/-- `NfcTag::abort`: under the guard of `mReadCompleteEvent` the only statement
is `mReadCompleteEvent.notifyOne ()`.  The event object is passed next to the
record as the number of `notifyOne` calls it has received; no member variable
is assigned. -/
def NfcTag.abort (s : NfcTag) (mReadCompleteEvent : Nat) : NfcTag × Nat :=
  (s, mReadCompleteEvent + 1)

/-! ## Pending operation slots (`NfcTagManager`)

`NfcTagManager.h` declares `readNdef`, `writeNdef` and the other operations of
the coordinator; their bodies are not part of the sources.  The definitions of
this section follow the specification (sections 3, 5 and 8). -/

/-- Modelled from the spec: the operation kinds that own a pending-operation
slot ("read, write, connect/select, presence-check, format, make-read-only");
the bodies of the `NfcTagManager` operations are missing from the sources. -/
inductive OperationKind where
  | read
  | write
  | connect
  | presenceCheck
  | format
  | makeReadOnly
  deriving DecidableEq, Repr

/-- Modelled from the spec: what a call of an operation meets (the missing
`NfcTagManager` bodies): it is refused at once as busy, or its slot is armed
and the controller command is issued. -/
inductive IssueOutcome where
  | busy
  | issued
  deriving DecidableEq, Repr

/-- Modelled from the spec: a Pending Operation Slot of the missing
`NfcTagManager` implementation, "a wait handle plus a result/status field";
`armed` says that an operation of the slot's kind is outstanding. -/
structure PendingOperationSlot where
  armed : Bool
  result : Option Nat
  deriving DecidableEq, Repr

/-- Modelled from the spec: the state of the coordinator (the missing
`NfcTagManager` implementation) as far as the slots go: one Pending Operation
Slot per kind, and per kind the number of controller commands that were issued
and whose completion has not arrived yet (the outstanding operations). -/
structure Coordinator where
  slots : OperationKind → PendingOperationSlot
  outstanding : OperationKind → Nat

/-- Modelled from the spec: the coordinator of the missing `NfcTagManager`
implementation before any operation was started. -/
def Coordinator.idle : Coordinator where
  slots := fun _ => { armed := false, result := none }
  outstanding := fun _ => 0

/-- Modelled from the spec: the start of an operation of kind `k` in the
missing `NfcTagManager` implementation.  "A second call of the same kind while
one is pending must fail fast (busy) rather than queue"; otherwise "the slot
is armed before issuing the controller command". -/
def issueOperation (s : Coordinator) (k : OperationKind) : IssueOutcome × Coordinator :=
  if (s.slots k).armed then
    (IssueOutcome.busy, s)
  else
    (IssueOutcome.issued,
      { slots := Function.update s.slots k { armed := true, result := none }
        outstanding := Function.update s.outstanding k (s.outstanding k + 1) })

/-- Modelled from the spec: the completion callback of kind `k` in the missing
`NfcTagManager` implementation; the armed slot is "consumed exactly once by
the matching completion callback", which records the result.  A completion
that finds no armed slot changes nothing. -/
def completeOperation (s : Coordinator) (k : OperationKind) (status : Nat) : Coordinator :=
  if (s.slots k).armed then
    { slots := Function.update s.slots k { armed := false, result := some status }
      outstanding := Function.update s.outstanding k (s.outstanding k - 1) }
  else
    s

/-- Modelled from the spec: the start of `NfcTagManager::readNdef` (body
missing from the sources), an operation of kind read. -/
def readNdef (s : Coordinator) : IssueOutcome × Coordinator :=
  issueOperation s OperationKind.read

/-- Modelled from the spec: the start of `NfcTagManager::writeNdef` (body
missing from the sources), an operation of kind write. -/
def writeNdef (s : Coordinator) : IssueOutcome × Coordinator :=
  issueOperation s OperationKind.write

/-- Modelled from the spec: what reaches the coordinator of the missing
`NfcTagManager` implementation, in the order in which it takes effect: a
request thread starts an operation, or the callback thread delivers a
completion. -/
inductive CoordinatorEvent where
  | start (k : OperationKind)
  | completion (k : OperationKind) (status : Nat)

/-- Modelled from the spec: the coordinator of the missing `NfcTagManager`
implementation after one event. -/
def Coordinator.step (s : Coordinator) : CoordinatorEvent → Coordinator
  | .start k => (issueOperation s k).2
  | .completion k status => completeOperation s k status

/-- Modelled from the spec: the coordinator of the missing `NfcTagManager`
implementation after the events `evs`, starting idle. -/
def Coordinator.run (evs : List CoordinatorEvent) : Coordinator :=
  evs.foldl Coordinator.step Coordinator.idle

/-- Modelled from the spec: the bookkeeping that "exactly one outstanding
operation of a given kind is permitted at a time" asks of the missing
`NfcTagManager` implementation: per kind, the outstanding operations are one
when the slot is armed and none otherwise. -/
def Coordinator.Consistent (s : Coordinator) : Prop :=
  ∀ k, s.outstanding k = if (s.slots k).armed then 1 else 0

/-! ## The bounded wait of a blocking operation (`NfcTagManager`)

As for the pending operation slots, the bodies (`presenceCheck`,
`doPresenceCheck`, `doPresenceCheckResult`) are not part of the sources; the
definitions follow the specification (sections 4.3 and 5).  Time is counted in
ticks of the wait since the command was issued. -/

/-- Modelled from the spec: the wait of the calling thread on its slot in the
missing `NfcTagManager` implementation, "with a bounded timeout".
`arrival t` is the status that the completion callback records at tick `t`
(`none` when no callback is delivered at that tick), `remaining` the ticks
left of the bound, `tick` the current tick.  A result that is there when the
wait begins is not lost.  Returns the recorded status, if the callback arrived
in time, and the tick at which the wait ended. -/
def boundedWait (arrival : Nat → Option Nat) : Nat → Nat → Option Nat × Nat
  | 0, tick => (none, tick)
  | remaining + 1, tick =>
    match arrival tick with
    | some status => (some status, tick)
    | none => boundedWait arrival remaining (tick + 1)

/-- Modelled from the spec: `NfcTagManager::presenceCheck` (body missing from
the sources): it "issues a controller presence-check command, blocks on its
completion slot, returns true only if status is success; a failure or timeout
is reported as tag-not-present rather than propagated as an error"; a call
made while a presence check is outstanding fails fast and is reported as
tag-not-present as well.  Returns the result and the tick at which the call
returned. -/
def presenceCheck (c : NciDefs) (s : Coordinator) (arrival : Nat → Option Nat) (bound : Nat) :
    Bool × Nat :=
  match (issueOperation s OperationKind.presenceCheck).1 with
  | IssueOutcome.busy => (false, 0)
  | IssueOutcome.issued =>
    match boundedWait arrival bound 0 with
    | (some status, tick) => (decide (status = c.NFA_STATUS_OK), tick)
    | (none, tick) => (false, tick)

/-! ## Elapsed time (the quantity `TimeDiff` is meant to compute) -/

/-- A timestamp as `clock_gettime` delivers it: the nanosecond part lies in
`0 .. 999999999`. -/
def timespec.Normalised (t : timespec) : Prop :=
  0 ≤ t.tv_nsec ∧ t.tv_nsec < 1000000000

instance (t : timespec) : Decidable t.Normalised := by
  unfold timespec.Normalised; infer_instance

/-- The time from `start` to `end_` in nanoseconds, as an unbounded integer. -/
def elapsedNanos (start end_ : timespec) : Int :=
  (end_.tv_sec - start.tv_sec) * 1000000000 + (end_.tv_nsec - start.tv_nsec)

/-! ## Selecting a target -/

/-- The arguments of one call `NFA_Select (rf_disc_id, protocol, rf_interface)`,
as the caller passes them. -/
structure SelectCall where
  rf_disc_id : Int
  protocol : Int
  rf_interface : Nat
  deriving DecidableEq, Repr

/-- The loop of `NfcTag::selectP2p` over the indices still to visit;
`rfDiscoveryId` is the local `UINT8` variable, so a handle assigned to it is
reduced modulo 256.  The loop stops at the first NFC-DEP entry in mode poll F
or poll F active. -/
def selectP2p.loop (c : NciDefs) (s : NfcTag) : List Nat → Nat → Nat
  | [], rfDiscoveryId => rfDiscoveryId
  | i :: rest, rfDiscoveryId =>
    if s.mTechLibNfcTypes i ≠ (c.NFA_PROTOCOL_NFC_DEP : Int) then
      selectP2p.loop c s rest rfDiscoveryId
    else if (s.mTechParams i).mode = c.NFC_DISCOVERY_TYPE_POLL_F ∨
        (s.mTechParams i).mode = c.NFC_DISCOVERY_TYPE_POLL_F_ACTIVE then
      (s.mTechHandles i % 256).toNat
    else if (s.mTechParams i).mode = c.NFC_DISCOVERY_TYPE_POLL_A ∨
        (s.mTechParams i).mode = c.NFC_DISCOVERY_TYPE_POLL_A_ACTIVE then
      if rfDiscoveryId = 0 then
        selectP2p.loop c s rest (s.mTechHandles i % 256).toNat
      else
        selectP2p.loop c s rest rfDiscoveryId
    else
      selectP2p.loop c s rest rfDiscoveryId

/-- `NfcTag::selectP2p`: the call of `NFA_Select` it makes, if any, and the
object after the call (the registry is reset in either case). -/
def selectP2p (c : NciDefs) (s : NfcTag) : Option SelectCall × NfcTag :=
  let rfDiscoveryId := selectP2p.loop c s (List.range s.mNumTechList) 0
  let call : Option SelectCall :=
    if rfDiscoveryId > 0 then
      some { rf_disc_id := (rfDiscoveryId : Int)
             protocol := (c.NFA_PROTOCOL_NFC_DEP : Int)
             rf_interface := c.NFA_INTERFACE_NFC_DEP }
    else
      none
  (call, resetTechnologies c s)

/-- `NfcTag::selectFirstTag`: the call of `NFA_Select` it makes and the object
after the call. -/
def selectFirstTag (c : NciDefs) (s : NfcTag) : SelectCall × NfcTag :=
  let rf_intf : Nat :=
    if s.mTechLibNfcTypes 0 = (c.NFA_PROTOCOL_ISO_DEP : Int) then
      c.NFA_INTERFACE_ISO_DEP
    else if s.mTechLibNfcTypes 0 = (c.NFA_PROTOCOL_NFC_DEP : Int) then
      c.NFA_INTERFACE_NFC_DEP
    else
      c.NFA_INTERFACE_FRAME
  ({ rf_disc_id := s.mTechHandles 0, protocol := s.mTechLibNfcTypes 0, rf_interface := rf_intf },
    s)

/-- Entry `i` is an NFC-DEP entry in mode poll F or poll F active, the entries
`selectP2p` prefers. -/
def NfcTag.isP2pPollF (c : NciDefs) (s : NfcTag) (i : Nat) : Prop :=
  s.mTechLibNfcTypes i = (c.NFA_PROTOCOL_NFC_DEP : Int) ∧
  ((s.mTechParams i).mode = c.NFC_DISCOVERY_TYPE_POLL_F ∨
    (s.mTechParams i).mode = c.NFC_DISCOVERY_TYPE_POLL_F_ACTIVE)

/-- Entry `i` is an NFC-DEP entry in mode poll A or poll A active. -/
def NfcTag.isP2pPollA (c : NciDefs) (s : NfcTag) (i : Nat) : Prop :=
  s.mTechLibNfcTypes i = (c.NFA_PROTOCOL_NFC_DEP : Int) ∧
  ((s.mTechParams i).mode = c.NFC_DISCOVERY_TYPE_POLL_A ∨
    (s.mTechParams i).mode = c.NFC_DISCOVERY_TYPE_POLL_A_ACTIVE)

instance (c : NciDefs) (s : NfcTag) (i : Nat) : Decidable (s.isP2pPollF c i) := by
  unfold NfcTag.isP2pPollF; infer_instance

instance (c : NciDefs) (s : NfcTag) (i : Nat) : Decidable (s.isP2pPollA c i) := by
  unfold NfcTag.isP2pPollA; infer_instance

/-- Entry `i` has one of the three modes that `isMifareUltralight` tests for:
poll A, listen A or listen A active. -/
def NfcTag.isExaminedA (c : NciDefs) (s : NfcTag) (i : Nat) : Prop :=
  (s.mTechParams i).mode = c.NFC_DISCOVERY_TYPE_POLL_A ∨
  (s.mTechParams i).mode = c.NFC_DISCOVERY_TYPE_LISTEN_A ∨
  (s.mTechParams i).mode = c.NFC_DISCOVERY_TYPE_LISTEN_A_ACTIVE

instance (c : NciDefs) (s : NfcTag) (i : Nat) : Decidable (s.isExaminedA c i) := by
  unfold NfcTag.isExaminedA; infer_instance

/-! ## Chains of Kovio activations -/

/-- The results of successive calls of `IsSameKovio`, one per activation of the
list, each reading the clock value paired with it; the object is passed from
call to call. -/
def IsSameKovio.results (c : NciDefs) : NfcTag → List (tNFA_ACTIVATED × timespec) → List Bool
  | _, [] => []
  | s, p :: rest =>
    (IsSameKovio c s p.1 p.2).1 :: IsSameKovio.results c (IsSameKovio c s p.1 p.2).2 rest

/-- The activation is a Kovio-protocol activation in Kovio poll mode that
carries the UID `u` of length `len`. -/
def tNFA_ACTIVATED.isKovioUid (c : NciDefs) (a : tNFA_ACTIVATED) (len : Nat) (u : Nat → Nat) :
    Prop :=
  a.activate_ntf.protocol = c.NFC_PROTOCOL_KOVIO ∧
  a.activate_ntf.rf_tech_param.mode = c.NFC_DISCOVERY_TYPE_POLL_KOVIO ∧
  a.activate_ntf.rf_tech_param.param.pk.uid_len = len ∧
  ∀ i, i < len → a.activate_ntf.rf_tech_param.param.pk.uid i = u i

instance (c : NciDefs) (a : tNFA_ACTIVATED) (len : Nat) (u : Nat → Nat) :
    Decidable (a.isKovioUid c len u) := by
  unfold tNFA_ACTIVATED.isKovioUid; infer_instance

/-- From `t1` to `t2` time does not run backwards and less than 500 ms pass. -/
def timespec.within500ms (t1 t2 : timespec) : Prop :=
  0 ≤ elapsedNanos t1 t2 ∧ elapsedNanos t1 t2 < 500000000

instance (t1 t2 : timespec) : Decidable (t1.within500ms t2) := by
  unfold timespec.within500ms; infer_instance

/-- The Kovio de-duplication record of the object holds the UID `u` of length
`len`, last seen at time `t`. -/
def NfcTag.kovioRecordIs (s : NfcTag) (len : Nat) (u : Nat → Nat) (t : timespec) : Prop :=
  s.mLastKovioUidLen = len ∧ (∀ i, i < len → s.mLastKovioUid i = u i) ∧ s.mLastKovioTime = t

/-! ## Concrete inputs used for evaluations -/

/-- A service-layer collaborator whose tag object exists and is still empty. -/
def sampleManager : NativeNfcManager where
  nativeNfcTag := some
    { mTechList := [], mTechHandles := [], mTechLibNfcTypes := [], mTechPollBytes := [],
      mTechActBytes := [], mUid := [], mConnectedTechIndex := 0 }
  notified := []

/-- A freshly constructed tag object, with the header values `stdDefs`. -/
def sampleTag : NfcTag :=
  NfcTag.new stdDefs sampleManager { tv_sec := 0, tv_nsec := 0 }

/-- Technology-A parameters: discovery mode `mode`, select response `sel_rsp`
and a 7-byte NFCID1 whose first (manufacturer) byte is `manuf`. -/
def sampleParamsA (mode sel_rsp manuf : Nat) : tNFC_RF_TECH_PARAMS where
  mode := mode
  param :=
    { tNFC_RF_TECH_PARAMS.zero.param with
      pa := { sens_res := fun i => if i = 0 then 0x44 else 0
              nfcid1_len := 7
              nfcid1 := fun i => if i = 0 then manuf else if i < 7 then 0x10 + i else 0
              sel_rsp := sel_rsp } }

/-- An activation with handle `rf_disc_id`, protocol `protocol`, technology
parameters `p`, activated on the interface `intf`. -/
def sampleActivation (rf_disc_id protocol intf : Nat) (p : tNFC_RF_TECH_PARAMS) :
    tNFA_ACTIVATED where
  activate_ntf :=
    { rf_disc_id := rf_disc_id
      protocol := protocol
      rf_tech_param := p
      intf_param :=
        { type := intf
          pa_iso := { his_byte_len := 0, his_byte := fun _ => 0 }
          pb_iso := { hi_info_len := 0, hi_info := fun _ => 0 } } }
  params :=
    { t1t_hr := fun _ => 0
      t3t_num_system_codes := 0
      t3t_p_system_codes := fun _ => 0
      i93_afi := 0
      i93_dsfid := 0
      i93_uid := fun _ => 0 }

/-- A Type-2 tag polled on technology A: select response 0, handle 1, first
NFCID1 byte `manuf`. -/
def sampleT2T (manuf : Nat) : tNFA_ACTIVATED :=
  sampleActivation 1 stdDefs.NFC_PROTOCOL_T2T stdDefs.NFA_INTERFACE_FRAME
    (sampleParamsA stdDefs.NFC_DISCOVERY_TYPE_POLL_A 0 manuf)

/-- An ISO-DEP tag on technology A with handle 1, discovered in mode `mode`. -/
def sampleIsoDep (mode : Nat) : tNFA_ACTIVATED :=
  sampleActivation 1 stdDefs.NFC_PROTOCOL_ISO_DEP stdDefs.NFA_INTERFACE_ISO_DEP
    (sampleParamsA mode 0x20 0x04)

/-- A status-OK discovery notification with handle `rf_disc_id`, protocol
`protocol` and technology parameters `p`. -/
def sampleDiscovery (rf_disc_id protocol : Nat) (p : tNFC_RF_TECH_PARAMS) (more : Bool) :
    tNFA_DISC_RESULT where
  status := stdDefs.NFA_STATUS_OK
  discovery_ntf := { rf_disc_id := rf_disc_id, protocol := protocol, rf_tech_param := p, more := more }

/-- One discovery round reporting six targets: a Type-1 tag (handle 1) and
five Type-2 tags with select response 0 (handles 2 to 6). -/
def sampleDiscoveryRound : List tNFA_DISC_RESULT :=
  [ sampleDiscovery 1 stdDefs.NFC_PROTOCOL_T1T (sampleParamsA stdDefs.NFC_DISCOVERY_TYPE_POLL_A 0 0x04) true,
    sampleDiscovery 2 stdDefs.NFC_PROTOCOL_T2T (sampleParamsA stdDefs.NFC_DISCOVERY_TYPE_POLL_A 0 0x04) true,
    sampleDiscovery 3 stdDefs.NFC_PROTOCOL_T2T (sampleParamsA stdDefs.NFC_DISCOVERY_TYPE_POLL_A 0 0x04) true,
    sampleDiscovery 4 stdDefs.NFC_PROTOCOL_T2T (sampleParamsA stdDefs.NFC_DISCOVERY_TYPE_POLL_A 0 0x04) true,
    sampleDiscovery 5 stdDefs.NFC_PROTOCOL_T2T (sampleParamsA stdDefs.NFC_DISCOVERY_TYPE_POLL_A 0 0x04) true,
    sampleDiscovery 6 stdDefs.NFC_PROTOCOL_T2T (sampleParamsA stdDefs.NFC_DISCOVERY_TYPE_POLL_A 0 0x04) false ]

/-- A Kovio barcode activation (handle 1, Kovio poll mode) whose UID buffer
holds the bytes 0xA0, 0xA1, .. and whose reported UID length is `uid_len`. -/
def sampleKovio (uid_len : Nat) : tNFA_ACTIVATED :=
  sampleActivation 1 stdDefs.NFC_PROTOCOL_KOVIO stdDefs.NFA_INTERFACE_FRAME
    { mode := stdDefs.NFC_DISCOVERY_TYPE_POLL_KOVIO
      param :=
        { tNFC_RF_TECH_PARAMS.zero.param with
          pk := { uid_len := uid_len, uid := fun i => if i < 32 then 0xA0 + i else 0 } } }

/-- The fresh tag object after a Kovio activation with reported UID length
`uid_len`, received at second 100 of the clock. -/
def sampleAfterKovio (uid_len : Nat) : NfcTag :=
  connectionEventHandler stdDefs sampleTag (ConnEvent.NFA_ACTIVATED_EVT (sampleKovio uid_len))
    { tv_sec := 100, tv_nsec := 0 }

/-- The object `sampleAfterKovio uid_len` after the tag has left the field
(a deactivation notification). -/
def sampleAfterKovioLeft (uid_len : Nat) : NfcTag :=
  connectionEventHandler stdDefs (sampleAfterKovio uid_len)
    (ConnEvent.NFA_DEACTIVATED_EVT { type := 0 }) { tv_sec := 100, tv_nsec := 50000000 }

/-- A Type-1 tag polled on technology A whose first header-ROM byte is `hr0`. -/
def sampleT1T (hr0 : Nat) : tNFA_ACTIVATED :=
  { sampleActivation 1 stdDefs.NFC_PROTOCOL_T1T stdDefs.NFA_INTERFACE_FRAME
      (sampleParamsA stdDefs.NFC_DISCOVERY_TYPE_POLL_A 0 0x04) with
    params :=
      { t1t_hr := fun i => if i = 0 then hr0 else 0
        t3t_num_system_codes := 0
        t3t_p_system_codes := fun _ => 0
        i93_afi := 0
        i93_dsfid := 0
        i93_uid := fun _ => 0 } }

/-- The fresh tag object after the activation `a`, received at second 100 of
the clock and followed by `setActivationState`. -/
def sampleActive (a : tNFA_ACTIVATED) : NfcTag :=
  setActivationState
    (connectionEventHandler stdDefs sampleTag (ConnEvent.NFA_ACTIVATED_EVT a)
      { tv_sec := 100, tv_nsec := 0 })

/-- A deactivation notification of type sleep. -/
def sampleSleep : tNFA_DEACTIVATED where
  type := stdDefs.NFA_DEACTIVATE_TYPE_SLEEP

/-- A deactivation notification of a type other than sleep (type 0, idle). -/
def sampleDiscard : tNFA_DEACTIVATED where
  type := 0

/-- A run of events after an NDEF-detect timeout that holds no call of
`setActivationState` or `setDeactivationState`: a read completion, a discovery
result, an activation event, a deactivation event and a second NDEF-detect
timeout. -/
def sampleQuietCalls : List Call :=
  [ Call.connectionEventHandler (ConnEvent.NFA_READ_CPLT_EVT 0) { tv_sec := 101, tv_nsec := 0 },
    Call.connectionEventHandler
      (ConnEvent.NFA_DISC_RESULT_EVT
        (sampleDiscovery 1 stdDefs.NFC_PROTOCOL_T2T
          (sampleParamsA stdDefs.NFC_DISCOVERY_TYPE_POLL_A 0 0x04) false))
      { tv_sec := 102, tv_nsec := 0 },
    Call.connectionEventHandler (ConnEvent.NFA_ACTIVATED_EVT (sampleT2T 0x04))
      { tv_sec := 103, tv_nsec := 0 },
    Call.connectionEventHandler (ConnEvent.NFA_DEACTIVATED_EVT sampleDiscard)
      { tv_sec := 104, tv_nsec := 0 },
    Call.connectionEventHandler (ConnEvent.NFA_NDEF_DETECT_EVT stdDefs.NFA_STATUS_TIMEOUT)
      { tv_sec := 105, tv_nsec := 0 } ]

/-- A Type-2 activation on technology A (handle 1, first NFCID1 byte 0x04)
with select response `sel_rsp`. -/
def sampleT2TSel (sel_rsp : Nat) : tNFA_ACTIVATED :=
  sampleActivation 1 stdDefs.NFC_PROTOCOL_T2T stdDefs.NFA_INTERFACE_FRAME
    (sampleParamsA stdDefs.NFC_DISCOVERY_TYPE_POLL_A sel_rsp 0x04)

/-- A status-OK discovery notification (handle 7) whose protocol is Kovio. -/
def sampleKovioDiscovery : tNFA_DISC_RESULT :=
  sampleDiscovery 7 stdDefs.NFC_PROTOCOL_KOVIO (sampleKovio 8).activate_ntf.rf_tech_param false

/-- The fresh tag object after the Type-2 activation `sampleT2T 0x04` (select
response 0), received at second 100 of the clock. -/
def sampleAfterT2T : NfcTag :=
  connectionEventHandler stdDefs sampleTag (ConnEvent.NFA_ACTIVATED_EVT (sampleT2T 0x04))
    { tv_sec := 100, tv_nsec := 0 }

/-- An empty record, as the manager hands it out. -/
def sampleRecord : NativeNfcTag where
  mTechList := []
  mTechHandles := []
  mTechLibNfcTypes := []
  mTechPollBytes := []
  mTechActBytes := []
  mUid := []
  mConnectedTechIndex := 0

/-- A Felica (Type-3) activation polled on technology F, handle 1: SENSF_RES
holds the bytes 0x30, 0x31, .. (18 bytes), NFCID2 the bytes 0x50, .. (8 bytes);
`num_system_codes` system codes are reported, the first one being 0x12FC. -/
def sampleFelica (num_system_codes : Nat) : tNFA_ACTIVATED :=
  { sampleActivation 1 stdDefs.NFC_PROTOCOL_T3T stdDefs.NFA_INTERFACE_FRAME
      { mode := stdDefs.NFC_DISCOVERY_TYPE_POLL_F
        param :=
          { tNFC_RF_TECH_PARAMS.zero.param with
            pf := { sensf_res := fun i => if i < 18 then 0x30 + i else 0
                    nfcid2 := fun i => if i < 8 then 0x50 + i else 0 } } } with
    params :=
      { t1t_hr := fun _ => 0
        t3t_num_system_codes := num_system_codes
        t3t_p_system_codes := fun i => if i = 0 then 0x12FC else 0
        i93_afi := 0
        i93_dsfid := 0
        i93_uid := fun _ => 0 } }

/-- An ISO-DEP activation polled on technology B, handle 1, activated on the
ISO-DEP interface: SENSB_RES has `sensb_res_len` bytes 0x60, 0x61, ..; NFCID0
is 0x70, .. (4 bytes); the ATTRIB response carries the 3 higher-layer bytes
0x90, 0x91, 0x92. -/
def sampleIsoDepB (sensb_res_len : Nat) : tNFA_ACTIVATED :=
  { sampleActivation 1 stdDefs.NFC_PROTOCOL_ISO_DEP stdDefs.NFC_INTERFACE_ISO_DEP
      { mode := stdDefs.NFC_DISCOVERY_TYPE_POLL_B
        param :=
          { tNFC_RF_TECH_PARAMS.zero.param with
            pb := { sensb_res_len := sensb_res_len
                    sensb_res := fun i => if i < sensb_res_len then 0x60 + i else 0
                    nfcid0 := fun i => if i < 4 then 0x70 + i else 0 } } } with
    activate_ntf.intf_param.pb_iso :=
      { hi_info_len := 3, hi_info := fun i => if i < 3 then 0x90 + i else 0 } }

/-- An ISO 15693 activation, handle 1: AFI 0x21, DSFID 0x07 and the UID bytes
0xE0, 0xE1, .., 0xE7. -/
def sampleI93 : tNFA_ACTIVATED :=
  { sampleActivation 1 stdDefs.NFC_PROTOCOL_15693 stdDefs.NFA_INTERFACE_FRAME
      { mode := stdDefs.NFC_DISCOVERY_TYPE_POLL_ISO15693
        param := tNFC_RF_TECH_PARAMS.zero.param } with
    params :=
      { t1t_hr := fun _ => 0
        t3t_num_system_codes := 0
        t3t_p_system_codes := fun _ => 0
        i93_afi := 0x21
        i93_dsfid := 0x07
        i93_uid := fun i => if i < 8 then 0xE0 + i else 0 } }

/-- The registry of the fresh tag object after the activation-path
interpretation of `a`. -/
def sampleRegistry (a : tNFA_ACTIVATED) : NfcTag :=
  discoverTechnologies_ACTIVATED stdDefs sampleTag a

/-- An ISO-DEP activation polled on technology A, handle 1, select response
0x20, activated on the interface `intf`: the RATS response carries the 4
historical bytes 0x80, 0x81, 0x82, 0x83. -/
def sampleIsoDepA (intf : Nat) : tNFA_ACTIVATED :=
  { sampleActivation 1 stdDefs.NFC_PROTOCOL_ISO_DEP intf
      (sampleParamsA stdDefs.NFC_DISCOVERY_TYPE_POLL_A 0x20 0x04) with
    activate_ntf.intf_param.pa_iso :=
      { his_byte_len := 4, his_byte := fun i => if i < 4 then 0x80 + i else 0 } }

/-- A Kovio barcode activation (handle 1, Kovio poll mode) that reports the
UID length 40: the 32-byte UID buffer holds 0xA0, 0xA1, .., and the memory
behind the buffer holds the byte 0xEE. -/
def sampleKovioOverlong : tNFA_ACTIVATED :=
  sampleActivation 1 stdDefs.NFC_PROTOCOL_KOVIO stdDefs.NFA_INTERFACE_FRAME
    { mode := stdDefs.NFC_DISCOVERY_TYPE_POLL_KOVIO
      param :=
        { tNFC_RF_TECH_PARAMS.zero.param with
          pk := { uid_len := 40, uid := fun i => if i < 32 then 0xA0 + i else 0xEE } } }

/-- The tag object after `initialize` and a read completion that reported the
status `status`. -/
def sampleAfterRead (status : Nat) : NfcTag :=
  connectionEventHandler stdDefs (sampleTag.initializeTag stdDefs sampleManager)
    (ConnEvent.NFA_READ_CPLT_EVT status) { tv_sec := 100, tv_nsec := 0 }

/-- The events up to a moment at which a `readNdef` is pending: a connect that
has completed, then the start of a read. -/
def sampleReadPending : List CoordinatorEvent :=
  [CoordinatorEvent.start OperationKind.connect,
   CoordinatorEvent.completion OperationKind.connect 0,
   CoordinatorEvent.start OperationKind.read]

/-- Raw parameters that carry only the discovery mode `mode`. -/
def sampleParamsMode (mode : Nat) : tNFC_RF_TECH_PARAMS where
  mode := mode
  param := tNFC_RF_TECH_PARAMS.zero.param

/-- The fresh tag object after one discovery round that reports a peer on
three NFC-DEP targets: poll A (handle 3), poll F (handle 4), poll A active
(handle 5). -/
def samplePeerAFA : NfcTag :=
  [ sampleDiscovery 3 stdDefs.NFA_PROTOCOL_NFC_DEP
      (sampleParamsMode stdDefs.NFC_DISCOVERY_TYPE_POLL_A) true,
    sampleDiscovery 4 stdDefs.NFA_PROTOCOL_NFC_DEP
      (sampleParamsMode stdDefs.NFC_DISCOVERY_TYPE_POLL_F) true,
    sampleDiscovery 5 stdDefs.NFA_PROTOCOL_NFC_DEP
      (sampleParamsMode stdDefs.NFC_DISCOVERY_TYPE_POLL_A_ACTIVE) false ].foldl
    (discoverTechnologies_DISC_RESULT stdDefs) sampleTag

/-- The fresh tag object after one discovery round that reports a Type-2 tag
(handle 2, poll A, select response 0x20) and a peer on two NFC-DEP targets:
poll A (handle 3) and poll A active (handle 5). -/
def samplePeerAA : NfcTag :=
  [ sampleDiscovery 2 stdDefs.NFC_PROTOCOL_T2T
      (sampleParamsA stdDefs.NFC_DISCOVERY_TYPE_POLL_A 0x20 0x04) true,
    sampleDiscovery 3 stdDefs.NFA_PROTOCOL_NFC_DEP
      (sampleParamsMode stdDefs.NFC_DISCOVERY_TYPE_POLL_A) true,
    sampleDiscovery 5 stdDefs.NFA_PROTOCOL_NFC_DEP
      (sampleParamsMode stdDefs.NFC_DISCOVERY_TYPE_POLL_A_ACTIVE) false ].foldl
    (discoverTechnologies_DISC_RESULT stdDefs) sampleTag

/-- Technology-A parameters in mode `mode` with the SENS_RES bytes `b0`, `b1`. -/
def sampleParamsSens (mode b0 b1 : Nat) : tNFC_RF_TECH_PARAMS where
  mode := mode
  param :=
    { tNFC_RF_TECH_PARAMS.zero.param with
      pa := { sens_res := fun i => if i = 0 then b0 else if i = 1 then b1 else 0
              nfcid1_len := 0
              nfcid1 := fun _ => 0
              sel_rsp := 0 } }

/-- The fresh tag object after a discovery round of three targets on
technology A: poll A active with SENS_RES 0x44 0x00 (handle 1), poll A with
SENS_RES `b0` 0x00 (handle 2), poll A with SENS_RES 0x44 0x00 (handle 3). -/
def sampleThreeA (b0 : Nat) : NfcTag :=
  [ sampleDiscovery 1 stdDefs.NFC_PROTOCOL_T1T
      (sampleParamsSens stdDefs.NFC_DISCOVERY_TYPE_POLL_A_ACTIVE 0x44 0) true,
    sampleDiscovery 2 stdDefs.NFC_PROTOCOL_T1T
      (sampleParamsSens stdDefs.NFC_DISCOVERY_TYPE_POLL_A b0 0) true,
    sampleDiscovery 3 stdDefs.NFC_PROTOCOL_T1T
      (sampleParamsSens stdDefs.NFC_DISCOVERY_TYPE_POLL_A 0x44 0) false ].foldl
    (discoverTechnologies_DISC_RESULT stdDefs) sampleTag

/-- A status-OK ISO-DEP discovery notification on technology A (handle 1, poll
A, select response 0x20), carrying what the activation
`sampleIsoDep NFC_DISCOVERY_TYPE_POLL_A` carries. -/
def sampleDiscoveryIsoDep : tNFA_DISC_RESULT :=
  sampleDiscovery 1 stdDefs.NFC_PROTOCOL_ISO_DEP
    (sampleParamsA stdDefs.NFC_DISCOVERY_TYPE_POLL_A 0x20 0x04) false

/-- The Kovio barcode `sampleKovio 8` activated at 100.0 s of the clock. -/
def sampleKovioFirst : tNFA_ACTIVATED × timespec :=
  (sampleKovio 8, { tv_sec := 100, tv_nsec := 0 })

/-- Three more activations of the Kovio barcode `sampleKovio 8`, 400 ms apart:
at 100.4 s, 100.8 s and 101.2 s of the clock. -/
def sampleKovioRest : List (tNFA_ACTIVATED × timespec) :=
  [ (sampleKovio 8, { tv_sec := 100, tv_nsec := 400000000 }),
    (sampleKovio 8, { tv_sec := 100, tv_nsec := 800000000 }),
    (sampleKovio 8, { tv_sec := 101, tv_nsec := 200000000 }) ]

/-- A controller whose presence-check completion, with status
`NFA_STATUS_OK`, is delivered at tick 7 after the command. -/
def sampleArrivalAt7 : Nat → Option Nat :=
  fun t => if t = 7 then some stdDefs.NFA_STATUS_OK else none

/-- The fresh tag object after five Type-2 discovery notifications with select
response 0 (handles 2 to 6): the registry is full, with the ten entries at the
indices 0 to 9. -/
def sampleFullRegistry : NfcTag :=
  (sampleDiscoveryRound.drop 1).foldl (discoverTechnologies_DISC_RESULT stdDefs) sampleTag

theorem NciDefs.WellFormed.t2t_ne_t1t {c : NciDefs} (hc : c.WellFormed) :
    c.NFC_PROTOCOL_T2T ≠ c.NFC_PROTOCOL_T1T := by
  obtain ⟨hp, -, -⟩ := hc
  simp only [NciDefs.protocolCases, List.nodup_cons, List.mem_cons, List.mem_singleton, not_or,
    List.not_mem_nil, not_false_eq_true, List.nodup_nil, and_true] at hp
  omega

theorem NciDefs.WellFormed.iso_dep_ne {c : NciDefs} (hc : c.WellFormed) :
    c.NFC_PROTOCOL_ISO_DEP ≠ c.NFC_PROTOCOL_T1T ∧ c.NFC_PROTOCOL_ISO_DEP ≠ c.NFC_PROTOCOL_T2T ∧
      c.NFC_PROTOCOL_ISO_DEP ≠ c.NFC_PROTOCOL_T3T := by
  obtain ⟨hp, -, -⟩ := hc
  simp only [NciDefs.protocolCases, List.nodup_cons, List.mem_cons, List.mem_singleton, not_or,
    List.not_mem_nil, not_false_eq_true, List.nodup_nil, and_true] at hp
  omega

theorem NciDefs.mem_modesA {c : NciDefs} {m : Nat} :
    m ∈ c.modesA ↔ (m = c.NFC_DISCOVERY_TYPE_POLL_A ∨ m = c.NFC_DISCOVERY_TYPE_POLL_A_ACTIVE ∨
      m = c.NFC_DISCOVERY_TYPE_LISTEN_A ∨ m = c.NFC_DISCOVERY_TYPE_LISTEN_A_ACTIVE) := by
  simp [NciDefs.modesA]

theorem NciDefs.mem_modesB {c : NciDefs} {m : Nat} :
    m ∈ c.modesB ↔ (m = c.NFC_DISCOVERY_TYPE_POLL_B ∨ m = c.NFC_DISCOVERY_TYPE_POLL_B_PRIME ∨
      m = c.NFC_DISCOVERY_TYPE_LISTEN_B ∨ m = c.NFC_DISCOVERY_TYPE_LISTEN_B_PRIME) := by
  simp [NciDefs.modesB]

theorem NciDefs.WellFormed.not_modesA_of_modesB {c : NciDefs} (hc : c.WellFormed) {m : Nat}
    (hB : m ∈ c.modesB) : m ∉ c.modesA := by
  obtain ⟨-, hm, -⟩ := hc
  intro hA
  have hd := (List.nodup_append.1 hm).2.2
  exact hd hA (List.mem_append_left _ hB)

/-! ## Activation path -/

/-- C1, as stated, fails: a Type-2 activation with select response 0 whose
first NFCID1 byte is 0x05 resolves to the single entry `[ISO14443-3A]`; no
Mifare-Ultralight entry is added. -/
theorem C1_counterexample :
    (sampleT2T 0x05).activate_ntf.protocol = stdDefs.NFC_PROTOCOL_T2T ∧
    (sampleT2T 0x05).activate_ntf.rf_tech_param.param.pa.sel_rsp = 0 ∧
    (discoverTechnologies_ACTIVATED stdDefs sampleTag (sampleT2T 0x05)).techList
      = [stdDefs.TARGET_TYPE_ISO14443_3A] ∧
    (discoverTechnologies_ACTIVATED stdDefs sampleTag (sampleT2T 0x05)).techList.length ≠ 2 := by
  refine ⟨rfl, rfl, ?_, ?_⟩ <;> decide

/-- C1, amended: for every activation record whose protocol is T2T and whose
select-response byte is 0, whatever its mode and the prior registry contents,
the resolved technology list is `[ISO14443-3A, Mifare-Ultralight]` with both
entries carrying the activation's handle when the first NFCID1 byte is 0x04,
and it is the single entry `[ISO14443-3A]` with that handle otherwise. -/
theorem C1_activation_t2t_select_zero (c : NciDefs) (hc : c.WellFormed) (s : NfcTag)
    (a : tNFA_ACTIVATED)
    (hp : a.activate_ntf.protocol = c.NFC_PROTOCOL_T2T)
    (hsel : a.activate_ntf.rf_tech_param.param.pa.sel_rsp = 0) :
    (a.activate_ntf.rf_tech_param.param.pa.nfcid1 0 = 0x04 →
      (discoverTechnologies_ACTIVATED c s a).techList
          = [c.TARGET_TYPE_ISO14443_3A, c.TARGET_TYPE_MIFARE_UL] ∧
        (discoverTechnologies_ACTIVATED c s a).techHandles
          = [(a.activate_ntf.rf_disc_id : Int), (a.activate_ntf.rf_disc_id : Int)]) ∧
    (a.activate_ntf.rf_tech_param.param.pa.nfcid1 0 ≠ 0x04 →
      (discoverTechnologies_ACTIVATED c s a).techList = [c.TARGET_TYPE_ISO14443_3A] ∧
        (discoverTechnologies_ACTIVATED c s a).techHandles
          = [(a.activate_ntf.rf_disc_id : Int)]) := by
  have h21 := hc.t2t_ne_t1t
  constructor
  · intro hman
    simp [discoverTechnologies_ACTIVATED, hp, hsel, hman, h21, NfcTag.techList,
      NfcTag.techHandles, NfcTag.storeTechList, NfcTag.storeTechHandles, NfcTag.storeTechLibNfcTypes,
      NfcTag.storeTechParams, NfcTag.incNumTechList, List.range_succ]
  · intro hman
    simp [discoverTechnologies_ACTIVATED, hp, hsel, hman, h21, NfcTag.techList,
      NfcTag.techHandles, NfcTag.storeTechList, NfcTag.storeTechHandles, NfcTag.storeTechLibNfcTypes,
      NfcTag.storeTechParams, NfcTag.incNumTechList, List.range_succ]

/-- C1, amended, at a concrete Type-2 tag whose first NFCID1 byte is 0x04. -/
theorem C1_activation_t2t_select_zero_witness :
    stdDefs.WellFormed ∧
    (sampleT2T 0x04).activate_ntf.protocol = stdDefs.NFC_PROTOCOL_T2T ∧
    (sampleT2T 0x04).activate_ntf.rf_tech_param.param.pa.sel_rsp = 0 ∧
    (discoverTechnologies_ACTIVATED stdDefs sampleTag (sampleT2T 0x04)).techList
      = [stdDefs.TARGET_TYPE_ISO14443_3A, stdDefs.TARGET_TYPE_MIFARE_UL] ∧
    (discoverTechnologies_ACTIVATED stdDefs sampleTag (sampleT2T 0x04)).techHandles = [1, 1] :=
  ⟨by decide, rfl, rfl,
    (C1_activation_t2t_select_zero stdDefs (by decide) sampleTag (sampleT2T 0x04) rfl rfl).1 rfl⟩

/-- C2: for every activation record with protocol ISO-DEP the resolved list is
`[ISO14443-4, ISO14443-3A]` when the discovery mode is one of the four A
variants, `[ISO14443-4, ISO14443-3B]` when it is one of the four B variants,
and `[ISO14443-4]` for every other mode; every entry carries the activation's
handle and the library protocol ISO-DEP. -/
theorem C2_activation_iso_dep (c : NciDefs) (hc : c.WellFormed) (s : NfcTag)
    (a : tNFA_ACTIVATED)
    (hp : a.activate_ntf.protocol = c.NFC_PROTOCOL_ISO_DEP) :
    (a.activate_ntf.rf_tech_param.mode ∈ c.modesA →
      (discoverTechnologies_ACTIVATED c s a).techList
        = [c.TARGET_TYPE_ISO14443_4, c.TARGET_TYPE_ISO14443_3A]) ∧
    (a.activate_ntf.rf_tech_param.mode ∈ c.modesB →
      (discoverTechnologies_ACTIVATED c s a).techList
        = [c.TARGET_TYPE_ISO14443_4, c.TARGET_TYPE_ISO14443_3B]) ∧
    (a.activate_ntf.rf_tech_param.mode ∉ c.modesA →
      a.activate_ntf.rf_tech_param.mode ∉ c.modesB →
      (discoverTechnologies_ACTIVATED c s a).techList = [c.TARGET_TYPE_ISO14443_4]) ∧
    (∀ h ∈ (discoverTechnologies_ACTIVATED c s a).techHandles,
      h = (a.activate_ntf.rf_disc_id : Int)) ∧
    (∀ p ∈ (discoverTechnologies_ACTIVATED c s a).techLibNfcTypes,
      p = (c.NFC_PROTOCOL_ISO_DEP : Int)) := by
  obtain ⟨h1, h2, h3⟩ := hc.iso_dep_ne
  by_cases hA : a.activate_ntf.rf_tech_param.mode ∈ c.modesA
  · have hA' := NciDefs.mem_modesA.1 hA
    simp [discoverTechnologies_ACTIVATED, hp, h1, h2, h3, hA, hA', NfcTag.techList,
      NfcTag.techHandles, NfcTag.techLibNfcTypes, NfcTag.storeTechList, NfcTag.storeTechHandles,
      NfcTag.storeTechLibNfcTypes, NfcTag.storeTechParams, NfcTag.incNumTechList, List.range_succ]
    intro hB
    exact absurd hA (hc.not_modesA_of_modesB hB)
  · have hA' := mt NciDefs.mem_modesA.2 hA
    by_cases hB : a.activate_ntf.rf_tech_param.mode ∈ c.modesB
    · have hB' := NciDefs.mem_modesB.1 hB
      simp [discoverTechnologies_ACTIVATED, hp, h1, h2, h3, hA, hA', hB, hB', NfcTag.techList,
        NfcTag.techHandles, NfcTag.techLibNfcTypes, NfcTag.storeTechList, NfcTag.storeTechHandles,
        NfcTag.storeTechLibNfcTypes, NfcTag.storeTechParams, NfcTag.incNumTechList, List.range_succ]
    · have hB' := mt NciDefs.mem_modesB.2 hB
      simp [discoverTechnologies_ACTIVATED, hp, h1, h2, h3, hA, hA', hB, hB', NfcTag.techList,
        NfcTag.techHandles, NfcTag.techLibNfcTypes, NfcTag.storeTechList, NfcTag.storeTechHandles,
        NfcTag.storeTechLibNfcTypes, NfcTag.storeTechParams, NfcTag.incNumTechList, List.range_succ]

/-- C2 at a concrete ISO-DEP tag discovered in the technology-A poll mode. -/
theorem C2_activation_iso_dep_witness :
    stdDefs.WellFormed ∧
    (sampleIsoDep stdDefs.NFC_DISCOVERY_TYPE_POLL_A).activate_ntf.protocol
      = stdDefs.NFC_PROTOCOL_ISO_DEP ∧
    (discoverTechnologies_ACTIVATED stdDefs sampleTag
        (sampleIsoDep stdDefs.NFC_DISCOVERY_TYPE_POLL_A)).techList
      = [stdDefs.TARGET_TYPE_ISO14443_4, stdDefs.TARGET_TYPE_ISO14443_3A] :=
  ⟨by decide, rfl,
    (C2_activation_iso_dep stdDefs (by decide) sampleTag
      (sampleIsoDep stdDefs.NFC_DISCOVERY_TYPE_POLL_A) rfl).1 (by decide)⟩

/-! ## Discovery path -/

/-- C3 (the code departs from it): starting from a reset registry, a discovery
round of one Type-1 tag followed by five Type-2 tags with select response 0
passes the capacity guard of the sixth notification with a count of 9, stores
the synthesized Mifare-Ultralight entry at index 10 = `MAX_NUM_TECHNOLOGY` and
leaves the count at 11. -/
theorem C3_discovery_exceeds_capacity :
    stdDefs.MAX_NUM_TECHNOLOGY = 10 ∧
    (resetTechnologies stdDefs sampleTag).mNumTechList = 0 ∧
    ((sampleDiscoveryRound.take 5).foldl (discoverTechnologies_DISC_RESULT stdDefs)
        (resetTechnologies stdDefs sampleTag)).mNumTechList = 9 ∧
    (sampleDiscoveryRound.foldl (discoverTechnologies_DISC_RESULT stdDefs)
        (resetTechnologies stdDefs sampleTag)).mNumTechList = 11 ∧
    (resetTechnologies stdDefs sampleTag).mTechHandles 10 = 0 ∧
    (sampleDiscoveryRound.foldl (discoverTechnologies_DISC_RESULT stdDefs)
        (resetTechnologies stdDefs sampleTag)).mTechHandles 10 = 6 ∧
    (sampleDiscoveryRound.foldl (discoverTechnologies_DISC_RESULT stdDefs)
        (resetTechnologies stdDefs sampleTag)).mTechList 10 = stdDefs.TARGET_TYPE_MIFARE_UL := by
  refine ⟨rfl, rfl, ?_, ?_, ?_, ?_, ?_⟩ <;> decide

/-- C4: whenever the technology count is already at least
`MAX_NUM_TECHNOLOGY`, the discovery-path `discoverTechnologies` returns and
leaves the whole object, hence the count and every element of the four
registry arrays, unchanged. -/
theorem C4_discovery_at_capacity_noop (c : NciDefs) (s : NfcTag) (d : tNFA_DISC_RESULT)
    (hfull : s.mNumTechList ≥ c.MAX_NUM_TECHNOLOGY) :
    discoverTechnologies_DISC_RESULT c s d = s ∧
    (discoverTechnologies_DISC_RESULT c s d).mNumTechList = s.mNumTechList ∧
    (∀ i, (discoverTechnologies_DISC_RESULT c s d).mTechList i = s.mTechList i) ∧
    (∀ i, (discoverTechnologies_DISC_RESULT c s d).mTechHandles i = s.mTechHandles i) ∧
    (∀ i, (discoverTechnologies_DISC_RESULT c s d).mTechLibNfcTypes i = s.mTechLibNfcTypes i) ∧
    (∀ i, (discoverTechnologies_DISC_RESULT c s d).mTechParams i = s.mTechParams i) := by
  have h : discoverTechnologies_DISC_RESULT c s d = s := by
    unfold discoverTechnologies_DISC_RESULT
    exact if_pos hfull
  simp [h]

/-- C4 at a concrete full registry: ten entries from five Type-2 discovery
notifications, then one more notification. -/
theorem C4_discovery_at_capacity_noop_witness :
    ((sampleDiscoveryRound.drop 1).foldl (discoverTechnologies_DISC_RESULT stdDefs)
        sampleTag).mNumTechList ≥ stdDefs.MAX_NUM_TECHNOLOGY ∧
    discoverTechnologies_DISC_RESULT stdDefs
        ((sampleDiscoveryRound.drop 1).foldl (discoverTechnologies_DISC_RESULT stdDefs) sampleTag)
        (sampleDiscovery 7 stdDefs.NFC_PROTOCOL_T3T tNFC_RF_TECH_PARAMS.zero false)
      = (sampleDiscoveryRound.drop 1).foldl (discoverTechnologies_DISC_RESULT stdDefs) sampleTag :=
  ⟨by decide,
    (C4_discovery_at_capacity_noop stdDefs
      ((sampleDiscoveryRound.drop 1).foldl (discoverTechnologies_DISC_RESULT stdDefs) sampleTag)
      (sampleDiscovery 7 stdDefs.NFC_PROTOCOL_T3T tNFC_RF_TECH_PARAMS.zero false)
      (by decide)).1⟩

/-! ## Kovio de-duplication -/

/-- The condition under which `IsSameKovio` reports a duplicate. -/
theorem IsSameKovio_fst (c : NciDefs) (s : NfcTag) (a : tNFA_ACTIVATED) (now : timespec)
    (hp : a.activate_ntf.protocol = c.NFC_PROTOCOL_KOVIO)
    (hm : a.activate_ntf.rf_tech_param.mode = c.NFC_DISCOVERY_TYPE_POLL_KOVIO) :
    (IsSameKovio c s a now).1 = true ↔
      (a.activate_ntf.rf_tech_param.param.pk.uid_len = s.mLastKovioUidLen ∧
        (∀ i, i < a.activate_ntf.rf_tech_param.param.pk.uid_len →
          s.mLastKovioUid i = a.activate_ntf.rf_tech_param.param.pk.uid i) ∧
        TimeDiff s.mLastKovioTime now < 500) := by
  by_cases h1 : a.activate_ntf.rf_tech_param.param.pk.uid_len = s.mLastKovioUidLen <;>
  by_cases h2 : (∀ i, i < a.activate_ntf.rf_tech_param.param.pk.uid_len →
          s.mLastKovioUid i = a.activate_ntf.rf_tech_param.param.pk.uid i) <;>
  by_cases h3 : TimeDiff s.mLastKovioTime now < 500 <;>
  simp [IsSameKovio, hp, hm, NfcTag.setTechParams, memcmpEq, h1, h2, h3]

/-- The object after `IsSameKovio` reported a duplicate. -/
theorem IsSameKovio_snd_of_true (c : NciDefs) (s : NfcTag) (a : tNFA_ACTIVATED) (now : timespec)
    (h : (IsSameKovio c s a now).1 = true) :
    (IsSameKovio c s a now).2 =
      { s with
        mTechParams := Function.update s.mTechParams 0 a.activate_ntf.rf_tech_param
        mLastKovioTime := now } := by
  by_cases hp : a.activate_ntf.protocol = c.NFC_PROTOCOL_KOVIO
  · by_cases hm : a.activate_ntf.rf_tech_param.mode = c.NFC_DISCOVERY_TYPE_POLL_KOVIO
    · have hr : (if a.activate_ntf.rf_tech_param.param.pk.uid_len = s.mLastKovioUidLen then
          if memcmpEq s.mLastKovioUid a.activate_ntf.rf_tech_param.param.pk.uid
              a.activate_ntf.rf_tech_param.param.pk.uid_len = true then
            if TimeDiff s.mLastKovioTime now < 500 then true else false
          else false
        else false) = true := by
        simpa [IsSameKovio, hp, hm, NfcTag.setTechParams] using h
      simp only [IsSameKovio, hp, hm, NfcTag.setTechParams, Function.update_same, ne_eq,
        not_true_eq_false, if_false, if_true, hr]
    · simp [IsSameKovio, hp, hm, NfcTag.setTechParams] at h
  · simp [IsSameKovio, hp] at h

/-- The object after `IsSameKovio` found a Kovio poll-mode activation not to
be a duplicate. -/
theorem IsSameKovio_snd_of_false (c : NciDefs) (s : NfcTag) (a : tNFA_ACTIVATED) (now : timespec)
    (hp : a.activate_ntf.protocol = c.NFC_PROTOCOL_KOVIO)
    (hm : a.activate_ntf.rf_tech_param.mode = c.NFC_DISCOVERY_TYPE_POLL_KOVIO)
    (h : (IsSameKovio c s a now).1 = false) :
    (IsSameKovio c s a now).2 =
      { s with
        mTechParams := Function.update s.mTechParams 0 a.activate_ntf.rf_tech_param
        mLastKovioUidLen := min a.activate_ntf.rf_tech_param.param.pk.uid_len c.NFC_KOVIO_MAX_LEN
        mLastKovioUid := memcpyBytes s.mLastKovioUid a.activate_ntf.rf_tech_param.param.pk.uid
          (min a.activate_ntf.rf_tech_param.param.pk.uid_len c.NFC_KOVIO_MAX_LEN)
        mLastKovioTime := now } := by
  have hr : (if a.activate_ntf.rf_tech_param.param.pk.uid_len = s.mLastKovioUidLen then
      if memcmpEq s.mLastKovioUid a.activate_ntf.rf_tech_param.param.pk.uid
          a.activate_ntf.rf_tech_param.param.pk.uid_len = true then
        if TimeDiff s.mLastKovioTime now < 500 then true else false
      else false
    else false) = false := by
    simpa [IsSameKovio, hp, hm, NfcTag.setTechParams] using h
  by_cases hgt : a.activate_ntf.rf_tech_param.param.pk.uid_len > c.NFC_KOVIO_MAX_LEN
  · have hmin : min a.activate_ntf.rf_tech_param.param.pk.uid_len c.NFC_KOVIO_MAX_LEN
        = c.NFC_KOVIO_MAX_LEN := Nat.min_eq_right (Nat.le_of_lt hgt)
    simp only [IsSameKovio, hp, hm, NfcTag.setTechParams, Function.update_same, ne_eq,
      not_true_eq_false, not_false_eq_true, if_false, if_true, hr, hgt, hmin, Bool.false_eq_true]
  · have hmin : min a.activate_ntf.rf_tech_param.param.pk.uid_len c.NFC_KOVIO_MAX_LEN
        = a.activate_ntf.rf_tech_param.param.pk.uid_len := Nat.min_eq_left (Nat.le_of_not_lt hgt)
    simp only [IsSameKovio, hp, hm, NfcTag.setTechParams, Function.update_same, ne_eq,
      not_true_eq_false, not_false_eq_true, if_false, if_true, hr, hgt, hmin, Bool.false_eq_true]

/-! ## Frame lemmas and the invariant of the Kovio record -/

/-- The activation path changes the registry only. -/
theorem discoverTechnologies_ACTIVATED_frame (c : NciDefs) (s : NfcTag) (a : tNFA_ACTIVATED) :
    ∃ n tl th tt tp, discoverTechnologies_ACTIVATED c s a =
      { s with mNumTechList := n, mTechList := tl, mTechHandles := th, mTechLibNfcTypes := tt,
               mTechParams := tp } := by
  unfold discoverTechnologies_ACTIVATED
  dsimp only
  split_ifs <;>
  (try simp only [NfcTag.storeTechList, NfcTag.storeTechHandles, NfcTag.storeTechLibNfcTypes,
    NfcTag.storeTechParams, NfcTag.incNumTechList]) <;>
  exact ⟨_, _, _, _, _, rfl⟩

/-- The discovery path changes the registry only. -/
theorem discoverTechnologies_DISC_RESULT_frame (c : NciDefs) (s : NfcTag) (d : tNFA_DISC_RESULT) :
    ∃ n tl th tt tp, discoverTechnologies_DISC_RESULT c s d =
      { s with mNumTechList := n, mTechList := tl, mTechHandles := th, mTechLibNfcTypes := tt,
               mTechParams := tp } := by
  unfold discoverTechnologies_DISC_RESULT
  dsimp only
  split_ifs <;>
  (try simp only [NfcTag.storeTechList, NfcTag.storeTechHandles, NfcTag.storeTechLibNfcTypes,
    NfcTag.storeTechParams, NfcTag.incNumTechList]) <;>
  exact ⟨_, _, _, _, _, rfl⟩

/-- `calculateT1tMaxMessageSize` changes `mtT1tMaxMessageSize` only. -/
theorem calculateT1tMaxMessageSize_frame (c : NciDefs) (s : NfcTag) (a : tNFA_ACTIVATED) :
    ∃ n, calculateT1tMaxMessageSize c s a = { s with mtT1tMaxMessageSize := n } := by
  unfold calculateT1tMaxMessageSize
  split_ifs <;> exact ⟨_, rfl⟩

/-- `createNativeNfcTag` changes the collaborator only. -/
theorem createNativeNfcTag_frame (c : NciDefs) (s : NfcTag) (a : tNFA_ACTIVATED) :
    ∃ m, createNativeNfcTag c s a = { s with mNfcManager := m } := by
  unfold createNativeNfcTag
  split <;> exact ⟨_, rfl⟩

/-- `IsSameKovio` keeps the stored UID length within the UID buffer. -/
theorem IsSameKovio_len_le (c : NciDefs) (s : NfcTag) (a : tNFA_ACTIVATED) (now : timespec)
    (hinv : s.mLastKovioUidLen ≤ c.NFC_KOVIO_MAX_LEN) :
    (IsSameKovio c s a now).2.mLastKovioUidLen ≤ c.NFC_KOVIO_MAX_LEN := by
  by_cases hp : a.activate_ntf.protocol = c.NFC_PROTOCOL_KOVIO
  · by_cases hm : a.activate_ntf.rf_tech_param.mode = c.NFC_DISCOVERY_TYPE_POLL_KOVIO
    · cases h : (IsSameKovio c s a now).1
      · rw [IsSameKovio_snd_of_false c s a now hp hm h]
        exact Nat.min_le_right _ _
      · rw [IsSameKovio_snd_of_true c s a now h]
        exact hinv
    · simpa [IsSameKovio, hp, hm, NfcTag.setTechParams] using hinv
  · simpa [IsSameKovio, hp] using hinv

/-- `connectionEventHandler` keeps the stored UID length within the UID buffer. -/
theorem connectionEventHandler_kovio_len_le (c : NciDefs) (s : NfcTag) (ev : ConnEvent)
    (now : timespec) (hinv : s.mLastKovioUidLen ≤ c.NFC_KOVIO_MAX_LEN) :
    (connectionEventHandler c s ev now).mLastKovioUidLen ≤ c.NFC_KOVIO_MAX_LEN := by
  cases ev with
  | NFA_DISC_RESULT_EVT d =>
    simp only [connectionEventHandler]
    split_ifs
    · obtain ⟨n, tl, th, tt, tp, h⟩ := discoverTechnologies_DISC_RESULT_frame c s d
      rw [h]; exact hinv
    · exact hinv
  | NFA_ACTIVATED_EVT a =>
    simp only [connectionEventHandler]
    split_ifs
    · exact IsSameKovio_len_le c _ a now hinv
    · obtain ⟨m, h1⟩ := createNativeNfcTag_frame c
        (discoverTechnologies_ACTIVATED c (calculateT1tMaxMessageSize c
          { (IsSameKovio c s a now).2 with mProtocol := a.activate_ntf.protocol } a) a) a
      obtain ⟨n, tl, th, tt, tp, h2⟩ := discoverTechnologies_ACTIVATED_frame c
        (calculateT1tMaxMessageSize c
          { (IsSameKovio c s a now).2 with mProtocol := a.activate_ntf.protocol } a) a
      obtain ⟨k, h3⟩ := calculateT1tMaxMessageSize_frame c
        { (IsSameKovio c s a now).2 with mProtocol := a.activate_ntf.protocol } a
      rw [h1, h2, h3]
      exact IsSameKovio_len_le c _ a now hinv
    · exact hinv
  | NFA_DEACTIVATED_EVT d => exact hinv
  | NFA_READ_CPLT_EVT st => exact hinv
  | NFA_NDEF_DETECT_EVT st => exact hinv
  | other e => exact hinv

/-- In every reachable state the stored UID length is within the UID buffer. -/
theorem Reachable.kovio_len_le {c : NciDefs} {s : NfcTag} (h : Reachable c s) :
    s.mLastKovioUidLen ≤ c.NFC_KOVIO_MAX_LEN := by
  induction h with
  | new mgr t0 => exact Nat.zero_le _
  | call k h ih =>
    cases k with
    | initializeTag m => exact ih
    | setDeactivationState d =>
      simp only [NfcTag.call, setDeactivationState]
      split_ifs <;> exact ih
    | setActivationState => exact ih
    | connectionEventHandler ev now => exact connectionEventHandler_kovio_len_le c _ ev now ih
    | resetTechnologies => exact ih

/-- A Kovio poll-mode activation whose reported UID length fits the UID
buffer is reported as a duplicate when it is repeated within the window. -/
theorem IsSameKovio_repeat (c : NciDefs) (s : NfcTag) (a : tNFA_ACTIVATED) (now1 now2 : timespec)
    (hp : a.activate_ntf.protocol = c.NFC_PROTOCOL_KOVIO)
    (hm : a.activate_ntf.rf_tech_param.mode = c.NFC_DISCOVERY_TYPE_POLL_KOVIO)
    (hlen : a.activate_ntf.rf_tech_param.param.pk.uid_len ≤ c.NFC_KOVIO_MAX_LEN)
    (ht : TimeDiff now1 now2 < 500) :
    (IsSameKovio c (IsSameKovio c s a now1).2 a now2).1 = true := by
  rw [IsSameKovio_fst c _ a now2 hp hm]
  cases h : (IsSameKovio c s a now1).1
  · rw [IsSameKovio_snd_of_false c s a now1 hp hm h]
    refine ⟨(Nat.min_eq_left hlen).symm, ?_, ht⟩
    intro i hi
    simp [memcpyBytes, Nat.min_eq_left hlen, hi]
  · obtain ⟨h1, h2, -⟩ := (IsSameKovio_fst c s a now1 hp hm).1 h
    rw [IsSameKovio_snd_of_true c s a now1 h]
    exact ⟨h1, h2, ht⟩

/-- C5 (the code departs from it): a Kovio activation whose reported UID
length is 33, one more than the 32-byte UID buffer, repeated with the
identical UID and length 100 ms later, is not recognised as a duplicate:
`IsSameKovio` returns false for the second and `connectionEventHandler`
notifies the service layer a second time. -/
theorem C5_long_uid_not_suppressed :
    TimeDiff { tv_sec := 100, tv_nsec := 0 } { tv_sec := 100, tv_nsec := 100000000 } = 100 ∧
    (sampleAfterKovio 33).mNfcManager.notified.length = 1 ∧
    (IsSameKovio stdDefs (sampleAfterKovio 33) (sampleKovio 33)
      { tv_sec := 100, tv_nsec := 100000000 }).1 = false ∧
    (connectionEventHandler stdDefs (sampleAfterKovio 33)
      (ConnEvent.NFA_ACTIVATED_EVT (sampleKovio 33))
      { tv_sec := 100, tv_nsec := 100000000 }).mNfcManager.notified.length = 2 := by
  refine ⟨?_, ?_, ?_, ?_⟩ <;> decide

/-- C6 (the code departs from it): the same Kovio UID seen again 4294967296 ms
after the first activation gives `TimeDiff` = 0, so `IsSameKovio` returns true
and no second notification is made; and an activation reporting UID length 32
that follows, 100 ms later, one reporting length 33 with the same leading
bytes is also reported as a duplicate although the lengths differ. -/
theorem C6_late_or_different_reported_same :
    TimeDiff { tv_sec := 100, tv_nsec := 0 } { tv_sec := 4295067, tv_nsec := 296000000 } = 0 ∧
    (IsSameKovio stdDefs (sampleAfterKovio 8) (sampleKovio 8)
      { tv_sec := 4295067, tv_nsec := 296000000 }).1 = true ∧
    (connectionEventHandler stdDefs (sampleAfterKovio 8)
      (ConnEvent.NFA_ACTIVATED_EVT (sampleKovio 8))
      { tv_sec := 4295067, tv_nsec := 296000000 }).mNfcManager.notified.length = 1 ∧
    (IsSameKovio stdDefs (sampleAfterKovio 33) (sampleKovio 32)
      { tv_sec := 100, tv_nsec := 100000000 }).1 = true := by
  refine ⟨?_, ?_, ?_, ?_⟩ <;> decide

/-- C7: in every state reachable from construction, after `IsSameKovio` has
processed a Kovio-protocol activation in Kovio poll mode with UID `u` of
reported length `n` at time `t`, the stored length is
`min n NFC_KOVIO_MAX_LEN`, the first `min n NFC_KOVIO_MAX_LEN` stored UID bytes
are those of `u`, and the stored timestamp is `t`, whatever the call returned. -/
theorem C7_kovio_record_refreshed (c : NciDefs) (s : NfcTag) (hs : Reachable c s)
    (a : tNFA_ACTIVATED) (now : timespec)
    (hp : a.activate_ntf.protocol = c.NFC_PROTOCOL_KOVIO)
    (hm : a.activate_ntf.rf_tech_param.mode = c.NFC_DISCOVERY_TYPE_POLL_KOVIO) :
    (IsSameKovio c s a now).2.mLastKovioUidLen
        = min a.activate_ntf.rf_tech_param.param.pk.uid_len c.NFC_KOVIO_MAX_LEN ∧
    (∀ i, i < min a.activate_ntf.rf_tech_param.param.pk.uid_len c.NFC_KOVIO_MAX_LEN →
      (IsSameKovio c s a now).2.mLastKovioUid i = a.activate_ntf.rf_tech_param.param.pk.uid i) ∧
    (IsSameKovio c s a now).2.mLastKovioTime = now := by
  have hinv := hs.kovio_len_le
  cases h : (IsSameKovio c s a now).1
  · rw [IsSameKovio_snd_of_false c s a now hp hm h]
    refine ⟨rfl, ?_, rfl⟩
    intro i hi
    simp [memcpyBytes, hi]
  · obtain ⟨h1, h2, -⟩ := (IsSameKovio_fst c s a now hp hm).1 h
    rw [IsSameKovio_snd_of_true c s a now h]
    have hmin : min a.activate_ntf.rf_tech_param.param.pk.uid_len c.NFC_KOVIO_MAX_LEN
        = a.activate_ntf.rf_tech_param.param.pk.uid_len := Nat.min_eq_left (h1 ▸ hinv)
    refine ⟨by rw [hmin]; exact h1.symm, ?_, rfl⟩
    intro i hi
    rw [hmin] at hi
    exact h2 i hi

/-- C7 at a concrete state: the object that saw an 8-byte Kovio UID sees the
same UID again 100 ms later (a duplicate), and the record is refreshed. -/
theorem C7_kovio_record_refreshed_witness :
    Reachable stdDefs (sampleAfterKovio 8) ∧
    (IsSameKovio stdDefs (sampleAfterKovio 8) (sampleKovio 8)
      { tv_sec := 100, tv_nsec := 100000000 }).1 = true ∧
    (IsSameKovio stdDefs (sampleAfterKovio 8) (sampleKovio 8)
      { tv_sec := 100, tv_nsec := 100000000 }).2.mLastKovioUidLen = 8 ∧
    (IsSameKovio stdDefs (sampleAfterKovio 8) (sampleKovio 8)
      { tv_sec := 100, tv_nsec := 100000000 }).2.mLastKovioTime
      = { tv_sec := 100, tv_nsec := 100000000 } :=
  have hr : Reachable stdDefs (sampleAfterKovio 8) :=
    Reachable.call (Call.connectionEventHandler _ _) (Reachable.new _ _)
  have h := C7_kovio_record_refreshed stdDefs (sampleAfterKovio 8) hr (sampleKovio 8)
    { tv_sec := 100, tv_nsec := 100000000 } rfl rfl
  ⟨hr, by decide, h.1, h.2.2⟩

/-- What a suppressed activation does to the object: raw-parameter slot 0 and
the Kovio timestamp are overwritten, every other member is as before. -/
theorem connectionEventHandler_suppressed (c : NciDefs) (s : NfcTag) (a : tNFA_ACTIVATED)
    (now : timespec) (hk : (IsSameKovio c s a now).1 = true) :
    connectionEventHandler c s (ConnEvent.NFA_ACTIVATED_EVT a) now = s ∨
    connectionEventHandler c s (ConnEvent.NFA_ACTIVATED_EVT a) now =
      { s with
        mTechParams := Function.update s.mTechParams 0 a.activate_ntf.rf_tech_param
        mLastKovioTime := now } := by
  by_cases hacc : a.activate_ntf.rf_tech_param.mode < c.NCI_DISCOVERY_TYPE_LISTEN_A ∧
      a.activate_ntf.intf_param.type ≠ c.NFC_INTERFACE_EE_DIRECT_RF
  · right
    obtain ⟨h1, h2⟩ := hacc
    simp only [connectionEventHandler, h1, h2, hk, ne_eq, not_false_eq_true, and_self, if_true]
    exact IsSameKovio_snd_of_true c s a now hk
  · left
    simp only [connectionEventHandler, hacc, if_false]

/-- C8 (the code departs from it): a Kovio tag that is activated, leaves the
field and is activated again 100 ms after the first activation is classified
as a duplicate by `IsSameKovio`, and yet `connectionEventHandler` has replaced
raw-parameter slot 0 of the registry, which the deactivation had zeroed, by the
activation's technology parameters. -/
theorem C8_suppressed_activation_writes_slot0 :
    (IsSameKovio stdDefs (sampleAfterKovioLeft 8) (sampleKovio 8)
      { tv_sec := 100, tv_nsec := 100000000 }).1 = true ∧
    ((sampleAfterKovioLeft 8).mTechParams 0).mode = 0 ∧
    ((sampleAfterKovioLeft 8).mTechParams 0).param.pk.uid_len = 0 ∧
    ((connectionEventHandler stdDefs (sampleAfterKovioLeft 8)
      (ConnEvent.NFA_ACTIVATED_EVT (sampleKovio 8))
      { tv_sec := 100, tv_nsec := 100000000 }).mTechParams 0).mode
        = stdDefs.NFC_DISCOVERY_TYPE_POLL_KOVIO ∧
    ((connectionEventHandler stdDefs (sampleAfterKovioLeft 8)
      (ConnEvent.NFA_ACTIVATED_EVT (sampleKovio 8))
      { tv_sec := 100, tv_nsec := 100000000 }).mTechParams 0).param.pk.uid_len = 8 := by
  refine ⟨?_, ?_, ?_, ?_, ?_⟩ <;> decide

/-! ## Type-1 message size and Type-2 NACK -/

/-- An activation of a protocol other than Kovio is never a Kovio duplicate,
and `IsSameKovio` leaves the object as it was. -/
theorem IsSameKovio_of_not_kovio (c : NciDefs) (s : NfcTag) (a : tNFA_ACTIVATED) (now : timespec)
    (hp : a.activate_ntf.protocol ≠ c.NFC_PROTOCOL_KOVIO) :
    IsSameKovio c s a now = (false, s) := by
  simp [IsSameKovio, hp]

/-- The protocol and the Type-1 message size after an accepted activation. -/
theorem connectionEventHandler_accepted (c : NciDefs) (s : NfcTag) (a : tNFA_ACTIVATED)
    (now : timespec)
    (hmode : a.activate_ntf.rf_tech_param.mode < c.NCI_DISCOVERY_TYPE_LISTEN_A)
    (hintf : a.activate_ntf.intf_param.type ≠ c.NFC_INTERFACE_EE_DIRECT_RF)
    (hk : (IsSameKovio c s a now).1 = false) :
    (connectionEventHandler c s (ConnEvent.NFA_ACTIVATED_EVT a) now).mProtocol
        = a.activate_ntf.protocol ∧
    (connectionEventHandler c s (ConnEvent.NFA_ACTIVATED_EVT a) now).mtT1tMaxMessageSize
        = (calculateT1tMaxMessageSize c
            { (IsSameKovio c s a now).2 with mProtocol := a.activate_ntf.protocol }
            a).mtT1tMaxMessageSize := by
  obtain ⟨m, h1⟩ := createNativeNfcTag_frame c
    (discoverTechnologies_ACTIVATED c (calculateT1tMaxMessageSize c
      { (IsSameKovio c s a now).2 with mProtocol := a.activate_ntf.protocol } a) a) a
  obtain ⟨n, tl, th, tt, tp, h2⟩ := discoverTechnologies_ACTIVATED_frame c
    (calculateT1tMaxMessageSize c
      { (IsSameKovio c s a now).2 with mProtocol := a.activate_ntf.protocol } a) a
  obtain ⟨k, h3⟩ := calculateT1tMaxMessageSize_frame c
    { (IsSameKovio c s a now).2 with mProtocol := a.activate_ntf.protocol } a
  simp only [connectionEventHandler, hmode, hintf, hk, ne_eq, not_false_eq_true, and_self,
    if_true, Bool.false_eq_true, if_false]
  rw [h1, h2]
  refine ⟨?_, rfl⟩
  rw [h3]

/-- C9: after `connectionEventHandler` has accepted an activation (poll-side
mode, interface other than EE-direct-RF, not a Kovio duplicate) whose protocol
is T1T, `getT1tMaxMessageSize` returns 90 when `hr[0]` is `RW_T1T_IS_TOPAZ96`,
462 when it is `RW_T1T_IS_TOPAZ512`, and 0 for every other `hr[0]`; after an
accepted activation of any other protocol it returns 0. -/
theorem C9_t1t_max_message_size (c : NciDefs) (hc : c.WellFormed) (s : NfcTag)
    (a : tNFA_ACTIVATED) (now : timespec)
    (hmode : a.activate_ntf.rf_tech_param.mode < c.NCI_DISCOVERY_TYPE_LISTEN_A)
    (hintf : a.activate_ntf.intf_param.type ≠ c.NFC_INTERFACE_EE_DIRECT_RF)
    (hk : (IsSameKovio c s a now).1 = false) :
    (a.activate_ntf.protocol = c.NFC_PROTOCOL_T1T →
      (a.params.t1t_hr 0 = c.RW_T1T_IS_TOPAZ96 →
        getT1tMaxMessageSize c
          (connectionEventHandler c s (ConnEvent.NFA_ACTIVATED_EVT a) now) = 90) ∧
      (a.params.t1t_hr 0 = c.RW_T1T_IS_TOPAZ512 →
        getT1tMaxMessageSize c
          (connectionEventHandler c s (ConnEvent.NFA_ACTIVATED_EVT a) now) = 462) ∧
      (a.params.t1t_hr 0 ≠ c.RW_T1T_IS_TOPAZ96 → a.params.t1t_hr 0 ≠ c.RW_T1T_IS_TOPAZ512 →
        getT1tMaxMessageSize c
          (connectionEventHandler c s (ConnEvent.NFA_ACTIVATED_EVT a) now) = 0)) ∧
    (a.activate_ntf.protocol ≠ c.NFC_PROTOCOL_T1T →
      getT1tMaxMessageSize c
        (connectionEventHandler c s (ConnEvent.NFA_ACTIVATED_EVT a) now) = 0) := by
  obtain ⟨hproto, hsize⟩ := connectionEventHandler_accepted c s a now hmode hintf hk
  have h96 : c.RW_T1T_IS_TOPAZ96 ≠ c.RW_T1T_IS_TOPAZ512 := hc.2.2
  refine ⟨fun hp => ⟨fun h => ?_, fun h => ?_, fun h h' => ?_⟩, fun hp => ?_⟩
  · simp [getT1tMaxMessageSize, hproto, hsize, calculateT1tMaxMessageSize, hp, h]
  · simp [getT1tMaxMessageSize, hproto, hsize, calculateT1tMaxMessageSize, hp, h, h96.symm]
  · simp [getT1tMaxMessageSize, hproto, hsize, calculateT1tMaxMessageSize, hp, h, h']
  · simp [getT1tMaxMessageSize, hproto, hp]

/-- C9 at a concrete Type-1 tag whose first header-ROM byte is the Topaz-512
code. -/
theorem C9_t1t_max_message_size_witness :
    stdDefs.WellFormed ∧
    (sampleT1T 0x12).activate_ntf.rf_tech_param.mode < stdDefs.NCI_DISCOVERY_TYPE_LISTEN_A ∧
    (sampleT1T 0x12).activate_ntf.intf_param.type ≠ stdDefs.NFC_INTERFACE_EE_DIRECT_RF ∧
    (IsSameKovio stdDefs sampleTag (sampleT1T 0x12) { tv_sec := 100, tv_nsec := 0 }).1 = false ∧
    getT1tMaxMessageSize stdDefs
      (connectionEventHandler stdDefs sampleTag (ConnEvent.NFA_ACTIVATED_EVT (sampleT1T 0x12))
        { tv_sec := 100, tv_nsec := 0 }) = 462 :=
  ⟨by decide, by decide, by decide, by decide,
    ((C9_t1t_max_message_size stdDefs (by decide) sampleTag (sampleT1T 0x12)
      { tv_sec := 100, tv_nsec := 0 } (by decide) (by decide) (by decide)).1 rfl).2.1 rfl⟩

/-- C10: `isT2tNackResponse` returns true if and only if the response length
is exactly 1 and its single byte differs from 0x0A; in particular the one-byte
response 0x0A is not a NACK, the one-byte response 0x00 is a NACK, and every
response of length 0 or of length 2 or more is not a NACK. -/
theorem C10_isT2tNackResponse_iff :
    (∀ (response : Nat → Nat) (responseLen : Nat),
      isT2tNackResponse response responseLen = true ↔ (responseLen = 1 ∧ response 0 ≠ 0x0A)) ∧
    (∀ response : Nat → Nat, response 0 = 0x0A → isT2tNackResponse response 1 = false) ∧
    (∀ response : Nat → Nat, response 0 = 0x00 → isT2tNackResponse response 1 = true) ∧
    (∀ response : Nat → Nat, isT2tNackResponse response 0 = false) ∧
    (∀ (response : Nat → Nat) (responseLen : Nat), 2 ≤ responseLen →
      isT2tNackResponse response responseLen = false) := by
  refine ⟨?_, ?_, ?_, ?_, ?_⟩
  · intro response responseLen
    by_cases h1 : responseLen = 1 <;> by_cases h2 : response 0 = 0xA <;>
      simp [isT2tNackResponse, h1, h2]
  · intro response h
    simp [isT2tNackResponse, h]
  · intro response h
    simp [isT2tNackResponse, h]
  · intro response
    simp [isT2tNackResponse]
  · intro response responseLen h
    have h1 : responseLen ≠ 1 := by omega
    simp [isT2tNackResponse, h1]

/-! ## Deactivation and the lifecycle setters -/

/-- The object after the `NFA_DEACTIVATED_EVT` branch of
`connectionEventHandler`. -/
theorem connectionEventHandler_deactivated (c : NciDefs) (s : NfcTag) (d : tNFA_DEACTIVATED)
    (now : timespec) :
    connectionEventHandler c s (ConnEvent.NFA_DEACTIVATED_EVT d) now =
      { s with
        mProtocol := c.NFC_PROTOCOL_UNKNOWN
        mNumTechList := 0
        mTechList := memsetArray s.mTechList c.MAX_NUM_TECHNOLOGY 0
        mTechHandles := memsetArray s.mTechHandles c.MAX_NUM_TECHNOLOGY 0
        mTechLibNfcTypes := memsetArray s.mTechLibNfcTypes c.MAX_NUM_TECHNOLOGY 0
        mTechParams := memsetArray s.mTechParams c.MAX_NUM_TECHNOLOGY tNFC_RF_TECH_PARAMS.zero } :=
  rfl

/-- The object after `setDeactivationState`. -/
theorem setDeactivationState_eq (c : NciDefs) (s : NfcTag) (d : tNFA_DEACTIVATED) :
    setDeactivationState c s d =
      { s with
        mActivationState :=
          if d.type = c.NFA_DEACTIVATE_TYPE_SLEEP then ActivationState.Sleep
          else ActivationState.Idle
        mNdefDetectionTimedOut := false } := by
  unfold setDeactivationState
  split_ifs <;> rfl

/-- C11, as stated, fails: a Type-2 tag is active with two registry entries;
handling a deactivation of type sleep (`setDeactivationState`, then the
`NFA_DEACTIVATED_EVT` branch of `connectionEventHandler`) moves the state to
Sleep but leaves the technology count at 0 and entry 0 zeroed. -/
theorem C11_counterexample :
    (sampleActive (sampleT2T 0x04)).mNumTechList = 2 ∧
    (sampleActive (sampleT2T 0x04)).mTechList 0 = stdDefs.TARGET_TYPE_ISO14443_3A ∧
    (sampleActive (sampleT2T 0x04)).mTechHandles 0 = 1 ∧
    sampleSleep.type = stdDefs.NFA_DEACTIVATE_TYPE_SLEEP ∧
    (connectionEventHandler stdDefs
      (setDeactivationState stdDefs (sampleActive (sampleT2T 0x04)) sampleSleep)
      (ConnEvent.NFA_DEACTIVATED_EVT sampleSleep)
      { tv_sec := 101, tv_nsec := 0 }).mActivationState = ActivationState.Sleep ∧
    (connectionEventHandler stdDefs
      (setDeactivationState stdDefs (sampleActive (sampleT2T 0x04)) sampleSleep)
      (ConnEvent.NFA_DEACTIVATED_EVT sampleSleep)
      { tv_sec := 101, tv_nsec := 0 }).mNumTechList = 0 ∧
    (connectionEventHandler stdDefs
      (setDeactivationState stdDefs (sampleActive (sampleT2T 0x04)) sampleSleep)
      (ConnEvent.NFA_DEACTIVATED_EVT sampleSleep)
      { tv_sec := 101, tv_nsec := 0 }).mTechList 0 = 0 ∧
    (connectionEventHandler stdDefs
      (setDeactivationState stdDefs (sampleActive (sampleT2T 0x04)) sampleSleep)
      (ConnEvent.NFA_DEACTIVATED_EVT sampleSleep)
      { tv_sec := 101, tv_nsec := 0 }).mTechHandles 0 = 0 := by
  refine ⟨?_, ?_, ?_, rfl, ?_, ?_, ?_, ?_⟩ <;> decide

/-- C11, amended: for every state, handling a deactivation notification of
type sleep (`setDeactivationState` with type sleep together with the
`NFA_DEACTIVATED_EVT` branch of `connectionEventHandler`, in either order)
moves the activation state to Sleep and resets the registry: the technology
count is 0 and every element of the four registry arrays is zero. -/
theorem C11_sleep_deactivation_resets_registry (c : NciDefs) (s : NfcTag)
    (d : tNFA_DEACTIVATED) (now : timespec) (hd : d.type = c.NFA_DEACTIVATE_TYPE_SLEEP) :
    setDeactivationState c (connectionEventHandler c s (ConnEvent.NFA_DEACTIVATED_EVT d) now) d
      = connectionEventHandler c (setDeactivationState c s d) (ConnEvent.NFA_DEACTIVATED_EVT d) now ∧
    (connectionEventHandler c (setDeactivationState c s d)
      (ConnEvent.NFA_DEACTIVATED_EVT d) now).mActivationState = ActivationState.Sleep ∧
    (connectionEventHandler c (setDeactivationState c s d)
      (ConnEvent.NFA_DEACTIVATED_EVT d) now).mNumTechList = 0 ∧
    (∀ i, i < c.MAX_NUM_TECHNOLOGY →
      (connectionEventHandler c (setDeactivationState c s d)
        (ConnEvent.NFA_DEACTIVATED_EVT d) now).mTechList i = 0 ∧
      (connectionEventHandler c (setDeactivationState c s d)
        (ConnEvent.NFA_DEACTIVATED_EVT d) now).mTechHandles i = 0 ∧
      (connectionEventHandler c (setDeactivationState c s d)
        (ConnEvent.NFA_DEACTIVATED_EVT d) now).mTechLibNfcTypes i = 0 ∧
      (connectionEventHandler c (setDeactivationState c s d)
        (ConnEvent.NFA_DEACTIVATED_EVT d) now).mTechParams i = tNFC_RF_TECH_PARAMS.zero) := by
  refine ⟨?_, ?_, ?_, ?_⟩
  · simp only [connectionEventHandler_deactivated, setDeactivationState_eq, hd, if_true]
  · simp only [connectionEventHandler_deactivated, setDeactivationState_eq, hd, if_true]
  · simp only [connectionEventHandler_deactivated]
  · intro i hi
    simp [connectionEventHandler_deactivated, setDeactivationState_eq, memsetArray, hi]

/-- C11, amended, at a concrete active Type-2 tag. -/
theorem C11_sleep_deactivation_resets_registry_witness :
    sampleSleep.type = stdDefs.NFA_DEACTIVATE_TYPE_SLEEP ∧
    (connectionEventHandler stdDefs
      (setDeactivationState stdDefs (sampleActive (sampleT2T 0x04)) sampleSleep)
      (ConnEvent.NFA_DEACTIVATED_EVT sampleSleep)
      { tv_sec := 101, tv_nsec := 0 }).mActivationState = ActivationState.Sleep ∧
    (connectionEventHandler stdDefs
      (setDeactivationState stdDefs (sampleActive (sampleT2T 0x04)) sampleSleep)
      (ConnEvent.NFA_DEACTIVATED_EVT sampleSleep)
      { tv_sec := 101, tv_nsec := 0 }).mNumTechList = 0 :=
  have h := C11_sleep_deactivation_resets_registry stdDefs (sampleActive (sampleT2T 0x04))
    sampleSleep { tv_sec := 101, tv_nsec := 0 } rfl
  ⟨rfl, h.2.1, h.2.2.1⟩

/-- With no registry entries `isP2pDiscovered` finds nothing. -/
theorem isP2pDiscovered_of_count_zero (c : NciDefs) (s : NfcTag) (h : s.mNumTechList = 0) :
    isP2pDiscovered c s = false := by
  simp [isP2pDiscovered, h, isP2pDiscovered.loop]

/-- With no registry entries `isMifareUltralight` finds nothing. -/
theorem isMifareUltralight_of_count_zero (c : NciDefs) (s : NfcTag) (h : s.mNumTechList = 0) :
    isMifareUltralight c s = false := by
  simp [isMifareUltralight, h, isMifareUltralight.loop]

/-- C12: from every state, after `connectionEventHandler` has handled
`NFA_DEACTIVATED_EVT` the current protocol is `NFC_PROTOCOL_UNKNOWN`, the
technology count is 0, all four registry arrays are zero-filled, and
consequently (the protocol code for unknown not being the one for T1T)
`getT1tMaxMessageSize` returns 0 and `isP2pDiscovered` and
`isMifareUltralight` return false. -/
theorem C12_deactivation_clears_session (c : NciDefs)
    (hU : c.NFC_PROTOCOL_UNKNOWN ≠ c.NFC_PROTOCOL_T1T) (s : NfcTag) (d : tNFA_DEACTIVATED)
    (now : timespec) :
    getProtocol (connectionEventHandler c s (ConnEvent.NFA_DEACTIVATED_EVT d) now)
      = c.NFC_PROTOCOL_UNKNOWN ∧
    (connectionEventHandler c s (ConnEvent.NFA_DEACTIVATED_EVT d) now).mNumTechList = 0 ∧
    (∀ i, i < c.MAX_NUM_TECHNOLOGY →
      (connectionEventHandler c s (ConnEvent.NFA_DEACTIVATED_EVT d) now).mTechList i = 0 ∧
      (connectionEventHandler c s (ConnEvent.NFA_DEACTIVATED_EVT d) now).mTechHandles i = 0 ∧
      (connectionEventHandler c s (ConnEvent.NFA_DEACTIVATED_EVT d) now).mTechLibNfcTypes i = 0 ∧
      (connectionEventHandler c s (ConnEvent.NFA_DEACTIVATED_EVT d) now).mTechParams i
        = tNFC_RF_TECH_PARAMS.zero) ∧
    getT1tMaxMessageSize c
      (connectionEventHandler c s (ConnEvent.NFA_DEACTIVATED_EVT d) now) = 0 ∧
    isP2pDiscovered c
      (connectionEventHandler c s (ConnEvent.NFA_DEACTIVATED_EVT d) now) = false ∧
    isMifareUltralight c
      (connectionEventHandler c s (ConnEvent.NFA_DEACTIVATED_EVT d) now) = false := by
  refine ⟨rfl, rfl, ?_, ?_, ?_, ?_⟩
  · intro i hi
    simp [connectionEventHandler_deactivated, memsetArray, hi]
  · simp [getT1tMaxMessageSize, connectionEventHandler_deactivated, hU]
  · exact isP2pDiscovered_of_count_zero c _ rfl
  · exact isMifareUltralight_of_count_zero c _ rfl

/-- C12 at a concrete state: an active Topaz-96 Type-1 tag, for which
`getT1tMaxMessageSize` is 90 before the deactivation. -/
theorem C12_deactivation_clears_session_witness :
    stdDefs.NFC_PROTOCOL_UNKNOWN ≠ stdDefs.NFC_PROTOCOL_T1T ∧
    getT1tMaxMessageSize stdDefs (sampleActive (sampleT1T 0x11)) = 90 ∧
    getProtocol (connectionEventHandler stdDefs (sampleActive (sampleT1T 0x11))
      (ConnEvent.NFA_DEACTIVATED_EVT sampleDiscard) { tv_sec := 101, tv_nsec := 0 })
      = stdDefs.NFC_PROTOCOL_UNKNOWN ∧
    getT1tMaxMessageSize stdDefs (connectionEventHandler stdDefs (sampleActive (sampleT1T 0x11))
      (ConnEvent.NFA_DEACTIVATED_EVT sampleDiscard) { tv_sec := 101, tv_nsec := 0 }) = 0 :=
  have h := C12_deactivation_clears_session stdDefs (by decide) (sampleActive (sampleT1T 0x11))
    sampleDiscard { tv_sec := 101, tv_nsec := 0 }
  ⟨by decide, by decide, h.1, h.2.2.2.1⟩

/-- C13: from every state (so from each of Idle, Sleep and Active),
`setDeactivationState` yields Sleep when the deactivation type is sleep and
Idle when it is any other type (discard), `setActivationState` yields Active,
and after either call `isNdefDetectionTimedOut` returns false; each call
changes the activation state and the NDEF-timeout flag only, so the registry,
the current protocol and the Kovio record are as before. -/
theorem C13_lifecycle_setters (c : NciDefs) (s : NfcTag) (d : tNFA_DEACTIVATED) :
    (d.type = c.NFA_DEACTIVATE_TYPE_SLEEP →
      getActivationState (setDeactivationState c s d) = ActivationState.Sleep) ∧
    (d.type ≠ c.NFA_DEACTIVATE_TYPE_SLEEP →
      getActivationState (setDeactivationState c s d) = ActivationState.Idle) ∧
    getActivationState (setActivationState s) = ActivationState.Active ∧
    isNdefDetectionTimedOut (setDeactivationState c s d) = false ∧
    isNdefDetectionTimedOut (setActivationState s) = false ∧
    setDeactivationState c s d =
      { s with
        mActivationState := (setDeactivationState c s d).mActivationState
        mNdefDetectionTimedOut := false } ∧
    setActivationState s =
      { s with
        mActivationState := ActivationState.Active
        mNdefDetectionTimedOut := false } ∧
    ((setDeactivationState c s d).mNumTechList = s.mNumTechList ∧
      (setDeactivationState c s d).mTechList = s.mTechList ∧
      (setDeactivationState c s d).mTechHandles = s.mTechHandles ∧
      (setDeactivationState c s d).mTechLibNfcTypes = s.mTechLibNfcTypes ∧
      (setDeactivationState c s d).mTechParams = s.mTechParams ∧
      (setDeactivationState c s d).mProtocol = s.mProtocol ∧
      (setDeactivationState c s d).mLastKovioUidLen = s.mLastKovioUidLen ∧
      (setDeactivationState c s d).mLastKovioUid = s.mLastKovioUid ∧
      (setDeactivationState c s d).mLastKovioTime = s.mLastKovioTime) ∧
    ((setActivationState s).mNumTechList = s.mNumTechList ∧
      (setActivationState s).mTechList = s.mTechList ∧
      (setActivationState s).mTechHandles = s.mTechHandles ∧
      (setActivationState s).mTechLibNfcTypes = s.mTechLibNfcTypes ∧
      (setActivationState s).mTechParams = s.mTechParams ∧
      (setActivationState s).mProtocol = s.mProtocol ∧
      (setActivationState s).mLastKovioUidLen = s.mLastKovioUidLen ∧
      (setActivationState s).mLastKovioUid = s.mLastKovioUid ∧
      (setActivationState s).mLastKovioTime = s.mLastKovioTime) := by
  have h := setDeactivationState_eq c s d
  refine ⟨fun hd => ?_, fun hd => ?_, rfl, ?_, rfl, ?_, rfl, ?_, ?_⟩
  · simp [getActivationState, h, hd]
  · simp [getActivationState, h, hd]
  · simp [isNdefDetectionTimedOut, h]
  · rw [h]
  · simp [h]
  · exact ⟨rfl, rfl, rfl, rfl, rfl, rfl, rfl, rfl, rfl⟩

/-- C15: immediately after `connectionEventHandler` has handled an NDEF-detect
completion with status `st`, `isNdefDetectionTimedOut` returns true if and
only if `st` is `NFA_STATUS_TIMEOUT`, and the NDEF-timeout flag is the only
member the event changes. -/
theorem C15_ndef_detect_sets_flag (c : NciDefs) (s : NfcTag) (st : Nat) (now : timespec) :
    (isNdefDetectionTimedOut
        (connectionEventHandler c s (ConnEvent.NFA_NDEF_DETECT_EVT st) now) = true
      ↔ st = c.NFA_STATUS_TIMEOUT) ∧
    connectionEventHandler c s (ConnEvent.NFA_NDEF_DETECT_EVT st) now =
      { s with
        mNdefDetectionTimedOut :=
          (connectionEventHandler c s
            (ConnEvent.NFA_NDEF_DETECT_EVT st) now).mNdefDetectionTimedOut } := by
  constructor
  · simp [isNdefDetectionTimedOut, connectionEventHandler]
  · rfl

/-- C16: for every activation notification whose discovery mode is at or
above `NCI_DISCOVERY_TYPE_LISTEN_A` or whose interface type is EE-direct-RF,
`connectionEventHandler` leaves the whole object unchanged: protocol, T1T max
message size, registry, Kovio record and activation state are as before, and
nothing is notified to the service layer. -/
theorem C16_non_tag_activation_ignored (c : NciDefs) (s : NfcTag) (a : tNFA_ACTIVATED)
    (now : timespec)
    (h : a.activate_ntf.rf_tech_param.mode ≥ c.NCI_DISCOVERY_TYPE_LISTEN_A ∨
      a.activate_ntf.intf_param.type = c.NFC_INTERFACE_EE_DIRECT_RF) :
    connectionEventHandler c s (ConnEvent.NFA_ACTIVATED_EVT a) now = s ∧
    (connectionEventHandler c s (ConnEvent.NFA_ACTIVATED_EVT a) now).mNfcManager.notified
      = s.mNfcManager.notified := by
  have hn : ¬ (a.activate_ntf.rf_tech_param.mode < c.NCI_DISCOVERY_TYPE_LISTEN_A ∧
      a.activate_ntf.intf_param.type ≠ c.NFC_INTERFACE_EE_DIRECT_RF) := by
    rintro ⟨h1, h2⟩
    rcases h with h | h
    · exact absurd h1 (Nat.not_lt.2 h)
    · exact h2 h
  have hs : connectionEventHandler c s (ConnEvent.NFA_ACTIVATED_EVT a) now = s := by
    simp only [connectionEventHandler, hn, if_false]
  exact ⟨hs, by rw [hs]⟩

/-- C16 at a concrete activation in the technology-A listen mode. -/
theorem C16_non_tag_activation_ignored_witness :
    (sampleIsoDep stdDefs.NFC_DISCOVERY_TYPE_LISTEN_A).activate_ntf.rf_tech_param.mode
      ≥ stdDefs.NCI_DISCOVERY_TYPE_LISTEN_A ∧
    connectionEventHandler stdDefs sampleTag
      (ConnEvent.NFA_ACTIVATED_EVT (sampleIsoDep stdDefs.NFC_DISCOVERY_TYPE_LISTEN_A))
      { tv_sec := 100, tv_nsec := 0 } = sampleTag :=
  ⟨by decide,
    (C16_non_tag_activation_ignored stdDefs sampleTag
      (sampleIsoDep stdDefs.NFC_DISCOVERY_TYPE_LISTEN_A) { tv_sec := 100, tv_nsec := 0 }
      (Or.inl (by decide))).1⟩

/-! ## The NDEF-timeout flag -/

/-- `IsSameKovio` changes raw-parameter slot 0 and the Kovio record only. -/
theorem IsSameKovio_frame (c : NciDefs) (s : NfcTag) (a : tNFA_ACTIVATED) (now : timespec) :
    ∃ tp len uid t, (IsSameKovio c s a now).2 =
      { s with mTechParams := tp, mLastKovioUidLen := len, mLastKovioUid := uid,
               mLastKovioTime := t } := by
  by_cases hp : a.activate_ntf.protocol = c.NFC_PROTOCOL_KOVIO
  · by_cases hm : a.activate_ntf.rf_tech_param.mode = c.NFC_DISCOVERY_TYPE_POLL_KOVIO
    · cases h : (IsSameKovio c s a now).1
      · exact ⟨_, _, _, _, IsSameKovio_snd_of_false c s a now hp hm h⟩
      · exact ⟨_, _, _, _, IsSameKovio_snd_of_true c s a now h⟩
    · refine ⟨Function.update s.mTechParams 0 a.activate_ntf.rf_tech_param, s.mLastKovioUidLen,
        s.mLastKovioUid, s.mLastKovioTime, ?_⟩
      simp [IsSameKovio, hp, hm, NfcTag.setTechParams]
  · refine ⟨s.mTechParams, s.mLastKovioUidLen, s.mLastKovioUid, s.mLastKovioTime, ?_⟩
    simp [IsSameKovio, hp]

/-- Only the NDEF-detect event changes the NDEF-timeout flag in
`connectionEventHandler`. -/
theorem connectionEventHandler_ndef_flag (c : NciDefs) (s : NfcTag) (ev : ConnEvent)
    (now : timespec) (hev : ∀ st, ev ≠ ConnEvent.NFA_NDEF_DETECT_EVT st) :
    (connectionEventHandler c s ev now).mNdefDetectionTimedOut = s.mNdefDetectionTimedOut := by
  cases ev with
  | NFA_DISC_RESULT_EVT d =>
    simp only [connectionEventHandler]
    split_ifs
    · obtain ⟨n, tl, th, tt, tp, h⟩ := discoverTechnologies_DISC_RESULT_frame c s d
      rw [h]
    · rfl
  | NFA_ACTIVATED_EVT a =>
    obtain ⟨tp0, len, uid, t, hk⟩ := IsSameKovio_frame c s a now
    simp only [connectionEventHandler]
    split_ifs
    · rw [hk]
    · obtain ⟨m, h1⟩ := createNativeNfcTag_frame c
        (discoverTechnologies_ACTIVATED c (calculateT1tMaxMessageSize c
          { (IsSameKovio c s a now).2 with mProtocol := a.activate_ntf.protocol } a) a) a
      obtain ⟨n, tl, th, tt, tp, h2⟩ := discoverTechnologies_ACTIVATED_frame c
        (calculateT1tMaxMessageSize c
          { (IsSameKovio c s a now).2 with mProtocol := a.activate_ntf.protocol } a) a
      obtain ⟨k, h3⟩ := calculateT1tMaxMessageSize_frame c
        { (IsSameKovio c s a now).2 with mProtocol := a.activate_ntf.protocol } a
      rw [h1, h2, h3, hk]
    · rfl
  | NFA_DEACTIVATED_EVT d => rfl
  | NFA_READ_CPLT_EVT st => rfl
  | NFA_NDEF_DETECT_EVT st => exact absurd rfl (hev st)
  | other e => rfl

/-- A call that keeps the NDEF-timeout flag leaves a set flag set. -/
theorem NfcTag.call_keeps_ndef_flag (c : NciDefs) (s : NfcTag) (k : Call)
    (hk : k.keepsNdefTimeout c) (hs : s.mNdefDetectionTimedOut = true) :
    (s.call c k).mNdefDetectionTimedOut = true := by
  cases k with
  | initializeTag m => exact hs
  | setDeactivationState d => exact absurd hk id
  | setActivationState => exact absurd hk id
  | connectionEventHandler ev now =>
    cases ev with
    | NFA_NDEF_DETECT_EVT st =>
      have hst : st = c.NFA_STATUS_TIMEOUT := hk
      simp [NfcTag.call, connectionEventHandler, hst]
    | NFA_DISC_RESULT_EVT d =>
      exact (connectionEventHandler_ndef_flag c s _ now (fun st h => by cases h)).trans hs
    | NFA_ACTIVATED_EVT a =>
      exact (connectionEventHandler_ndef_flag c s _ now (fun st h => by cases h)).trans hs
    | NFA_DEACTIVATED_EVT d => exact hs
    | NFA_READ_CPLT_EVT st => exact hs
    | other e => exact hs
  | resetTechnologies => exact hs

/-- C14, as stated, fails: after an NDEF-detect completion with status timeout
has set the flag, a later NDEF-detect completion with status OK (no activation
in between) makes `isNdefDetectionTimedOut` return false; so does a call of
`setDeactivationState`. -/
theorem C14_counterexample :
    isNdefDetectionTimedOut
      (connectionEventHandler stdDefs sampleTag
        (ConnEvent.NFA_NDEF_DETECT_EVT stdDefs.NFA_STATUS_TIMEOUT)
        { tv_sec := 100, tv_nsec := 0 }) = true ∧
    isNdefDetectionTimedOut
      (connectionEventHandler stdDefs
        (connectionEventHandler stdDefs sampleTag
          (ConnEvent.NFA_NDEF_DETECT_EVT stdDefs.NFA_STATUS_TIMEOUT)
          { tv_sec := 100, tv_nsec := 0 })
        (ConnEvent.NFA_NDEF_DETECT_EVT stdDefs.NFA_STATUS_OK)
        { tv_sec := 101, tv_nsec := 0 }) = false ∧
    isNdefDetectionTimedOut
      (setDeactivationState stdDefs
        (connectionEventHandler stdDefs sampleTag
          (ConnEvent.NFA_NDEF_DETECT_EVT stdDefs.NFA_STATUS_TIMEOUT)
          { tv_sec := 100, tv_nsec := 0 })
        sampleDiscard) = false := by
  refine ⟨?_, ?_, ?_⟩ <;> decide

/-- C14, amended: once an NDEF-detect completion with status timeout has set
the flag, `isNdefDetectionTimedOut` keeps returning true across every
subsequent sequence of events and calls that contains no call of
`setActivationState`, no call of `setDeactivationState` and no NDEF-detect
completion with a status other than timeout. -/
theorem C14_ndef_flag_kept (c : NciDefs) (s : NfcTag) (now : timespec) (ks : List Call)
    (hks : ∀ k ∈ ks, k.keepsNdefTimeout c) :
    isNdefDetectionTimedOut
      (ks.foldl (fun t k => t.call c k)
        (connectionEventHandler c s (ConnEvent.NFA_NDEF_DETECT_EVT c.NFA_STATUS_TIMEOUT) now))
      = true := by
  have h0 : (connectionEventHandler c s
      (ConnEvent.NFA_NDEF_DETECT_EVT c.NFA_STATUS_TIMEOUT) now).mNdefDetectionTimedOut = true := by
    simp [connectionEventHandler]
  generalize connectionEventHandler c s
    (ConnEvent.NFA_NDEF_DETECT_EVT c.NFA_STATUS_TIMEOUT) now = t at h0
  induction ks generalizing t with
  | nil => exact h0
  | cons k rest ih =>
    rw [List.foldl_cons]
    exact ih (fun k' hk' => hks k' (List.mem_cons_of_mem _ hk')) (t.call c k)
      (NfcTag.call_keeps_ndef_flag c t k (hks k (List.mem_cons_self _ _)) h0)

/-- C14, amended, at a concrete run of five events. -/
theorem C14_ndef_flag_kept_witness :
    (∀ k ∈ sampleQuietCalls, k.keepsNdefTimeout stdDefs) ∧
    isNdefDetectionTimedOut
      (sampleQuietCalls.foldl (fun t k => t.call stdDefs k)
        (connectionEventHandler stdDefs sampleTag
          (ConnEvent.NFA_NDEF_DETECT_EVT stdDefs.NFA_STATUS_TIMEOUT)
          { tv_sec := 100, tv_nsec := 0 })) = true :=
  have hq : ∀ k ∈ sampleQuietCalls, k.keepsNdefTimeout stdDefs := by
    intro k hk
    simp only [sampleQuietCalls, List.mem_cons, List.mem_singleton, List.not_mem_nil,
      or_false] at hk
    rcases hk with rfl | rfl | rfl | rfl | rfl
    · exact trivial
    · exact trivial
    · exact trivial
    · exact trivial
    · exact rfl
  ⟨hq, C14_ndef_flag_kept stdDefs sampleTag { tv_sec := 100, tv_nsec := 0 } sampleQuietCalls hq⟩

/-! ## Activation path: the remaining protocols -/

/-- The case labels of the protocol `switch` are pairwise different. -/
theorem NciDefs.WellFormed.protocols_ne {c : NciDefs} (hc : c.WellFormed) :
    (c.NFC_PROTOCOL_T1T ≠ c.NFC_PROTOCOL_T2T ∧ c.NFC_PROTOCOL_T1T ≠ c.NFC_PROTOCOL_T3T ∧
      c.NFC_PROTOCOL_T1T ≠ c.NFC_PROTOCOL_ISO_DEP ∧ c.NFC_PROTOCOL_T1T ≠ c.NFC_PROTOCOL_15693 ∧
      c.NFC_PROTOCOL_T1T ≠ c.NFC_PROTOCOL_KOVIO) ∧
    (c.NFC_PROTOCOL_T2T ≠ c.NFC_PROTOCOL_T3T ∧ c.NFC_PROTOCOL_T2T ≠ c.NFC_PROTOCOL_ISO_DEP ∧
      c.NFC_PROTOCOL_T2T ≠ c.NFC_PROTOCOL_15693 ∧ c.NFC_PROTOCOL_T2T ≠ c.NFC_PROTOCOL_KOVIO) ∧
    (c.NFC_PROTOCOL_T3T ≠ c.NFC_PROTOCOL_ISO_DEP ∧ c.NFC_PROTOCOL_T3T ≠ c.NFC_PROTOCOL_15693 ∧
      c.NFC_PROTOCOL_T3T ≠ c.NFC_PROTOCOL_KOVIO) ∧
    (c.NFC_PROTOCOL_ISO_DEP ≠ c.NFC_PROTOCOL_15693 ∧
      c.NFC_PROTOCOL_ISO_DEP ≠ c.NFC_PROTOCOL_KOVIO) ∧
    c.NFC_PROTOCOL_15693 ≠ c.NFC_PROTOCOL_KOVIO := by
  obtain ⟨hp, -, -⟩ := hc
  simpa only [NciDefs.protocolCases, List.nodup_cons, List.mem_cons, List.mem_singleton, not_or,
    List.not_mem_nil, not_false_eq_true, List.nodup_nil, and_true, ne_eq] using hp

/-- C17, as stated, fails: a Type-2 activation with select response 0x18 (and
likewise 0x08) and first NFCID1 byte 0x04 resolves to the single entry
`[ISO14443-3A]`; the registry holds no second entry. -/
theorem C17_counterexample :
    (sampleT2TSel 0x18).activate_ntf.protocol = stdDefs.NFC_PROTOCOL_T2T ∧
    (sampleT2TSel 0x18).activate_ntf.rf_tech_param.param.pa.sel_rsp = 0x18 ∧
    (sampleT2TSel 0x18).activate_ntf.rf_tech_param.param.pa.nfcid1 0 = 0x04 ∧
    (discoverTechnologies_ACTIVATED stdDefs sampleTag (sampleT2TSel 0x18)).mNumTechList = 1 ∧
    (discoverTechnologies_ACTIVATED stdDefs sampleTag (sampleT2TSel 0x18)).techList
      = [stdDefs.TARGET_TYPE_ISO14443_3A] ∧
    stdDefs.TARGET_TYPE_MIFARE_UL ∉
      (discoverTechnologies_ACTIVATED stdDefs sampleTag (sampleT2TSel 0x18)).techList ∧
    (discoverTechnologies_ACTIVATED stdDefs sampleTag (sampleT2TSel 0x08)).techList
      = [stdDefs.TARGET_TYPE_ISO14443_3A] := by
  refine ⟨rfl, rfl, rfl, ?_, ?_, ?_, ?_⟩ <;> decide

/-- C17, amended: for every activation record with protocol T2T whose
select-response is 0x18 or 0x08, whatever its first UID byte, the resolved
list is the single entry `[ISO14443-3A]`, carrying the activation's handle,
protocol and raw parameters; no Mifare-Ultralight entry is added. -/
theorem C17_activation_t2t_select_18_08 (c : NciDefs) (hc : c.WellFormed) (s : NfcTag)
    (a : tNFA_ACTIVATED)
    (hp : a.activate_ntf.protocol = c.NFC_PROTOCOL_T2T)
    (hsel : a.activate_ntf.rf_tech_param.param.pa.sel_rsp = 0x18 ∨
      a.activate_ntf.rf_tech_param.param.pa.sel_rsp = 0x08) :
    (discoverTechnologies_ACTIVATED c s a).mNumTechList = 1 ∧
    (discoverTechnologies_ACTIVATED c s a).techList = [c.TARGET_TYPE_ISO14443_3A] ∧
    (discoverTechnologies_ACTIVATED c s a).techHandles = [(a.activate_ntf.rf_disc_id : Int)] ∧
    (discoverTechnologies_ACTIVATED c s a).techLibNfcTypes
      = [(a.activate_ntf.protocol : Int)] ∧
    (discoverTechnologies_ACTIVATED c s a).mTechParams 0 = a.activate_ntf.rf_tech_param := by
  have h21 := hc.t2t_ne_t1t
  rcases hsel with hsel | hsel <;>
    simp [discoverTechnologies_ACTIVATED, hp, hsel, h21, NfcTag.techList, NfcTag.techHandles,
      NfcTag.techLibNfcTypes, NfcTag.storeTechList, NfcTag.storeTechHandles,
      NfcTag.storeTechLibNfcTypes, NfcTag.storeTechParams, NfcTag.incNumTechList,
      List.range_succ]

/-- C17, amended, at a concrete Type-2 tag with select response 0x08. -/
theorem C17_activation_t2t_select_18_08_witness :
    stdDefs.WellFormed ∧
    (sampleT2TSel 0x08).activate_ntf.protocol = stdDefs.NFC_PROTOCOL_T2T ∧
    (sampleT2TSel 0x08).activate_ntf.rf_tech_param.param.pa.sel_rsp = 0x08 ∧
    (discoverTechnologies_ACTIVATED stdDefs sampleTag (sampleT2TSel 0x08)).mNumTechList = 1 ∧
    (discoverTechnologies_ACTIVATED stdDefs sampleTag (sampleT2TSel 0x08)).techList
      = [stdDefs.TARGET_TYPE_ISO14443_3A] :=
  have h := C17_activation_t2t_select_18_08 stdDefs (by decide) sampleTag (sampleT2TSel 0x08)
    rfl (Or.inr rfl)
  ⟨by decide, rfl, rfl, h.1, h.2.1⟩

/-- C18: for every activation record whose protocol is T1T, T3T, ISO15693,
Kovio or a value outside the recognised set, the activation-path
`discoverTechnologies` returns with exactly one entry, tagged respectively
ISO14443-3A, Felica, ISO15693, Kovio-barcode or Unknown, whose handle is the
activation's `rf_disc_id` and whose library protocol is the reported protocol
value. -/
theorem C18_activation_single_entry (c : NciDefs) (hc : c.WellFormed) (s : NfcTag)
    (a : tNFA_ACTIVATED) :
    (a.activate_ntf.protocol = c.NFC_PROTOCOL_T1T →
      (discoverTechnologies_ACTIVATED c s a).techList = [c.TARGET_TYPE_ISO14443_3A]) ∧
    (a.activate_ntf.protocol = c.NFC_PROTOCOL_T3T →
      (discoverTechnologies_ACTIVATED c s a).techList = [c.TARGET_TYPE_FELICA]) ∧
    (a.activate_ntf.protocol = c.NFC_PROTOCOL_15693 →
      (discoverTechnologies_ACTIVATED c s a).techList = [c.TARGET_TYPE_ISO15693]) ∧
    (a.activate_ntf.protocol = c.NFC_PROTOCOL_KOVIO →
      (discoverTechnologies_ACTIVATED c s a).techList = [c.TARGET_TYPE_KOVIO_BARCODE]) ∧
    (a.activate_ntf.protocol ∉ c.protocolCases →
      (discoverTechnologies_ACTIVATED c s a).techList = [c.TARGET_TYPE_UNKNOWN]) ∧
    (a.activate_ntf.protocol ≠ c.NFC_PROTOCOL_T2T →
      a.activate_ntf.protocol ≠ c.NFC_PROTOCOL_ISO_DEP →
      (discoverTechnologies_ACTIVATED c s a).mNumTechList = 1 ∧
      (discoverTechnologies_ACTIVATED c s a).techHandles
        = [(a.activate_ntf.rf_disc_id : Int)] ∧
      (discoverTechnologies_ACTIVATED c s a).techLibNfcTypes
        = [(a.activate_ntf.protocol : Int)]) := by
  obtain ⟨⟨h12, h13, h14, h15, h16⟩, ⟨h23, h24, h25, h26⟩, ⟨h34, h35, h36⟩, ⟨h45, h46⟩, h56⟩ :=
    hc.protocols_ne
  refine ⟨fun hp => ?_, fun hp => ?_, fun hp => ?_, fun hp => ?_, fun hp => ?_,
    fun hp2 hp4 => ?_⟩
  · simp [discoverTechnologies_ACTIVATED, hp, NfcTag.techList, NfcTag.storeTechList,
      NfcTag.storeTechHandles, NfcTag.storeTechLibNfcTypes, NfcTag.storeTechParams,
      NfcTag.incNumTechList, List.range_succ]
  · simp [discoverTechnologies_ACTIVATED, hp, h13.symm, h23.symm, NfcTag.techList,
      NfcTag.storeTechList, NfcTag.storeTechHandles, NfcTag.storeTechLibNfcTypes,
      NfcTag.storeTechParams, NfcTag.incNumTechList, List.range_succ]
  · simp [discoverTechnologies_ACTIVATED, hp, h15.symm, h25.symm, h35.symm, h45.symm,
      NfcTag.techList, NfcTag.storeTechList, NfcTag.storeTechHandles,
      NfcTag.storeTechLibNfcTypes, NfcTag.storeTechParams, NfcTag.incNumTechList,
      List.range_succ]
  · simp [discoverTechnologies_ACTIVATED, hp, h16.symm, h26.symm, h36.symm, h46.symm, h56.symm,
      NfcTag.techList, NfcTag.storeTechList, NfcTag.storeTechHandles,
      NfcTag.storeTechLibNfcTypes, NfcTag.storeTechParams, NfcTag.incNumTechList,
      List.range_succ]
  · simp only [NciDefs.protocolCases, List.mem_cons, List.mem_singleton, List.not_mem_nil,
      or_false, not_or] at hp
    obtain ⟨g1, g2, g3, g4, g5, g6⟩ := hp
    simp [discoverTechnologies_ACTIVATED, g1, g2, g3, g4, g5, g6, NfcTag.techList,
      NfcTag.storeTechList, NfcTag.storeTechHandles, NfcTag.storeTechLibNfcTypes,
      NfcTag.storeTechParams, NfcTag.incNumTechList, List.range_succ]
  · unfold discoverTechnologies_ACTIVATED
    dsimp only
    split_ifs <;>
    simp [NfcTag.techHandles, NfcTag.techLibNfcTypes, NfcTag.storeTechList,
      NfcTag.storeTechHandles, NfcTag.storeTechLibNfcTypes, NfcTag.storeTechParams,
      NfcTag.incNumTechList, List.range_succ]

/-- C18 at a concrete Kovio activation. -/
theorem C18_activation_single_entry_witness :
    stdDefs.WellFormed ∧
    (sampleKovio 8).activate_ntf.protocol = stdDefs.NFC_PROTOCOL_KOVIO ∧
    (discoverTechnologies_ACTIVATED stdDefs sampleTag (sampleKovio 8)).techList
      = [stdDefs.TARGET_TYPE_KOVIO_BARCODE] :=
  ⟨by decide, rfl,
    (C18_activation_single_entry stdDefs (by decide) sampleTag (sampleKovio 8)).2.2.2.1 rfl⟩

/-- C19: from every prior state, after the activation-path
`discoverTechnologies` the technology count is 1 or 2, entry 0 has the
activation's handle, protocol and raw parameters, and a second entry, when
present, has the same handle, library protocol and raw parameters as entry 0. -/
theorem C19_activation_entries_coindexed (c : NciDefs) (s : NfcTag) (a : tNFA_ACTIVATED) :
    ((discoverTechnologies_ACTIVATED c s a).mNumTechList = 1 ∨
      (discoverTechnologies_ACTIVATED c s a).mNumTechList = 2) ∧
    (discoverTechnologies_ACTIVATED c s a).mTechHandles 0 = (a.activate_ntf.rf_disc_id : Int) ∧
    (discoverTechnologies_ACTIVATED c s a).mTechLibNfcTypes 0
      = (a.activate_ntf.protocol : Int) ∧
    (discoverTechnologies_ACTIVATED c s a).mTechParams 0 = a.activate_ntf.rf_tech_param ∧
    ((discoverTechnologies_ACTIVATED c s a).mNumTechList = 2 →
      (discoverTechnologies_ACTIVATED c s a).mTechHandles 1
        = (discoverTechnologies_ACTIVATED c s a).mTechHandles 0 ∧
      (discoverTechnologies_ACTIVATED c s a).mTechLibNfcTypes 1
        = (discoverTechnologies_ACTIVATED c s a).mTechLibNfcTypes 0 ∧
      (discoverTechnologies_ACTIVATED c s a).mTechParams 1
        = (discoverTechnologies_ACTIVATED c s a).mTechParams 0) := by
  unfold discoverTechnologies_ACTIVATED
  dsimp only
  split_ifs <;>
  simp [NfcTag.storeTechList, NfcTag.storeTechHandles, NfcTag.storeTechLibNfcTypes,
    NfcTag.storeTechParams, NfcTag.incNumTechList]

/-! ## Discovery path: the registry as an append-only list -/

/-- One entry stored at the first free index is appended to the entry list. -/
theorem NfcTag.entries_append_one (s t : NfcTag) (e : Int × Int × Int)
    (hn : t.mNumTechList = s.mNumTechList + 1)
    (hold : ∀ i, i < s.mNumTechList → t.entry i = s.entry i)
    (hnew : t.entry s.mNumTechList = e) :
    t.entries = s.entries ++ [e] := by
  unfold NfcTag.entries
  rw [hn, List.range_succ, List.map_append, List.map_singleton, hnew]
  congr 1
  exact List.map_congr_left (fun i hi => hold i (List.mem_range.1 hi))

/-- Two entries stored at the first two free indices are appended to the entry
list. -/
theorem NfcTag.entries_append_two (s t : NfcTag) (e1 e2 : Int × Int × Int)
    (hn : t.mNumTechList = s.mNumTechList + 1 + 1)
    (hold : ∀ i, i < s.mNumTechList → t.entry i = s.entry i)
    (hnew1 : t.entry s.mNumTechList = e1)
    (hnew2 : t.entry (s.mNumTechList + 1) = e2) :
    t.entries = s.entries ++ [e1, e2] := by
  unfold NfcTag.entries
  rw [hn, List.range_succ, List.range_succ, List.map_append, List.map_append,
    List.map_singleton, List.map_singleton, hnew1, hnew2, List.append_assoc]
  congr 1
  exact List.map_congr_left (fun i hi => hold i (List.mem_range.1 hi))

/-- One discovery notification below capacity appends its interpretation. -/
theorem discoverTechnologies_DISC_RESULT_appends (c : NciDefs) (s : NfcTag) (d : tNFA_DISC_RESULT)
    (hcap : s.mNumTechList + (specDiscoveryEntries c d.discovery_ntf).length
      ≤ c.MAX_NUM_TECHNOLOGY) :
    (discoverTechnologies_DISC_RESULT c s d).mNumTechList
        = s.mNumTechList + (specDiscoveryEntries c d.discovery_ntf).length ∧
    (discoverTechnologies_DISC_RESULT c s d).entries
        = s.entries ++ specDiscoveryEntries c d.discovery_ntf := by
  have hg : ¬ s.mNumTechList ≥ c.MAX_NUM_TECHNOLOGY := by
    have : 1 ≤ (specDiscoveryEntries c d.discovery_ntf).length := by
      unfold specDiscoveryEntries specDiscoveryTags
      split_ifs <;> simp
    omega
  clear hcap
  unfold discoverTechnologies_DISC_RESULT specDiscoveryEntries specDiscoveryTags
  simp only [NciDefs.mem_modesA, NciDefs.mem_modesB, hg, if_false]
  split_ifs
  all_goals constructor
  all_goals first
    | (simp [NfcTag.storeTechList, NfcTag.storeTechHandles, NfcTag.storeTechLibNfcTypes,
        NfcTag.storeTechParams, NfcTag.incNumTechList]; done)
    | skip
  all_goals simp only [List.map_cons, List.map_nil]
  all_goals first
    | (refine NfcTag.entries_append_one s _ _
        (by simp [NfcTag.storeTechList, NfcTag.storeTechHandles, NfcTag.storeTechLibNfcTypes,
          NfcTag.storeTechParams, NfcTag.incNumTechList])
        (fun i hi => ?_)
        (by simp [NfcTag.entry, NfcTag.storeTechList, NfcTag.storeTechHandles,
          NfcTag.storeTechLibNfcTypes, NfcTag.storeTechParams, NfcTag.incNumTechList]))
    | (refine NfcTag.entries_append_two s _ _ _
        (by simp [NfcTag.storeTechList, NfcTag.storeTechHandles, NfcTag.storeTechLibNfcTypes,
          NfcTag.storeTechParams, NfcTag.incNumTechList])
        (fun i hi => ?_)
        (by simp [NfcTag.entry, NfcTag.storeTechList, NfcTag.storeTechHandles,
          NfcTag.storeTechLibNfcTypes, NfcTag.storeTechParams, NfcTag.incNumTechList])
        (by simp [NfcTag.entry, NfcTag.storeTechList, NfcTag.storeTechHandles,
          NfcTag.storeTechLibNfcTypes, NfcTag.storeTechParams, NfcTag.incNumTechList]))
  all_goals
    have h1 : i ≠ s.mNumTechList := Nat.ne_of_lt hi
    have h2 : i ≠ s.mNumTechList + 1 := by omega
    simp [NfcTag.entry, NfcTag.storeTechList, NfcTag.storeTechHandles,
      NfcTag.storeTechLibNfcTypes, NfcTag.storeTechParams, NfcTag.incNumTechList,
      Function.update_apply, h1, h2]

/-- A run of status-OK discovery notifications that fits the registry appends
the interpretations in arrival order. -/
theorem discovery_run_appends (c : NciDefs) (now : timespec) (ds : List tNFA_DISC_RESULT) :
    ∀ s : NfcTag, (∀ d ∈ ds, d.status = c.NFA_STATUS_OK) →
    s.mNumTechList + ((ds.map (fun d => specDiscoveryEntries c d.discovery_ntf)).flatten).length
      ≤ c.MAX_NUM_TECHNOLOGY →
    (ds.foldl (fun t d => connectionEventHandler c t (ConnEvent.NFA_DISC_RESULT_EVT d) now)
        s).mNumTechList
      = s.mNumTechList
        + ((ds.map (fun d => specDiscoveryEntries c d.discovery_ntf)).flatten).length ∧
    (ds.foldl (fun t d => connectionEventHandler c t (ConnEvent.NFA_DISC_RESULT_EVT d) now)
        s).entries
      = s.entries ++ (ds.map (fun d => specDiscoveryEntries c d.discovery_ntf)).flatten := by
  induction ds with
  | nil =>
    intro s _ _
    simp
  | cons d rest ih =>
    intro s hok hcap
    have hd : d.status = c.NFA_STATUS_OK := hok d (List.mem_cons_self _ _)
    have hstep : connectionEventHandler c s (ConnEvent.NFA_DISC_RESULT_EVT d) now
        = discoverTechnologies_DISC_RESULT c s d := by
      simp only [connectionEventHandler, hd, if_true]
    simp only [List.map_cons, List.flatten_cons, List.length_append] at hcap
    obtain ⟨h1, h2⟩ := discoverTechnologies_DISC_RESULT_appends c s d (by omega)
    obtain ⟨h3, h4⟩ := ih (discoverTechnologies_DISC_RESULT c s d)
      (fun d' hd' => hok d' (List.mem_cons_of_mem _ hd')) (by rw [h1]; omega)
    simp only [List.foldl_cons, List.map_cons, List.flatten_cons, List.length_append, hstep]
    refine ⟨by rw [h3, h1]; omega, ?_⟩
    rw [h4, h2, List.append_assoc]

/-- C20: after `resetTechnologies` followed by any sequence of status-OK
discovery notifications whose interpreted entries total at most
`MAX_NUM_TECHNOLOGY`, the technology count equals the total number of
interpreted entries and the (tag, handle, library protocol) triples at the
indices `0 .. count-1` are the concatenation, in arrival order, of each
notification's own interpretation. -/
theorem C20_discovery_round_trip (c : NciDefs) (s0 : NfcTag) (now : timespec)
    (ds : List tNFA_DISC_RESULT)
    (hok : ∀ d ∈ ds, d.status = c.NFA_STATUS_OK)
    (hcap : ((ds.map (fun d => specDiscoveryEntries c d.discovery_ntf)).flatten).length
      ≤ c.MAX_NUM_TECHNOLOGY) :
    (ds.foldl (fun t d => connectionEventHandler c t (ConnEvent.NFA_DISC_RESULT_EVT d) now)
        (resetTechnologies c s0)).mNumTechList
      = ((ds.map (fun d => specDiscoveryEntries c d.discovery_ntf)).flatten).length ∧
    (ds.foldl (fun t d => connectionEventHandler c t (ConnEvent.NFA_DISC_RESULT_EVT d) now)
        (resetTechnologies c s0)).entries
      = (ds.map (fun d => specDiscoveryEntries c d.discovery_ntf)).flatten := by
  have h := discovery_run_appends c now ds (resetTechnologies c s0) hok
    (by simpa [resetTechnologies] using hcap)
  have h0 : (resetTechnologies c s0).mNumTechList = 0 := rfl
  have he : (resetTechnologies c s0).entries = [] := by
    simp [NfcTag.entries, resetTechnologies]
  rw [h0, he] at h
  simpa using h

/-- C20 at a concrete discovery round: a Type-1 tag and four Type-2 tags with
select response 0 give nine entries. -/
theorem C20_discovery_round_trip_witness :
    (∀ d ∈ sampleDiscoveryRound.take 5, d.status = stdDefs.NFA_STATUS_OK) ∧
    (((sampleDiscoveryRound.take 5).map
        (fun d => specDiscoveryEntries stdDefs d.discovery_ntf)).flatten).length
      ≤ stdDefs.MAX_NUM_TECHNOLOGY ∧
    ((sampleDiscoveryRound.take 5).foldl
        (fun t d => connectionEventHandler stdDefs t (ConnEvent.NFA_DISC_RESULT_EVT d)
          { tv_sec := 100, tv_nsec := 0 })
        (resetTechnologies stdDefs sampleTag)).entries
      = [(1, 1, 1), (1, 2, 2), (9, 2, 2), (1, 3, 2), (9, 3, 2), (1, 4, 2), (9, 4, 2),
         (1, 5, 2), (9, 5, 2)] :=
  ⟨by decide, by decide,
    (C20_discovery_round_trip stdDefs sampleTag { tv_sec := 100, tv_nsec := 0 }
      (sampleDiscoveryRound.take 5) (by decide) (by decide)).2.trans (by decide)⟩

/-! ## Discovery path: Kovio and Type-2 notifications -/

/-- The interpretation of a discovery notification with protocol Kovio: the
discovery path has no Kovio case, the notification falls to the default arm. -/
theorem specDiscoveryEntries_kovio (c : NciDefs) (hc : c.WellFormed) (ntf : tNFC_RESULT_DEVT)
    (hp : ntf.protocol = c.NFC_PROTOCOL_KOVIO) :
    specDiscoveryEntries c ntf
      = [(c.TARGET_TYPE_UNKNOWN, (ntf.rf_disc_id : Int), (c.NFC_PROTOCOL_KOVIO : Int))] := by
  obtain ⟨⟨-, -, -, -, h16⟩, ⟨-, -, -, h26⟩, ⟨-, -, h36⟩, ⟨-, h46⟩, h56⟩ := hc.protocols_ne
  simp [specDiscoveryEntries, specDiscoveryTags, hp, h16.symm, h26.symm, h36.symm, h46.symm,
    h56.symm]

/-- C21, as stated, fails at a full registry: after five Type-2 notifications
with select response 0 the registry holds `MAX_NUM_TECHNOLOGY` = 10 entries,
and a status-OK discovery notification whose protocol is Kovio appends
nothing: the count and the entries are as before, and no entry carries the
notification's handle 7. -/
theorem C21_counterexample :
    sampleKovioDiscovery.status = stdDefs.NFA_STATUS_OK ∧
    sampleKovioDiscovery.discovery_ntf.protocol = stdDefs.NFC_PROTOCOL_KOVIO ∧
    sampleFullRegistry.mNumTechList = stdDefs.MAX_NUM_TECHNOLOGY ∧
    (discoverTechnologies_DISC_RESULT stdDefs sampleFullRegistry sampleKovioDiscovery).mNumTechList
      = 10 ∧
    (discoverTechnologies_DISC_RESULT stdDefs sampleFullRegistry sampleKovioDiscovery).entries
      = sampleFullRegistry.entries ∧
    (connectionEventHandler stdDefs sampleFullRegistry
        (ConnEvent.NFA_DISC_RESULT_EVT sampleKovioDiscovery)
        { tv_sec := 100, tv_nsec := 0 }).entries
      = [(1, 2, 2), (9, 2, 2), (1, 3, 2), (9, 3, 2), (1, 4, 2), (9, 4, 2), (1, 5, 2), (9, 5, 2),
         (1, 6, 2), (9, 6, 2)] ∧
    (stdDefs.TARGET_TYPE_UNKNOWN, (7 : Int), (stdDefs.NFC_PROTOCOL_KOVIO : Int)) ∉
      (discoverTechnologies_DISC_RESULT stdDefs sampleFullRegistry sampleKovioDiscovery).entries := by
  refine ⟨rfl, rfl, ?_, ?_, ?_, ?_, ?_⟩ <;> decide

/-- C21, amended: while the registry is below capacity (the count is less than
`MAX_NUM_TECHNOLOGY`), a discovery notification whose protocol is Kovio
appends exactly one entry whose technology tag is Unknown (so not
Kovio-barcode, when the two constants differ) while its library protocol is
recorded as Kovio; an activation with protocol Kovio yields the single entry
tagged Kovio-barcode. -/
theorem C21_kovio_asymmetry (c : NciDefs) (hc : c.WellFormed) (s : NfcTag)
    (d : tNFA_DISC_RESULT) (a : tNFA_ACTIVATED)
    (hcap : s.mNumTechList < c.MAX_NUM_TECHNOLOGY)
    (hd : d.discovery_ntf.protocol = c.NFC_PROTOCOL_KOVIO)
    (ha : a.activate_ntf.protocol = c.NFC_PROTOCOL_KOVIO) :
    (discoverTechnologies_DISC_RESULT c s d).mNumTechList = s.mNumTechList + 1 ∧
    (discoverTechnologies_DISC_RESULT c s d).entries
      = s.entries ++ [(c.TARGET_TYPE_UNKNOWN, (d.discovery_ntf.rf_disc_id : Int),
          (c.NFC_PROTOCOL_KOVIO : Int))] ∧
    (c.TARGET_TYPE_UNKNOWN ≠ c.TARGET_TYPE_KOVIO_BARCODE →
      (discoverTechnologies_DISC_RESULT c s d).mTechList s.mNumTechList
        ≠ c.TARGET_TYPE_KOVIO_BARCODE) ∧
    (discoverTechnologies_ACTIVATED c s a).entries
      = [(c.TARGET_TYPE_KOVIO_BARCODE, (a.activate_ntf.rf_disc_id : Int),
          (c.NFC_PROTOCOL_KOVIO : Int))] := by
  obtain ⟨⟨-, -, -, -, h16⟩, ⟨-, -, -, h26⟩, ⟨-, -, h36⟩, ⟨-, h46⟩, h56⟩ := hc.protocols_ne
  have hk := specDiscoveryEntries_kovio c hc _ hd
  obtain ⟨h1, h2⟩ := discoverTechnologies_DISC_RESULT_appends c s d
    (by rw [hk]; exact hcap)
  rw [hk] at h1 h2
  have hg : ¬ s.mNumTechList ≥ c.MAX_NUM_TECHNOLOGY := by omega
  refine ⟨h1, h2, fun hne => ?_, ?_⟩
  · simpa [discoverTechnologies_DISC_RESULT, hg, hd, h16.symm, h26.symm, h36.symm, h46.symm,
      h56.symm, NfcTag.storeTechList, NfcTag.storeTechHandles, NfcTag.storeTechLibNfcTypes,
      NfcTag.storeTechParams, NfcTag.incNumTechList] using hne
  · simp [discoverTechnologies_ACTIVATED, ha, h16.symm, h26.symm, h36.symm, h46.symm, h56.symm,
      NfcTag.entries, NfcTag.entry, NfcTag.storeTechList, NfcTag.storeTechHandles,
      NfcTag.storeTechLibNfcTypes, NfcTag.storeTechParams, NfcTag.incNumTechList,
      List.range_succ]

/-- C21, amended, at a concrete Kovio notification (handle 7) received by the
fresh tag object, and a concrete Kovio activation (handle 1). -/
theorem C21_kovio_asymmetry_witness :
    stdDefs.WellFormed ∧
    sampleTag.mNumTechList < stdDefs.MAX_NUM_TECHNOLOGY ∧
    stdDefs.TARGET_TYPE_UNKNOWN ≠ stdDefs.TARGET_TYPE_KOVIO_BARCODE ∧
    (discoverTechnologies_DISC_RESULT stdDefs sampleTag sampleKovioDiscovery).entries
      = [(-1, 7, 0x8a)] ∧
    (discoverTechnologies_ACTIVATED stdDefs sampleTag (sampleKovio 8)).entries
      = [(10, 1, 0x8a)] :=
  have h := C21_kovio_asymmetry stdDefs (by decide) sampleTag sampleKovioDiscovery (sampleKovio 8)
    (by decide) rfl rfl
  ⟨by decide, by decide, by decide, h.2.1, h.2.2.2⟩

/-- What `fillNativeNfcTagMembers1` appends: the three registry views. -/
theorem fillNativeNfcTagMembers1_eq (s : NfcTag) (t : NativeNfcTag) :
    fillNativeNfcTagMembers1 s t =
      { t with
        mTechList := t.mTechList ++ s.techList
        mTechHandles := t.mTechHandles ++ s.techHandles
        mTechLibNfcTypes := t.mTechLibNfcTypes ++ s.techLibNfcTypes } := by
  unfold fillNativeNfcTagMembers1 NfcTag.techList NfcTag.techHandles NfcTag.techLibNfcTypes
  generalize s.mNumTechList = n
  induction n with
  | zero => simp
  | succ n ih => simp [List.range_succ, List.foldl_append, ih]

/-- What `fillNativeNfcTagMembers3` appends: one poll-bytes vector per registry
entry, in index order. -/
theorem fillNativeNfcTagMembers3_eq (c : NciDefs) (s : NfcTag) (t : NativeNfcTag)
    (a : tNFA_ACTIVATED) :
    fillNativeNfcTagMembers3 c s t a =
      { t with
        mTechPollBytes := t.mTechPollBytes ++ (List.range s.mNumTechList).map (pollBytesStep c s a) } := by
  unfold fillNativeNfcTagMembers3
  generalize s.mNumTechList = n
  induction n with
  | zero => simp
  | succ n ih => simp [List.range_succ, List.foldl_append, ih]

/-- The loop of `fillNativeNfcTagMembers4` after at least one round: the local
vector and the object. -/
theorem fillNativeNfcTagMembers4_loop (c : NciDefs) (s : NfcTag) (t : NativeNfcTag)
    (a : tNFA_ACTIVATED) (n : Nat) :
    (List.range (n + 1)).foldl
      (fun (st : List Nat × NativeNfcTag) i =>
        (actBytesStep c s a st.1 i,
          { st.2 with mTechPollBytes := st.2.mTechPollBytes ++ [actBytesStep c s a st.1 i] }))
      (([] : List Nat), t)
    = (actBytesAt c s a n,
        { t with
          mTechPollBytes := t.mTechPollBytes ++ (List.range (n + 1)).map (actBytesAt c s a) }) := by
  induction n with
  | zero => simp [actBytesAt, List.range_succ]
  | succ n ih =>
    rw [List.range_succ, List.foldl_append, ih]
    simp [actBytesAt, List.range_succ]

/-- What `fillNativeNfcTagMembers4` appends, and where: one activation-bytes
vector per registry entry, in index order, at the end of `mTechPollBytes`;
`mTechActBytes` is left as it was. -/
theorem fillNativeNfcTagMembers4_eq (c : NciDefs) (s : NfcTag) (t : NativeNfcTag)
    (a : tNFA_ACTIVATED) :
    fillNativeNfcTagMembers4 c s t a =
      { t with
        mTechPollBytes := t.mTechPollBytes ++ (List.range s.mNumTechList).map (actBytesAt c s a) } := by
  unfold fillNativeNfcTagMembers4
  generalize s.mNumTechList = n
  cases n with
  | zero => simp
  | succ n =>
    have h := fillNativeNfcTagMembers4_loop c s t a n
    simp only [] at h ⊢
    rw [h]

/-- The object that `createNativeNfcTag` passes to the service layer when the
manager hands out the object `t`. -/
theorem createNativeNfcTag_notified (c : NciDefs) (s : NfcTag) (a : tNFA_ACTIVATED)
    (t : NativeNfcTag) (ht : s.mNfcManager.nativeNfcTag = some t) :
    (createNativeNfcTag c s a).mNfcManager.notified
      = s.mNfcManager.notified ++
        [{ mTechList := t.mTechList ++ s.techList
           mTechHandles := t.mTechHandles ++ s.techHandles
           mTechLibNfcTypes := t.mTechLibNfcTypes ++ s.techLibNfcTypes
           mTechPollBytes := t.mTechPollBytes
             ++ (List.range s.mNumTechList).map (pollBytesStep c s a)
             ++ (List.range s.mNumTechList).map (actBytesAt c s a)
           mTechActBytes := t.mTechActBytes
           mUid := t.mUid ++ [uidBytes c s a]
           mConnectedTechIndex := 0 }] := by
  unfold createNativeNfcTag
  rw [ht]
  simp only [fillNativeNfcTagMembers1_eq, fillNativeNfcTagMembers3_eq,
    fillNativeNfcTagMembers4_eq, fillNativeNfcTagMembers2, fillNativeNfcTagMembers5]

/-- C23, evaluated: a Type-2 activation (select response 0, first NFCID1 byte
0x04) received by the fresh tag object, whose record is empty, resolves to
n = 2 technologies.  The record passed to the service layer has 2 technology
tags, 2 handles and 2 library protocols, but 4 poll-bytes elements (the two
poll-bytes vectors followed by the two activation-bytes vectors) and no
activation-bytes element. -/
theorem C23_activation_bytes_land_in_poll_bytes :
    (discoverTechnologies_ACTIVATED stdDefs sampleTag (sampleT2T 0x04)).mNumTechList = 2 ∧
    (sampleAfterT2T.mNfcManager.notified.map (fun t => t.mTechList)) = [[1, 9]] ∧
    (sampleAfterT2T.mNfcManager.notified.map (fun t => t.mTechHandles)) = [[1, 1]] ∧
    (sampleAfterT2T.mNfcManager.notified.map (fun t => t.mTechLibNfcTypes)) = [[2, 2]] ∧
    (sampleAfterT2T.mNfcManager.notified.map (fun t => t.mTechPollBytes))
      = [[[0x44, 0], [0x44, 0], [0], [0]]] ∧
    (sampleAfterT2T.mNfcManager.notified.map (fun t => t.mTechActBytes)) = [[]] := by
  refine ⟨?_, ?_, ?_, ?_, ?_, ?_⟩ <;> decide

/-! ## Poll bytes -/

theorem NciDefs.mem_modesF {c : NciDefs} {m : Nat} :
    m ∈ c.modesF ↔ (m = c.NFC_DISCOVERY_TYPE_POLL_F ∨ m = c.NFC_DISCOVERY_TYPE_POLL_F_ACTIVE ∨
      m = c.NFC_DISCOVERY_TYPE_LISTEN_F ∨ m = c.NFC_DISCOVERY_TYPE_LISTEN_F_ACTIVE) := by
  simp [NciDefs.modesF]

theorem NciDefs.mem_modesI93 {c : NciDefs} {m : Nat} :
    m ∈ c.modesI93 ↔ (m = c.NFC_DISCOVERY_TYPE_POLL_ISO15693 ∨
      m = c.NFC_DISCOVERY_TYPE_LISTEN_ISO15693) := by
  simp [NciDefs.modesI93]

/-- The groups of case labels of the mode `switch` share no value. -/
theorem NciDefs.WellFormed.modes_disjoint {c : NciDefs} (hc : c.WellFormed) (m : Nat) :
    (m ∈ c.modesB → m ∉ c.modesA) ∧
    (m ∈ c.modesF → m ∉ c.modesA ∧ m ∉ c.modesB) ∧
    (m ∈ c.modesI93 → m ∉ c.modesA ∧ m ∉ c.modesB ∧ m ∉ c.modesF) ∧
    (m = c.NFC_DISCOVERY_TYPE_POLL_KOVIO →
      m ∉ c.modesA ∧ m ∉ c.modesB ∧ m ∉ c.modesF ∧ m ∉ c.modesI93) := by
  obtain ⟨-, hm, -⟩ := hc
  unfold NciDefs.modeCases at hm
  obtain ⟨-, hm1, hA⟩ := List.nodup_append.1 hm
  obtain ⟨-, hm2, hB⟩ := List.nodup_append.1 hm1
  obtain ⟨-, hm3, hF⟩ := List.nodup_append.1 hm2
  obtain ⟨-, -, hI⟩ := List.nodup_append.1 hm3
  have hK : c.NFC_DISCOVERY_TYPE_POLL_KOVIO ∈ [ c.NFC_DISCOVERY_TYPE_POLL_KOVIO] :=
    List.mem_singleton.2 rfl
  refine ⟨fun h g => hA g (List.mem_append_left _ h),
    fun h => ⟨fun g => hA g (List.mem_append_right _ (List.mem_append_left _ h)),
      fun g => hB g (List.mem_append_left _ h)⟩,
    fun h => ⟨fun g => hA g (List.mem_append_right _ (List.mem_append_right _
        (List.mem_append_left _ h))),
      fun g => hB g (List.mem_append_right _ (List.mem_append_left _ h)),
      fun g => hF g (List.mem_append_left _ h)⟩,
    fun h => ?_⟩
  subst h
  exact ⟨fun g => hA g (List.mem_append_right _ (List.mem_append_right _
      (List.mem_append_right _ hK))),
    fun g => hB g (List.mem_append_right _ (List.mem_append_right _ hK)),
    fun g => hF g (List.mem_append_right _ hK),
    fun g => hI g hK⟩

/-- The body of the loop of `fillNativeNfcTagMembers3`, with the case labels
grouped and the bytes written out. -/
theorem pollBytesStep_eq (c : NciDefs) (s : NfcTag) (a : tNFA_ACTIVATED) (i : Nat) :
    pollBytesStep c s a i =
      if (s.mTechParams i).mode ∈ c.modesA then
        [(s.mTechParams i).param.pa.sens_res 0, (s.mTechParams i).param.pa.sens_res 1]
      else if (s.mTechParams i).mode ∈ c.modesB then
        if s.mTechList i = c.TARGET_TYPE_ISO14443_3B then
          bytesFrom (s.mTechParams i).param.pb.sensb_res 4
            ((s.mTechParams i).param.pb.sensb_res_len - 4)
        else []
      else if (s.mTechParams i).mode ∈ c.modesF then
        [(s.mTechParams i).param.pf.sensf_res 8, (s.mTechParams i).param.pf.sensf_res 9,
         (s.mTechParams i).param.pf.sensf_res 10, (s.mTechParams i).param.pf.sensf_res 11,
         (s.mTechParams i).param.pf.sensf_res 12, (s.mTechParams i).param.pf.sensf_res 13,
         (s.mTechParams i).param.pf.sensf_res 14, (s.mTechParams i).param.pf.sensf_res 15,
         if 0 < a.params.t3t_num_system_codes then (a.params.t3t_p_system_codes 0 / 256) % 256
         else 0,
         if 0 < a.params.t3t_num_system_codes then a.params.t3t_p_system_codes 0 % 256 else 0]
      else if (s.mTechParams i).mode ∈ c.modesI93 then
        [a.params.i93_afi, a.params.i93_dsfid]
      else [] := by
  have hlen : ((((s.mTechParams i).param.pb.sensb_res_len : Nat) : Int) - 4).toNat
      = (s.mTechParams i).param.pb.sensb_res_len - 4 := by omega
  unfold pollBytesStep
  simp only [NciDefs.mem_modesA, NciDefs.mem_modesB, NciDefs.mem_modesF, NciDefs.mem_modesI93,
    hlen]
  split_ifs <;> simp [bytesFrom, List.range_succ, Function.update_apply]

/-- Element `i` of what `fillNativeNfcTagMembers3` appends is the poll-bytes
vector of registry entry `i`. -/
theorem fillNativeNfcTagMembers3_getElem (c : NciDefs) (s : NfcTag) (t : NativeNfcTag)
    (a : tNFA_ACTIVATED) (i : Nat) (hi : i < s.mNumTechList) :
    (fillNativeNfcTagMembers3 c s t a).mTechPollBytes[t.mTechPollBytes.length + i]?
      = some (pollBytesStep c s a i) := by
  rw [fillNativeNfcTagMembers3_eq]
  show (t.mTechPollBytes ++ _)[_]? = _
  rw [List.getElem?_append_right (Nat.le_add_right _ _), Nat.add_sub_cancel_left,
    List.getElem?_map, List.getElem?_range hi]
  rfl

/-- C24, as stated, fails: the entry of a Felica activation has the raw mode
poll F, which is neither an A variant, a B variant nor an ISO 15693 variant,
and its poll bytes are not empty but the 10 bytes PMm and system code. -/
theorem C24_counterexample :
    (sampleRegistry (sampleFelica 1)).mNumTechList = 1 ∧
    ((sampleRegistry (sampleFelica 1)).mTechParams 0).mode
      = stdDefs.NFC_DISCOVERY_TYPE_POLL_F ∧
    ((sampleRegistry (sampleFelica 1)).mTechParams 0).mode ∉ stdDefs.modesA ∧
    ((sampleRegistry (sampleFelica 1)).mTechParams 0).mode ∉ stdDefs.modesB ∧
    ((sampleRegistry (sampleFelica 1)).mTechParams 0).mode ∉ stdDefs.modesI93 ∧
    (fillNativeNfcTagMembers3 stdDefs (sampleRegistry (sampleFelica 1)) sampleRecord
        (sampleFelica 1)).mTechPollBytes
      = [[0x38, 0x39, 0x3A, 0x3B, 0x3C, 0x3D, 0x3E, 0x3F, 0x12, 0xFC]] ∧
    (fillNativeNfcTagMembers3 stdDefs (sampleRegistry (sampleFelica 1)) sampleRecord
        (sampleFelica 1)).mTechPollBytes ≠ [[]] := by
  refine ⟨?_, ?_, ?_, ?_, ?_, ?_, ?_⟩ <;> decide

/-- C24, amended: for every registry entry `i`, the poll bytes that
`fillNativeNfcTagMembers3` appends for it are the 2 bytes `sens_res[0..1]`
when the entry's raw mode is an A variant; the bytes
`sensb_res[4 .. sensb_res_len-1]` (length `sensb_res_len - 4`, empty when
`sensb_res_len` is 4 or less) when the mode is a B variant and the entry is
tagged ISO14443-3B; empty when the mode is a B variant and the entry has any
other tag; the 2 bytes `{AFI, DSFID}` of the activation data when the mode is
an ISO 15693 variant; and empty for every mode that is none of the A, B, F and
ISO 15693 variants. -/
theorem C24_poll_bytes (c : NciDefs) (hc : c.WellFormed) (s : NfcTag) (t : NativeNfcTag)
    (a : tNFA_ACTIVATED) (i : Nat) (hi : i < s.mNumTechList) :
    ((s.mTechParams i).mode ∈ c.modesA →
      (fillNativeNfcTagMembers3 c s t a).mTechPollBytes[t.mTechPollBytes.length + i]?
        = some [(s.mTechParams i).param.pa.sens_res 0, (s.mTechParams i).param.pa.sens_res 1]) ∧
    ((s.mTechParams i).mode ∈ c.modesB → s.mTechList i = c.TARGET_TYPE_ISO14443_3B →
      (fillNativeNfcTagMembers3 c s t a).mTechPollBytes[t.mTechPollBytes.length + i]?
        = some ((List.range ((s.mTechParams i).param.pb.sensb_res_len - 4)).map
            (fun k => (s.mTechParams i).param.pb.sensb_res (k + 4))) ∧
      ((s.mTechParams i).param.pb.sensb_res_len ≤ 4 →
        (fillNativeNfcTagMembers3 c s t a).mTechPollBytes[t.mTechPollBytes.length + i]?
          = some [])) ∧
    ((s.mTechParams i).mode ∈ c.modesB → s.mTechList i ≠ c.TARGET_TYPE_ISO14443_3B →
      (fillNativeNfcTagMembers3 c s t a).mTechPollBytes[t.mTechPollBytes.length + i]?
        = some []) ∧
    ((s.mTechParams i).mode ∈ c.modesI93 →
      (fillNativeNfcTagMembers3 c s t a).mTechPollBytes[t.mTechPollBytes.length + i]?
        = some [a.params.i93_afi, a.params.i93_dsfid]) ∧
    ((s.mTechParams i).mode ∉ c.modesA → (s.mTechParams i).mode ∉ c.modesB →
      (s.mTechParams i).mode ∉ c.modesF → (s.mTechParams i).mode ∉ c.modesI93 →
      (fillNativeNfcTagMembers3 c s t a).mTechPollBytes[t.mTechPollBytes.length + i]?
        = some []) := by
  obtain ⟨hB, -, hI, -⟩ := hc.modes_disjoint (s.mTechParams i).mode
  rw [fillNativeNfcTagMembers3_getElem c s t a i hi, pollBytesStep_eq]
  refine ⟨fun h => ?_, fun h h3 => ⟨?_, fun hl => ?_⟩, fun h h3 => ?_, fun h => ?_,
    fun h1 h2 h3 h4 => ?_⟩
  · rw [if_pos h]
  · rw [if_neg (hB h), if_pos h, if_pos h3]
    rfl
  · rw [if_neg (hB h), if_pos h, if_pos h3, Nat.sub_eq_zero_of_le hl]
    rfl
  · rw [if_neg (hB h), if_pos h, if_neg h3]
  · rw [if_neg (hI h).1, if_neg (hI h).2.1, if_neg (hI h).2.2, if_pos h]
  · rw [if_neg h1, if_neg h2, if_neg h3, if_neg h4]

/-- C24, amended, at entry 1 of an ISO-DEP activation polled on technology B
with an 11-byte SENSB_RES: the entry is tagged ISO14443-3B and its poll bytes
are the 7 bytes `sensb_res[4..10]`. -/
theorem C24_poll_bytes_witness :
    stdDefs.WellFormed ∧
    1 < (sampleRegistry (sampleIsoDepB 11)).mNumTechList ∧
    ((sampleRegistry (sampleIsoDepB 11)).mTechParams 1).mode ∈ stdDefs.modesB ∧
    (sampleRegistry (sampleIsoDepB 11)).mTechList 1 = stdDefs.TARGET_TYPE_ISO14443_3B ∧
    (fillNativeNfcTagMembers3 stdDefs (sampleRegistry (sampleIsoDepB 11)) sampleRecord
        (sampleIsoDepB 11)).mTechPollBytes[sampleRecord.mTechPollBytes.length + 1]?
      = some [0x64, 0x65, 0x66, 0x67, 0x68, 0x69, 0x6A] :=
  ⟨by decide, by decide, by decide, by decide,
    (((C24_poll_bytes stdDefs (by decide) (sampleRegistry (sampleIsoDepB 11)) sampleRecord
      (sampleIsoDepB 11) 1 (by decide)).2.1 (by decide) (by decide)).1).trans (by decide)⟩

/-- C25: for every registry entry whose raw mode is an F variant, the poll
bytes that `fillNativeNfcTagMembers3` appends for it have length exactly 10;
bytes 0..7 are `sensf_res[8..15]`; bytes 8 and 9 are the high byte then the low
byte of the first reported system code when the activation reports at least
one system code, and are both 0 when it reports none. -/
theorem C25_poll_bytes_felica (c : NciDefs) (hc : c.WellFormed) (s : NfcTag) (t : NativeNfcTag)
    (a : tNFA_ACTIVATED) (i : Nat) (hi : i < s.mNumTechList)
    (hF : (s.mTechParams i).mode ∈ c.modesF) :
    (∃ bytes : List Nat,
      (fillNativeNfcTagMembers3 c s t a).mTechPollBytes[t.mTechPollBytes.length + i]?
        = some bytes ∧
      bytes.length = 10 ∧
      bytes.take 8 = (List.range 8).map (fun k => (s.mTechParams i).param.pf.sensf_res (k + 8))) ∧
    (0 < a.params.t3t_num_system_codes →
      (fillNativeNfcTagMembers3 c s t a).mTechPollBytes[t.mTechPollBytes.length + i]?
        = some [(s.mTechParams i).param.pf.sensf_res 8, (s.mTechParams i).param.pf.sensf_res 9,
            (s.mTechParams i).param.pf.sensf_res 10, (s.mTechParams i).param.pf.sensf_res 11,
            (s.mTechParams i).param.pf.sensf_res 12, (s.mTechParams i).param.pf.sensf_res 13,
            (s.mTechParams i).param.pf.sensf_res 14, (s.mTechParams i).param.pf.sensf_res 15,
            (a.params.t3t_p_system_codes 0 / 256) % 256,
            a.params.t3t_p_system_codes 0 % 256]) ∧
    (a.params.t3t_num_system_codes = 0 →
      (fillNativeNfcTagMembers3 c s t a).mTechPollBytes[t.mTechPollBytes.length + i]?
        = some [(s.mTechParams i).param.pf.sensf_res 8, (s.mTechParams i).param.pf.sensf_res 9,
            (s.mTechParams i).param.pf.sensf_res 10, (s.mTechParams i).param.pf.sensf_res 11,
            (s.mTechParams i).param.pf.sensf_res 12, (s.mTechParams i).param.pf.sensf_res 13,
            (s.mTechParams i).param.pf.sensf_res 14, (s.mTechParams i).param.pf.sensf_res 15,
            0, 0]) := by
  obtain ⟨-, hFd, -, -⟩ := hc.modes_disjoint (s.mTechParams i).mode
  rw [fillNativeNfcTagMembers3_getElem c s t a i hi, pollBytesStep_eq,
    if_neg (hFd hF).1, if_neg (hFd hF).2, if_pos hF]
  refine ⟨⟨_, rfl, rfl, rfl⟩, fun h => ?_, fun h => ?_⟩
  · rw [if_pos h, if_pos h]
  · rw [h]
    rfl

/-- C25 at the entry of a Felica activation that reports the system code
0x12FC, and at the same activation reporting no system code. -/
theorem C25_poll_bytes_felica_witness :
    stdDefs.WellFormed ∧
    0 < (sampleRegistry (sampleFelica 1)).mNumTechList ∧
    ((sampleRegistry (sampleFelica 1)).mTechParams 0).mode ∈ stdDefs.modesF ∧
    (fillNativeNfcTagMembers3 stdDefs (sampleRegistry (sampleFelica 1)) sampleRecord
        (sampleFelica 1)).mTechPollBytes[sampleRecord.mTechPollBytes.length + 0]?
      = some [0x38, 0x39, 0x3A, 0x3B, 0x3C, 0x3D, 0x3E, 0x3F, 0x12, 0xFC] ∧
    (fillNativeNfcTagMembers3 stdDefs (sampleRegistry (sampleFelica 0)) sampleRecord
        (sampleFelica 0)).mTechPollBytes[sampleRecord.mTechPollBytes.length + 0]?
      = some [0x38, 0x39, 0x3A, 0x3B, 0x3C, 0x3D, 0x3E, 0x3F, 0, 0] :=
  ⟨by decide, by decide, by decide,
    ((C25_poll_bytes_felica stdDefs (by decide) (sampleRegistry (sampleFelica 1)) sampleRecord
      (sampleFelica 1) 0 (by decide) (by decide)).2.1 (by decide)).trans (by decide),
    ((C25_poll_bytes_felica stdDefs (by decide) (sampleRegistry (sampleFelica 0)) sampleRecord
      (sampleFelica 0) 0 (by decide) (by decide)).2.2 rfl).trans (by decide)⟩

/-! ## Activation bytes -/

/-- The case labels of the protocol `switch`, as values of the `int` array
`mTechLibNfcTypes`, are pairwise different. -/
theorem NciDefs.WellFormed.protocols_ne_int {c : NciDefs} (hc : c.WellFormed) :
    ((c.NFC_PROTOCOL_T2T : Int) ≠ c.NFC_PROTOCOL_T1T) ∧
    ((c.NFC_PROTOCOL_T3T : Int) ≠ c.NFC_PROTOCOL_T1T ∧
      (c.NFC_PROTOCOL_T3T : Int) ≠ c.NFC_PROTOCOL_T2T) ∧
    ((c.NFC_PROTOCOL_ISO_DEP : Int) ≠ c.NFC_PROTOCOL_T1T ∧
      (c.NFC_PROTOCOL_ISO_DEP : Int) ≠ c.NFC_PROTOCOL_T2T ∧
      (c.NFC_PROTOCOL_ISO_DEP : Int) ≠ c.NFC_PROTOCOL_T3T) ∧
    ((c.NFC_PROTOCOL_15693 : Int) ≠ c.NFC_PROTOCOL_T1T ∧
      (c.NFC_PROTOCOL_15693 : Int) ≠ c.NFC_PROTOCOL_T2T ∧
      (c.NFC_PROTOCOL_15693 : Int) ≠ c.NFC_PROTOCOL_T3T ∧
      (c.NFC_PROTOCOL_15693 : Int) ≠ c.NFC_PROTOCOL_ISO_DEP) := by
  obtain ⟨⟨h12, h13, h14, h15, -⟩, ⟨h23, h24, h25, -⟩, ⟨h34, h35, -⟩, ⟨h45, -⟩, -⟩ :=
    hc.protocols_ne
  simp only [ne_eq, Nat.cast_inj]
  exact ⟨Ne.symm h12, ⟨Ne.symm h13, Ne.symm h23⟩, ⟨Ne.symm h14, Ne.symm h24, Ne.symm h34⟩,
    ⟨Ne.symm h15, Ne.symm h25, Ne.symm h35, Ne.symm h45⟩⟩

/-- The local vector of `fillNativeNfcTagMembers4` in round `i` is the body of
the loop applied to what the previous round left. -/
theorem actBytesAt_eq (c : NciDefs) (s : NfcTag) (a : tNFA_ACTIVATED) (i : Nat) :
    ∃ prev : List Nat, actBytesAt c s a i = actBytesStep c s a prev i := by
  cases i with
  | zero => exact ⟨[], rfl⟩
  | succ k => exact ⟨actBytesAt c s a k, rfl⟩

/-- Element `i` of what `fillNativeNfcTagMembers4` appends (to `mTechPollBytes`)
is the activation-bytes vector of registry entry `i`. -/
theorem fillNativeNfcTagMembers4_getElem (c : NciDefs) (s : NfcTag) (t : NativeNfcTag)
    (a : tNFA_ACTIVATED) (i : Nat) (hi : i < s.mNumTechList) :
    (fillNativeNfcTagMembers4 c s t a).mTechPollBytes[t.mTechPollBytes.length + i]?
      = some (actBytesAt c s a i) := by
  rw [fillNativeNfcTagMembers4_eq]
  show (t.mTechPollBytes ++ _)[_]? = _
  rw [List.getElem?_append_right (Nat.le_add_right _ _), Nat.add_sub_cancel_left,
    List.getElem?_map, List.getElem?_range hi]
  rfl

/-- C26: for every registry state (those produced by an accepted activation
included) and every entry `i`, the vector that `fillNativeNfcTagMembers4`
computes and pushes for entry `i` is the single byte `sel_rsp` when the
entry's library protocol is T1T or T2T; empty when it is T3T; for an ISO-DEP
entry tagged ISO14443-4 in an A-variant mode the historical bytes
`his_byte[0..his_byte_len-1]` when the interface type is ISO-DEP and empty
otherwise; for an ISO-DEP entry tagged ISO14443-4 in a B-variant mode the
bytes `hi_info[0..hi_info_len-1]` under the same guard; the 2 bytes
`{AFI, DSFID}` when it is ISO 15693; and empty for every other library
protocol. -/
theorem C26_activation_bytes (c : NciDefs) (hc : c.WellFormed) (s : NfcTag) (t : NativeNfcTag)
    (a : tNFA_ACTIVATED) (i : Nat) (hi : i < s.mNumTechList) :
    ((s.mTechLibNfcTypes i = (c.NFC_PROTOCOL_T1T : Int) ∨
        s.mTechLibNfcTypes i = (c.NFC_PROTOCOL_T2T : Int)) →
      (fillNativeNfcTagMembers4 c s t a).mTechPollBytes[t.mTechPollBytes.length + i]?
        = some [(s.mTechParams i).param.pa.sel_rsp]) ∧
    (s.mTechLibNfcTypes i = (c.NFC_PROTOCOL_T3T : Int) →
      (fillNativeNfcTagMembers4 c s t a).mTechPollBytes[t.mTechPollBytes.length + i]?
        = some []) ∧
    (s.mTechLibNfcTypes i = (c.NFC_PROTOCOL_ISO_DEP : Int) →
      s.mTechList i = c.TARGET_TYPE_ISO14443_4 → (s.mTechParams i).mode ∈ c.modesA →
      (fillNativeNfcTagMembers4 c s t a).mTechPollBytes[t.mTechPollBytes.length + i]?
        = some (if a.activate_ntf.intf_param.type = c.NFC_INTERFACE_ISO_DEP then
            (List.range a.activate_ntf.intf_param.pa_iso.his_byte_len).map
              a.activate_ntf.intf_param.pa_iso.his_byte
          else [])) ∧
    (s.mTechLibNfcTypes i = (c.NFC_PROTOCOL_ISO_DEP : Int) →
      s.mTechList i = c.TARGET_TYPE_ISO14443_4 → (s.mTechParams i).mode ∈ c.modesB →
      (fillNativeNfcTagMembers4 c s t a).mTechPollBytes[t.mTechPollBytes.length + i]?
        = some (if a.activate_ntf.intf_param.type = c.NFC_INTERFACE_ISO_DEP then
            (List.range a.activate_ntf.intf_param.pb_iso.hi_info_len).map
              a.activate_ntf.intf_param.pb_iso.hi_info
          else [])) ∧
    (s.mTechLibNfcTypes i = (c.NFC_PROTOCOL_15693 : Int) →
      (fillNativeNfcTagMembers4 c s t a).mTechPollBytes[t.mTechPollBytes.length + i]?
        = some [a.params.i93_afi, a.params.i93_dsfid]) ∧
    (s.mTechLibNfcTypes i ≠ (c.NFC_PROTOCOL_T1T : Int) →
      s.mTechLibNfcTypes i ≠ (c.NFC_PROTOCOL_T2T : Int) →
      s.mTechLibNfcTypes i ≠ (c.NFC_PROTOCOL_T3T : Int) →
      s.mTechLibNfcTypes i ≠ (c.NFC_PROTOCOL_ISO_DEP : Int) →
      s.mTechLibNfcTypes i ≠ (c.NFC_PROTOCOL_15693 : Int) →
      (fillNativeNfcTagMembers4 c s t a).mTechPollBytes[t.mTechPollBytes.length + i]?
        = some []) := by
  obtain ⟨h21, ⟨h31, h32⟩, ⟨h41, h42, h43⟩, ⟨h51, h52, h53, h54⟩⟩ := hc.protocols_ne_int
  obtain ⟨hBA, -, -, -⟩ := hc.modes_disjoint (s.mTechParams i).mode
  obtain ⟨prev, hprev⟩ := actBytesAt_eq c s a i
  rw [fillNativeNfcTagMembers4_getElem c s t a i hi, hprev]
  unfold actBytesStep
  simp only [← NciDefs.mem_modesA, ← NciDefs.mem_modesB, bytesFrom, Nat.add_zero]
  refine ⟨fun h => ?_, fun h => ?_, fun h h4 hA => ?_, fun h h4 hB => ?_, fun h => ?_,
    fun g1 g2 g3 g4 g5 => ?_⟩
  · rcases h with h | h
    · rw [if_pos h]
    · rw [h, if_neg h21, if_pos rfl]
  · rw [h, if_neg h31, if_neg h32, if_pos rfl]
  · rw [h, if_neg h41, if_neg h42, if_neg h43, if_pos rfl, if_pos h4, if_pos hA]
  · rw [h, if_neg h41, if_neg h42, if_neg h43, if_pos rfl, if_pos h4, if_neg (hBA hB),
      if_pos hB]
  · rw [h, if_neg h51, if_neg h52, if_neg h53, if_neg h54, if_pos rfl]
  · rw [if_neg g1, if_neg g2, if_neg g3, if_neg g4, if_neg g5]

/-- C26 at entry 0 of the registry produced by an ISO-DEP activation polled on
technology A: activated on the ISO-DEP interface the entry gets the 4
historical bytes, activated on the frame interface it gets none. -/
theorem C26_activation_bytes_witness :
    stdDefs.WellFormed ∧
    0 < (sampleRegistry (sampleIsoDepA stdDefs.NFC_INTERFACE_ISO_DEP)).mNumTechList ∧
    (sampleRegistry (sampleIsoDepA stdDefs.NFC_INTERFACE_ISO_DEP)).mTechLibNfcTypes 0
      = (stdDefs.NFC_PROTOCOL_ISO_DEP : Int) ∧
    (sampleRegistry (sampleIsoDepA stdDefs.NFC_INTERFACE_ISO_DEP)).mTechList 0
      = stdDefs.TARGET_TYPE_ISO14443_4 ∧
    ((sampleRegistry (sampleIsoDepA stdDefs.NFC_INTERFACE_ISO_DEP)).mTechParams 0).mode
      ∈ stdDefs.modesA ∧
    (fillNativeNfcTagMembers4 stdDefs (sampleRegistry (sampleIsoDepA stdDefs.NFC_INTERFACE_ISO_DEP))
        sampleRecord (sampleIsoDepA stdDefs.NFC_INTERFACE_ISO_DEP)).mTechPollBytes[
          sampleRecord.mTechPollBytes.length + 0]?
      = some [0x80, 0x81, 0x82, 0x83] ∧
    (fillNativeNfcTagMembers4 stdDefs (sampleRegistry (sampleIsoDepA stdDefs.NFA_INTERFACE_FRAME))
        sampleRecord (sampleIsoDepA stdDefs.NFA_INTERFACE_FRAME)).mTechPollBytes[
          sampleRecord.mTechPollBytes.length + 0]?
      = some [] :=
  ⟨by decide, by decide, by decide, by decide, by decide,
    ((C26_activation_bytes stdDefs (by decide)
      (sampleRegistry (sampleIsoDepA stdDefs.NFC_INTERFACE_ISO_DEP)) sampleRecord
      (sampleIsoDepA stdDefs.NFC_INTERFACE_ISO_DEP) 0 (by decide)).2.2.1
        (by decide) (by decide) (by decide)).trans (by decide),
    ((C26_activation_bytes stdDefs (by decide)
      (sampleRegistry (sampleIsoDepA stdDefs.NFA_INTERFACE_FRAME)) sampleRecord
      (sampleIsoDepA stdDefs.NFA_INTERFACE_FRAME) 0 (by decide)).2.2.1
        (by decide) (by decide) (by decide)).trans (by decide)⟩

/-! ## The UID -/

/-- Reading a buffer of `n` bytes from its end and reversing the result gives
the buffer. -/
theorem reverse_map_range_sub (u : Nat → Nat) (n : Nat) :
    ((List.range n).map (fun i => u (n - i - 1))).reverse = (List.range n).map u := by
  apply List.ext_getElem
  · simp
  · intro i h1 h2
    simp only [List.length_reverse, List.length_map, List.length_range] at h1
    simp only [List.getElem_reverse, List.getElem_map, List.getElem_range, List.length_map,
      List.length_range]
    congr 1
    omega

/-- The local vector `uid` of `fillNativeNfcTagMembers5`, with the case labels
grouped. -/
theorem uidBytes_eq (c : NciDefs) (s : NfcTag) (a : tNFA_ACTIVATED) :
    uidBytes c s a =
      if (s.mTechParams 0).mode = c.NFC_DISCOVERY_TYPE_POLL_KOVIO then
        (List.range (s.mTechParams 0).param.pk.uid_len).map (s.mTechParams 0).param.pk.uid
      else if (s.mTechParams 0).mode ∈ c.modesA then
        (List.range (s.mTechParams 0).param.pa.nfcid1_len).map (s.mTechParams 0).param.pa.nfcid1
      else if (s.mTechParams 0).mode ∈ c.modesB then
        (List.range c.NFC_NFCID0_MAX_LEN).map (s.mTechParams 0).param.pb.nfcid0
      else if (s.mTechParams 0).mode ∈ c.modesF then
        (List.range c.NFC_NFCID2_LEN).map (s.mTechParams 0).param.pf.nfcid2
      else if (s.mTechParams 0).mode ∈ c.modesI93 then
        (List.range c.I93_UID_BYTE_LEN).map
          (fun i => a.params.i93_uid (c.I93_UID_BYTE_LEN - i - 1))
      else [] := by
  unfold uidBytes
  simp only [NciDefs.mem_modesA, NciDefs.mem_modesB, NciDefs.mem_modesF, NciDefs.mem_modesI93,
    bytesFrom, Nat.add_zero]

/-- C27: the UID that `fillNativeNfcTagMembers5` pushes depends only on
registry entry 0's raw mode and parameters and on the activation data; for an
A-variant mode it is `nfcid1[0..nfcid1_len-1]`; for a B-variant mode the
`NFC_NFCID0_MAX_LEN` bytes of `nfcid0`; for an F-variant mode the
`NFC_NFCID2_LEN` bytes of `nfcid2`; for an ISO 15693 mode the
`I93_UID_BYTE_LEN` (8) bytes of the activation UID in reversed order (output
byte `i` is input byte `7 - i`, and reversing the output gives back the
input); and empty for every mode other than these and Kovio poll. -/
theorem C27_uid_selection (c : NciDefs) (hc : c.WellFormed) (s : NfcTag) (t : NativeNfcTag)
    (a : tNFA_ACTIVATED) :
    (∀ s2 : NfcTag, s2.mTechParams 0 = s.mTechParams 0 →
      (fillNativeNfcTagMembers5 c s2 t a).mUid = (fillNativeNfcTagMembers5 c s t a).mUid) ∧
    ((s.mTechParams 0).mode ∈ c.modesA →
      (fillNativeNfcTagMembers5 c s t a).mUid = t.mUid ++
        [(List.range (s.mTechParams 0).param.pa.nfcid1_len).map
          (s.mTechParams 0).param.pa.nfcid1]) ∧
    ((s.mTechParams 0).mode ∈ c.modesB →
      (fillNativeNfcTagMembers5 c s t a).mUid = t.mUid ++
        [(List.range c.NFC_NFCID0_MAX_LEN).map (s.mTechParams 0).param.pb.nfcid0]) ∧
    ((s.mTechParams 0).mode ∈ c.modesF →
      (fillNativeNfcTagMembers5 c s t a).mUid = t.mUid ++
        [(List.range c.NFC_NFCID2_LEN).map (s.mTechParams 0).param.pf.nfcid2]) ∧
    ((s.mTechParams 0).mode ∈ c.modesI93 →
      (∃ uid : List Nat,
        (fillNativeNfcTagMembers5 c s t a).mUid = t.mUid ++ [uid] ∧
        uid.length = c.I93_UID_BYTE_LEN ∧
        (∀ i, i < c.I93_UID_BYTE_LEN →
          uid[i]? = some (a.params.i93_uid (c.I93_UID_BYTE_LEN - 1 - i))) ∧
        uid.reverse = (List.range c.I93_UID_BYTE_LEN).map a.params.i93_uid) ∧
      (c.I93_UID_BYTE_LEN = 8 →
        (fillNativeNfcTagMembers5 c s t a).mUid = t.mUid ++
          [[a.params.i93_uid 7, a.params.i93_uid 6, a.params.i93_uid 5, a.params.i93_uid 4,
            a.params.i93_uid 3, a.params.i93_uid 2, a.params.i93_uid 1, a.params.i93_uid 0]])) ∧
    ((s.mTechParams 0).mode ∉ c.modesA → (s.mTechParams 0).mode ∉ c.modesB →
      (s.mTechParams 0).mode ∉ c.modesF → (s.mTechParams 0).mode ∉ c.modesI93 →
      (s.mTechParams 0).mode ≠ c.NFC_DISCOVERY_TYPE_POLL_KOVIO →
      (fillNativeNfcTagMembers5 c s t a).mUid = t.mUid ++ [[]]) := by
  obtain ⟨hB, hF, hI, hK⟩ := hc.modes_disjoint (s.mTechParams 0).mode
  have hKA : (s.mTechParams 0).mode ∈ c.modesA →
      (s.mTechParams 0).mode ≠ c.NFC_DISCOVERY_TYPE_POLL_KOVIO := fun h g => (hK g).1 h
  have hKB : (s.mTechParams 0).mode ∈ c.modesB →
      (s.mTechParams 0).mode ≠ c.NFC_DISCOVERY_TYPE_POLL_KOVIO := fun h g => (hK g).2.1 h
  have hKF : (s.mTechParams 0).mode ∈ c.modesF →
      (s.mTechParams 0).mode ≠ c.NFC_DISCOVERY_TYPE_POLL_KOVIO := fun h g => (hK g).2.2.1 h
  have hKI : (s.mTechParams 0).mode ∈ c.modesI93 →
      (s.mTechParams 0).mode ≠ c.NFC_DISCOVERY_TYPE_POLL_KOVIO := fun h g => (hK g).2.2.2 h
  unfold fillNativeNfcTagMembers5
  simp only [uidBytes_eq]
  refine ⟨fun s2 h2 => by rw [h2], fun h => ?_, fun h => ?_, fun h => ?_, fun h => ⟨?_, ?_⟩,
    fun h1 h2 h3 h4 h5 => ?_⟩
  · rw [if_neg (hKA h), if_pos h]
  · rw [if_neg (hKB h), if_neg (hB h), if_pos h]
  · rw [if_neg (hKF h), if_neg (hF h).1, if_neg (hF h).2, if_pos h]
  · rw [if_neg (hKI h), if_neg (hI h).1, if_neg (hI h).2.1, if_neg (hI h).2.2, if_pos h]
    refine ⟨_, rfl, by simp, fun i hi => ?_, reverse_map_range_sub _ _⟩
    rw [List.getElem?_map, List.getElem?_range hi]
    show some (a.params.i93_uid (c.I93_UID_BYTE_LEN - i - 1)) = _
    rw [Nat.sub_right_comm]
  · intro h8
    rw [if_neg (hKI h), if_neg (hI h).1, if_neg (hI h).2.1, if_neg (hI h).2.2, if_pos h, h8]
    rfl
  · rw [if_neg h5, if_neg h1, if_neg h2, if_neg h3, if_neg h4]

/-- C27 at the registry of an ISO 15693 activation whose UID bytes are
0xE0, .., 0xE7: the UID handed on is 0xE7, .., 0xE0. -/
theorem C27_uid_selection_witness :
    stdDefs.WellFormed ∧
    ((sampleRegistry sampleI93).mTechParams 0).mode ∈ stdDefs.modesI93 ∧
    stdDefs.I93_UID_BYTE_LEN = 8 ∧
    (fillNativeNfcTagMembers5 stdDefs (sampleRegistry sampleI93) sampleRecord sampleI93).mUid
      = [[0xE7, 0xE6, 0xE5, 0xE4, 0xE3, 0xE2, 0xE1, 0xE0]] :=
  ⟨by decide, by decide, rfl,
    (((C27_uid_selection stdDefs (by decide) (sampleRegistry sampleI93) sampleRecord
      sampleI93).2.2.2.2.1 (by decide)).2 rfl).trans (by decide)⟩

/-- C28, evaluated: a Kovio activation that reports the UID length 40 is
accepted by the fresh tag object, and the UID handed to the service layer has
40 bytes, not min (40, NFC_KOVIO_MAX_LEN) = 32: the 32 bytes of the UID buffer
followed by the 8 bytes that lie behind it. -/
theorem C28_kovio_uid_not_truncated :
    sampleKovioOverlong.activate_ntf.rf_tech_param.mode = stdDefs.NFC_DISCOVERY_TYPE_POLL_KOVIO ∧
    sampleKovioOverlong.activate_ntf.rf_tech_param.param.pk.uid_len = 40 ∧
    min 40 stdDefs.NFC_KOVIO_MAX_LEN = 32 ∧
    ((connectionEventHandler stdDefs sampleTag (ConnEvent.NFA_ACTIVATED_EVT sampleKovioOverlong)
        { tv_sec := 100, tv_nsec := 0 }).mNfcManager.notified.map
      (fun t => t.mUid.map List.length)) = [[40]] ∧
    ((connectionEventHandler stdDefs sampleTag (ConnEvent.NFA_ACTIVATED_EVT sampleKovioOverlong)
        { tv_sec := 100, tv_nsec := 0 }).mNfcManager.notified.map
      (fun t => t.mUid.map (List.drop 32)))
      = [[[0xEE, 0xEE, 0xEE, 0xEE, 0xEE, 0xEE, 0xEE, 0xEE]]] ∧
    (fillNativeNfcTagMembers5 stdDefs (sampleRegistry sampleKovioOverlong) sampleRecord
        sampleKovioOverlong).mUid.map List.length = [40] := by
  refine ⟨rfl, rfl, ?_, ?_, ?_, ?_⟩ <;> decide

/-! ## Abort and the pending-operation slots -/

/-- C29, as stated, fails: after `initialize`, and likewise after a read that
completed with `NFA_STATUS_OK`, the recorded result is `NFA_STATUS_OK`, and it
still is after `abort`; the call has signalled the event once. -/
theorem C29_counterexample :
    (sampleTag.initializeTag stdDefs sampleManager).mReadCompletedStatus
      = stdDefs.NFA_STATUS_OK ∧
    ((sampleTag.initializeTag stdDefs sampleManager).abort 0).1.mReadCompletedStatus
      = stdDefs.NFA_STATUS_OK ∧
    ((sampleTag.initializeTag stdDefs sampleManager).abort 0).2 = 1 ∧
    ((sampleAfterRead stdDefs.NFA_STATUS_OK).abort 0).1.mReadCompletedStatus
      = stdDefs.NFA_STATUS_OK ∧
    ¬ (((sampleAfterRead stdDefs.NFA_STATUS_OK).abort 0).1.mReadCompletedStatus
      ≠ stdDefs.NFA_STATUS_OK) := by
  refine ⟨?_, ?_, ?_, ?_, ?_⟩ <;> decide

/-- C29, amended: `abort` signals the read-completion event once and assigns
no member variable; the recorded result `mReadCompletedStatus` after the call
is the one recorded before the call, so it is `NFA_STATUS_OK` after the call
exactly when it was before. -/
theorem C29_abort_keeps_status (c : NciDefs) (s : NfcTag) (mReadCompleteEvent : Nat) :
    (s.abort mReadCompleteEvent).2 = mReadCompleteEvent + 1 ∧
    (s.abort mReadCompleteEvent).1 = s ∧
    (s.abort mReadCompleteEvent).1.mReadCompletedStatus = s.mReadCompletedStatus ∧
    ((s.abort mReadCompleteEvent).1.mReadCompletedStatus = c.NFA_STATUS_OK
      ↔ s.mReadCompletedStatus = c.NFA_STATUS_OK) :=
  ⟨rfl, rfl, rfl, Iff.rfl⟩

/-- One event keeps the count of outstanding operations in step with the
slots. -/
theorem Coordinator.step_consistent (s : Coordinator) (e : CoordinatorEvent)
    (h : s.Consistent) : (s.step e).Consistent := by
  intro k2
  cases e with
  | start k =>
    by_cases ha : (s.slots k).armed = true
    · simpa [Coordinator.step, issueOperation, ha] using h k2
    · have hk := h k
      by_cases hk2 : k2 = k
      · subst hk2
        simp [Coordinator.step, issueOperation, ha] at hk ⊢
        omega
      · simpa [Coordinator.step, issueOperation, ha, Function.update_apply, hk2] using h k2
  | completion k status =>
    by_cases ha : (s.slots k).armed = true
    · have hk := h k
      by_cases hk2 : k2 = k
      · subst hk2
        simp [Coordinator.step, completeOperation, ha] at hk ⊢
        omega
      · simpa [Coordinator.step, completeOperation, ha, Function.update_apply, hk2] using h k2
    · simpa [Coordinator.step, completeOperation, ha] using h k2

/-- Every run from the idle coordinator keeps the count of outstanding
operations in step with the slots. -/
theorem Coordinator.run_consistent (evs : List CoordinatorEvent) :
    (Coordinator.run evs).Consistent := by
  have hgen : ∀ (es : List CoordinatorEvent) (s : Coordinator), s.Consistent →
      (es.foldl Coordinator.step s).Consistent := by
    intro es
    induction es with
    | nil => intro s hs; exact hs
    | cons e rest ih => intro s hs; exact ih _ (Coordinator.step_consistent s e hs)
  exact hgen evs Coordinator.idle (fun k => by simp [Coordinator.idle])

/-- C30: in every coordinator state reached from the idle one in which a
`readNdef` is pending (its slot is armed) and no write is, a call of `readNdef`
is refused as busy and changes nothing (it is not queued); a call of
`writeNdef` is issued and leaves the read slot pending as it was; afterwards
exactly one read and one write are outstanding; and in every reached state at
most one operation of each kind is outstanding. -/
theorem C30_one_outstanding_operation_per_kind (evs : List CoordinatorEvent)
    (hread : ((Coordinator.run evs).slots OperationKind.read).armed = true)
    (hwrite : ((Coordinator.run evs).slots OperationKind.write).armed = false) :
    (readNdef (Coordinator.run evs)).1 = IssueOutcome.busy ∧
    (readNdef (Coordinator.run evs)).2 = Coordinator.run evs ∧
    (writeNdef (Coordinator.run evs)).1 = IssueOutcome.issued ∧
    (writeNdef (Coordinator.run evs)).2.slots OperationKind.read
      = (Coordinator.run evs).slots OperationKind.read ∧
    (writeNdef (Coordinator.run evs)).2.outstanding OperationKind.read = 1 ∧
    (writeNdef (Coordinator.run evs)).2.outstanding OperationKind.write = 1 ∧
    (readNdef (writeNdef (Coordinator.run evs)).2).1 = IssueOutcome.busy ∧
    (∀ k, (Coordinator.run evs).outstanding k ≤ 1) := by
  have hc := Coordinator.run_consistent evs
  have hr := hc OperationKind.read
  have hw := hc OperationKind.write
  rw [hread] at hr
  rw [hwrite] at hw
  refine ⟨?_, ?_, ?_, ?_, ?_, ?_, ?_, fun k => ?_⟩
  · simp [readNdef, issueOperation, hread]
  · simp [readNdef, issueOperation, hread]
  · simp [writeNdef, issueOperation, hwrite]
  · simp [writeNdef, issueOperation, hwrite]
  · simpa [writeNdef, issueOperation, hwrite] using hr
  · simpa [writeNdef, issueOperation, hwrite] using hw
  · simp [readNdef, writeNdef, issueOperation, hread, hwrite]
  · rw [hc k]
    split_ifs <;> omega

/-- C30 at the coordinator state reached from the idle one by a first
`readNdef`, which is issued: the second `readNdef` is busy, `writeNdef` is
issued. -/
theorem C30_one_outstanding_operation_per_kind_witness :
    (readNdef Coordinator.idle).1 = IssueOutcome.issued ∧
    ((Coordinator.run sampleReadPending).slots OperationKind.read).armed = true ∧
    ((Coordinator.run sampleReadPending).slots OperationKind.write).armed = false ∧
    (readNdef (Coordinator.run sampleReadPending)).1 = IssueOutcome.busy ∧
    (writeNdef (Coordinator.run sampleReadPending)).1 = IssueOutcome.issued :=
  have h := C30_one_outstanding_operation_per_kind sampleReadPending (by decide) (by decide)
  ⟨by decide, by decide, by decide, h.1, h.2.2.1⟩

/-! ## TimeDiff -/

/-- `TimeDiff` on normalised timestamps: the whole milliseconds of the elapsed
time (rounded down), reduced modulo 2^32. -/
theorem TimeDiff_eq_elapsed (start end_ : timespec) (hs : start.Normalised)
    (he : end_.Normalised) :
    TimeDiff start end_ = ((elapsedNanos start end_ / 1000000) % 4294967296).toNat := by
  obtain ⟨hs0, hs1⟩ := hs
  obtain ⟨he0, he1⟩ := he
  unfold elapsedNanos
  unfold TimeDiff
  by_cases hb : end_.tv_nsec - start.tv_nsec < 0
  · simp only [hb, if_true]
    rw [Int.tdiv_eq_ediv (by omega) (by omega)]
    congr 2
    omega
  · simp only [hb, if_false]
    rw [Int.tdiv_eq_ediv (by omega) (by omega)]
    congr 2
    omega

/-- On normalised timestamps in chronological order less than 2^32 ms apart,
`TimeDiff` is below 500 exactly when less than 500 ms have elapsed. -/
theorem TimeDiff_lt_500_iff (start end_ : timespec) (hs : start.Normalised)
    (he : end_.Normalised) (hle : 0 ≤ elapsedNanos start end_)
    (hlt : elapsedNanos start end_ / 1000000 < 4294967296) :
    TimeDiff start end_ < 500 ↔ elapsedNanos start end_ < 500000000 := by
  rw [TimeDiff_eq_elapsed start end_ hs he]
  omega

/-- C32: for every pair of normalised timestamps with `end_` not earlier than
`start`, `TimeDiff start end_` is the floor of the elapsed nanoseconds divided
by 10^6, reduced modulo 2^32, in the borrow branch as in the other; it is 0
when the two timestamps are equal; and when the elapsed time is under 2^32 ms
it is below 500 exactly when the elapsed time is under 500 ms. -/
theorem C32_TimeDiff_elapsed_milliseconds (start end_ : timespec) (hs : start.Normalised)
    (he : end_.Normalised) (hle : 0 ≤ elapsedNanos start end_) :
    TimeDiff start end_ = ((elapsedNanos start end_ / 1000000) % 4294967296).toNat ∧
    TimeDiff start start = 0 ∧
    (elapsedNanos start end_ / 1000000 < 4294967296 →
      (TimeDiff start end_ < 500 ↔ elapsedNanos start end_ < 500000000)) := by
  refine ⟨TimeDiff_eq_elapsed start end_ hs he, ?_,
    fun hlt => TimeDiff_lt_500_iff start end_ hs he hle hlt⟩
  have h := TimeDiff_eq_elapsed start start hs hs
  rw [h]
  simp [elapsedNanos]

/-- C32 in the borrow branch: from 100.9 s to 101.3999 s the elapsed time is
499.9 ms and `TimeDiff` is 499; one tenth of a millisecond later it is 500. -/
theorem C32_TimeDiff_elapsed_milliseconds_witness :
    ({ tv_sec := 100, tv_nsec := 900000000 } : timespec).Normalised ∧
    ({ tv_sec := 101, tv_nsec := 399900000 } : timespec).Normalised ∧
    0 ≤ elapsedNanos { tv_sec := 100, tv_nsec := 900000000 }
      { tv_sec := 101, tv_nsec := 399900000 } ∧
    TimeDiff { tv_sec := 100, tv_nsec := 900000000 } { tv_sec := 101, tv_nsec := 399900000 }
      = 499 ∧
    TimeDiff { tv_sec := 100, tv_nsec := 900000000 } { tv_sec := 101, tv_nsec := 400000000 }
      = 500 :=
  ⟨by decide, by decide, by decide,
    (C32_TimeDiff_elapsed_milliseconds { tv_sec := 100, tv_nsec := 900000000 }
      { tv_sec := 101, tv_nsec := 399900000 } (by decide) (by decide) (by decide)).1.trans
      (by decide),
    by decide⟩

/-! ## Selecting a target -/

/-- The index list of a loop, split at the index `i`. -/
theorem range_split (n i : Nat) (h : i < n) :
    List.range n = List.range i ++ i :: List.range' (i + 1) (n - (i + 1)) := by
  have hn : n = (1 + (n - (i + 1))) + i := by omega
  rw [List.range_eq_range', List.range_eq_range']
  conv_lhs => rw [hn]
  rw [← List.range'_append_1, Nat.zero_add, Nat.add_comm 1, List.range'_succ]

/-- The loop of `selectP2p` stops at the first NFC-DEP entry in an F poll mode
and returns its handle, whatever was chosen before. -/
theorem selectP2p.loop_pollF (c : NciDefs) (s : NfcTag) (i : Nat) (post : List Nat)
    (hF : s.isP2pPollF c i) :
    ∀ (pre : List Nat) (acc : Nat), (∀ j ∈ pre, ¬ s.isP2pPollF c j) →
      selectP2p.loop c s (pre ++ i :: post) acc = (s.mTechHandles i % 256).toNat := by
  intro pre
  induction pre with
  | nil =>
    intro acc _
    simp only [List.nil_append, selectP2p.loop]
    rw [if_neg (not_not.2 hF.1), if_pos hF.2]
  | cons j pre ih =>
    intro acc hpre
    have hj : ¬ s.isP2pPollF c j := hpre j (List.mem_cons_self _ _)
    have hrest : ∀ k ∈ pre, ¬ s.isP2pPollF c k := fun k hk => hpre k (List.mem_cons_of_mem _ hk)
    simp only [List.cons_append, selectP2p.loop]
    split_ifs with h1 h2 h3 h4
    · exact ih _ hrest
    · exact absurd ⟨not_not.1 h1, h2⟩ hj
    · exact ih _ hrest
    · exact ih _ hrest
    · exact ih _ hrest

/-- Without an NFC-DEP entry in an F poll mode, a handle chosen once is kept. -/
theorem selectP2p.loop_keep (c : NciDefs) (s : NfcTag) :
    ∀ (l : List Nat) (acc : Nat), (∀ j ∈ l, ¬ s.isP2pPollF c j) → acc ≠ 0 →
      selectP2p.loop c s l acc = acc := by
  intro l
  induction l with
  | nil => intro acc _ _; rfl
  | cons j l ih =>
    intro acc hl hacc
    have hj : ¬ s.isP2pPollF c j := hl j (List.mem_cons_self _ _)
    have hrest : ∀ k ∈ l, ¬ s.isP2pPollF c k := fun k hk => hl k (List.mem_cons_of_mem _ hk)
    simp only [selectP2p.loop]
    split_ifs with h1 h2 h3
    · exact ih _ hrest hacc
    · exact absurd ⟨not_not.1 h1, h2⟩ hj
    · exact ih _ hrest hacc
    · exact ih _ hrest hacc

/-- Without an NFC-DEP entry in an F poll mode, the loop of `selectP2p`
returns the handle of the first NFC-DEP entry in an A poll mode. -/
theorem selectP2p.loop_pollA (c : NciDefs) (s : NfcTag) (i : Nat) (post : List Nat)
    (hA : s.isP2pPollA c i) (hFi : ¬ s.isP2pPollF c i)
    (hpost : ∀ j ∈ post, ¬ s.isP2pPollF c j) (hne : (s.mTechHandles i % 256).toNat ≠ 0) :
    ∀ (pre : List Nat), (∀ j ∈ pre, ¬ s.isP2pPollF c j) → (∀ j ∈ pre, ¬ s.isP2pPollA c j) →
      selectP2p.loop c s (pre ++ i :: post) 0 = (s.mTechHandles i % 256).toNat := by
  intro pre
  induction pre with
  | nil =>
    intro _ _
    simp only [List.nil_append, selectP2p.loop]
    rw [if_neg (not_not.2 hA.1), if_neg (fun h => hFi ⟨hA.1, h⟩), if_pos hA.2, if_pos trivial]
    exact selectP2p.loop_keep c s post _ hpost hne
  | cons j pre ih =>
    intro hpreF hpreA
    have hjF : ¬ s.isP2pPollF c j := hpreF j (List.mem_cons_self _ _)
    have hjA : ¬ s.isP2pPollA c j := hpreA j (List.mem_cons_self _ _)
    have hrF : ∀ k ∈ pre, ¬ s.isP2pPollF c k := fun k hk => hpreF k (List.mem_cons_of_mem _ hk)
    have hrA : ∀ k ∈ pre, ¬ s.isP2pPollA c k := fun k hk => hpreA k (List.mem_cons_of_mem _ hk)
    simp only [List.cons_append, selectP2p.loop]
    split_ifs with h1 h2 h3
    · exact ih hrF hrA
    · exact absurd ⟨not_not.1 h1, h2⟩ hjF
    · exact absurd ⟨not_not.1 h1, h3⟩ hjA
    · exact ih hrF hrA

/-- Without an NFC-DEP entry in an F or A poll mode the loop of `selectP2p`
chooses nothing. -/
theorem selectP2p.loop_none (c : NciDefs) (s : NfcTag) :
    ∀ (l : List Nat) (acc : Nat), (∀ j ∈ l, ¬ s.isP2pPollF c j) →
      (∀ j ∈ l, ¬ s.isP2pPollA c j) → selectP2p.loop c s l acc = acc := by
  intro l
  induction l with
  | nil => intro acc _ _; rfl
  | cons j l ih =>
    intro acc hF hA
    have hjF : ¬ s.isP2pPollF c j := hF j (List.mem_cons_self _ _)
    have hjA : ¬ s.isP2pPollA c j := hA j (List.mem_cons_self _ _)
    have hrF : ∀ k ∈ l, ¬ s.isP2pPollF c k := fun k hk => hF k (List.mem_cons_of_mem _ hk)
    have hrA : ∀ k ∈ l, ¬ s.isP2pPollA c k := fun k hk => hA k (List.mem_cons_of_mem _ hk)
    simp only [selectP2p.loop]
    split_ifs with h1 h2 h3 h4
    · exact ih _ hrF hrA
    · exact absurd ⟨not_not.1 h1, h2⟩ hjF
    · exact absurd ⟨not_not.1 h1, h3⟩ hjA
    · exact absurd ⟨not_not.1 h1, h3⟩ hjA
    · exact ih _ hrF hrA

/-- The call that `selectP2p` makes, in terms of the result of its loop. -/
theorem selectP2p_fst (c : NciDefs) (s : NfcTag) :
    (selectP2p c s).1 =
      if selectP2p.loop c s (List.range s.mNumTechList) 0 > 0 then
        some { rf_disc_id := ((selectP2p.loop c s (List.range s.mNumTechList) 0 : Nat) : Int)
               protocol := (c.NFA_PROTOCOL_NFC_DEP : Int)
               rf_interface := c.NFA_INTERFACE_NFC_DEP }
      else none := rfl

/-- C33: for every registry whose handles are non-zero discovery ids (values
1..255 of the `UINT8` id), if some NFC-DEP entry has mode poll F or poll F
active then the handle passed to `NFA_Select` is that of the first such entry,
wherever NFC-DEP entries in poll-A modes stand; if no NFC-DEP entry is in an F
poll mode but some is in mode poll A or poll A active, the handle selected is
that of the first such A entry; and if no NFC-DEP entry is in a poll-F or
poll-A mode no select is issued.  The registry is reset afterwards. -/
theorem C33_selectP2p_prefers_F (c : NciDefs) (s : NfcTag)
    (hh : ∀ i, i < s.mNumTechList → 0 < s.mTechHandles i ∧ s.mTechHandles i < 256) :
    (∀ i, i < s.mNumTechList → s.isP2pPollF c i → (∀ j, j < i → ¬ s.isP2pPollF c j) →
      (selectP2p c s).1 = some { rf_disc_id := s.mTechHandles i
                                 protocol := (c.NFA_PROTOCOL_NFC_DEP : Int)
                                 rf_interface := c.NFA_INTERFACE_NFC_DEP }) ∧
    ((∀ j, j < s.mNumTechList → ¬ s.isP2pPollF c j) →
      ∀ i, i < s.mNumTechList → s.isP2pPollA c i → (∀ j, j < i → ¬ s.isP2pPollA c j) →
      (selectP2p c s).1 = some { rf_disc_id := s.mTechHandles i
                                 protocol := (c.NFA_PROTOCOL_NFC_DEP : Int)
                                 rf_interface := c.NFA_INTERFACE_NFC_DEP }) ∧
    ((∀ j, j < s.mNumTechList → ¬ s.isP2pPollF c j) →
      (∀ j, j < s.mNumTechList → ¬ s.isP2pPollA c j) →
      (selectP2p c s).1 = none) ∧
    (selectP2p c s).2 = resetTechnologies c s := by
  have hsel : ∀ i, i < s.mNumTechList →
      selectP2p.loop c s (List.range s.mNumTechList) 0 = (s.mTechHandles i % 256).toNat →
      (selectP2p c s).1 = some { rf_disc_id := s.mTechHandles i
                                 protocol := (c.NFA_PROTOCOL_NFC_DEP : Int)
                                 rf_interface := c.NFA_INTERFACE_NFC_DEP } := by
    intro i hi hloop
    obtain ⟨h0, h1⟩ := hh i hi
    have hpos : (s.mTechHandles i % 256).toNat > 0 := by omega
    have hcast : (((s.mTechHandles i % 256).toNat : Nat) : Int) = s.mTechHandles i := by omega
    rw [selectP2p_fst, hloop, if_pos hpos, hcast]
  refine ⟨fun i hi hF hfirst => ?_, fun hnoF i hi hA hfirst => ?_, fun hnoF hnoA => ?_, rfl⟩
  · apply hsel i hi
    rw [range_split _ i hi]
    exact selectP2p.loop_pollF c s i _ hF _ 0 (fun j hj => hfirst j (List.mem_range.1 hj))
  · apply hsel i hi
    obtain ⟨h0, h1⟩ := hh i hi
    have hall : ∀ j ∈ List.range s.mNumTechList, ¬ s.isP2pPollF c j :=
      fun j hj => hnoF j (List.mem_range.1 hj)
    rw [range_split _ i hi] at hall ⊢
    exact selectP2p.loop_pollA c s i _ hA (hnoF i hi)
      (fun j hj => hall j (List.mem_append_right _ (List.mem_cons_of_mem _ hj))) (by omega) _
      (fun j hj => hall j (List.mem_append_left _ hj))
      (fun j hj => hfirst j (List.mem_range.1 hj))
  · rw [selectP2p_fst, selectP2p.loop_none c s _ 0
      (fun j hj => hnoF j (List.mem_range.1 hj)) (fun j hj => hnoA j (List.mem_range.1 hj))]
    rfl

/-- C33 at a peer reported on three NFC-DEP targets, poll A (handle 3), poll F
(handle 4) and poll A active (handle 5): the handle selected is 4. -/
theorem C33_selectP2p_prefers_F_witness :
    (∀ i, i < samplePeerAFA.mNumTechList →
      0 < samplePeerAFA.mTechHandles i ∧ samplePeerAFA.mTechHandles i < 256) ∧
    samplePeerAFA.isP2pPollA stdDefs 0 ∧
    samplePeerAFA.isP2pPollF stdDefs 1 ∧
    (selectP2p stdDefs samplePeerAFA).1
      = some { rf_disc_id := 4, protocol := 5, rf_interface := 3 } :=
  have hh : ∀ i, i < samplePeerAFA.mNumTechList →
      0 < samplePeerAFA.mTechHandles i ∧ samplePeerAFA.mTechHandles i < 256 := by decide
  ⟨hh, by decide, by decide,
    ((C33_selectP2p_prefers_F stdDefs samplePeerAFA hh).1 1 (by decide) (by decide)
      (by decide)).trans (by decide)⟩

/-- C34: `selectFirstTag` issues a select for entry 0's handle and library
protocol, with interface ISO-DEP when that protocol is ISO-DEP, NFC-DEP when
it is NFC-DEP, and Frame for every other protocol value; the object, and with
it the registry, is left as it was. -/
theorem C34_selectFirstTag_interface (c : NciDefs) (s : NfcTag)
    (hne : c.NFA_PROTOCOL_ISO_DEP ≠ c.NFA_PROTOCOL_NFC_DEP) :
    (selectFirstTag c s).1.rf_disc_id = s.mTechHandles 0 ∧
    (selectFirstTag c s).1.protocol = s.mTechLibNfcTypes 0 ∧
    (s.mTechLibNfcTypes 0 = (c.NFA_PROTOCOL_ISO_DEP : Int) →
      (selectFirstTag c s).1.rf_interface = c.NFA_INTERFACE_ISO_DEP) ∧
    (s.mTechLibNfcTypes 0 = (c.NFA_PROTOCOL_NFC_DEP : Int) →
      (selectFirstTag c s).1.rf_interface = c.NFA_INTERFACE_NFC_DEP) ∧
    (s.mTechLibNfcTypes 0 ≠ (c.NFA_PROTOCOL_ISO_DEP : Int) →
      s.mTechLibNfcTypes 0 ≠ (c.NFA_PROTOCOL_NFC_DEP : Int) →
      (selectFirstTag c s).1.rf_interface = c.NFA_INTERFACE_FRAME) ∧
    (selectFirstTag c s).2 = s := by
  have hne2 : (c.NFA_PROTOCOL_NFC_DEP : Int) ≠ (c.NFA_PROTOCOL_ISO_DEP : Int) := by
    simpa using Ne.symm hne
  refine ⟨rfl, rfl, fun h => ?_, fun h => ?_, fun h1 h2 => ?_, rfl⟩
  · simp only [selectFirstTag, h, if_true]
  · simp only [selectFirstTag, h, hne2, if_false, if_true]
  · simp only [selectFirstTag, h1, h2, if_false]

/-- C34 at three registries: entry 0 a Type-2 tag (Frame), an NFC-DEP peer
(NFC-DEP) and an ISO-DEP tag (ISO-DEP). -/
theorem C34_selectFirstTag_interface_witness :
    stdDefs.NFA_PROTOCOL_ISO_DEP ≠ stdDefs.NFA_PROTOCOL_NFC_DEP ∧
    (selectFirstTag stdDefs samplePeerAA).1
      = { rf_disc_id := 2, protocol := 2, rf_interface := stdDefs.NFA_INTERFACE_FRAME } ∧
    (selectFirstTag stdDefs samplePeerAFA).1
      = { rf_disc_id := 3, protocol := 5, rf_interface := stdDefs.NFA_INTERFACE_NFC_DEP } ∧
    (selectFirstTag stdDefs (sampleRegistry (sampleIsoDepA stdDefs.NFC_INTERFACE_ISO_DEP))).1.rf_interface
      = stdDefs.NFA_INTERFACE_ISO_DEP :=
  ⟨by decide, by decide, by decide,
    (C34_selectFirstTag_interface stdDefs
      (sampleRegistry (sampleIsoDepA stdDefs.NFC_INTERFACE_ISO_DEP)) (by decide)).2.2.1
      (by decide)⟩

/-! ## isMifareUltralight -/

/-- One round of the loop of `isMifareUltralight`. -/
theorem isMifareUltralight.loop_cons (c : NciDefs) (s : NfcTag) (i : Nat) (rest : List Nat) :
    isMifareUltralight.loop c s (i :: rest) =
      if s.isExaminedA c i then
        decide ((s.mTechParams i).param.pa.sens_res 0 = 0x44 ∧
          (s.mTechParams i).param.pa.sens_res 1 = 0)
      else isMifareUltralight.loop c s rest := by
  simp only [isMifareUltralight.loop, NfcTag.isExaminedA]
  split_ifs <;> simp [*]

/-- The loop of `isMifareUltralight` is decided by the first entry in one of
the three tested modes. -/
theorem isMifareUltralight.loop_first (c : NciDefs) (s : NfcTag) (i : Nat) (post : List Nat)
    (hi : s.isExaminedA c i) :
    ∀ (pre : List Nat), (∀ j ∈ pre, ¬ s.isExaminedA c j) →
      isMifareUltralight.loop c s (pre ++ i :: post)
        = decide ((s.mTechParams i).param.pa.sens_res 0 = 0x44 ∧
            (s.mTechParams i).param.pa.sens_res 1 = 0) := by
  intro pre
  induction pre with
  | nil =>
    intro _
    rw [List.nil_append, isMifareUltralight.loop_cons, if_pos hi]
  | cons j pre ih =>
    intro hpre
    have hj : ¬ s.isExaminedA c j := hpre j (List.mem_cons_self _ _)
    rw [List.cons_append, isMifareUltralight.loop_cons, if_neg hj]
    exact ih (fun k hk => hpre k (List.mem_cons_of_mem _ hk))

/-- The loop of `isMifareUltralight` over the indices `a .. a+k-1`. -/
theorem isMifareUltralight.loop_range (c : NciDefs) (s : NfcTag) :
    ∀ (k a : Nat), isMifareUltralight.loop c s (List.range' a k) = true ↔
      ∃ i, a ≤ i ∧ i < a + k ∧ s.isExaminedA c i ∧ (∀ j, a ≤ j → j < i → ¬ s.isExaminedA c j) ∧
        (s.mTechParams i).param.pa.sens_res 0 = 0x44 ∧
        (s.mTechParams i).param.pa.sens_res 1 = 0 := by
  intro k
  induction k with
  | zero =>
    intro a
    simp only [List.range'_zero, isMifareUltralight.loop]
    constructor
    · intro h
      exact absurd h (by decide)
    · rintro ⟨i, h1, h2, -⟩
      omega
  | succ k ih =>
    intro a
    rw [List.range'_succ, isMifareUltralight.loop_cons]
    by_cases ha : s.isExaminedA c a
    · rw [if_pos ha]
      constructor
      · intro h
        have hs : (s.mTechParams a).param.pa.sens_res 0 = 0x44 ∧
            (s.mTechParams a).param.pa.sens_res 1 = 0 := by
          simpa using h
        exact ⟨a, Nat.le_refl a, by omega, ha, fun j h1 h2 => by omega, hs⟩
      · rintro ⟨i, h1, -, -, hfirst, hs⟩
        have hia : i = a := by
          by_contra hne
          exact hfirst a (Nat.le_refl a) (by omega) ha
        subst hia
        simpa using hs
    · rw [if_neg ha, ih (a + 1)]
      constructor
      · rintro ⟨i, h1, h2, hex, hfirst, hs⟩
        refine ⟨i, by omega, by omega, hex, fun j hj1 hj2 => ?_, hs⟩
        by_cases hja : j = a
        · rw [hja]
          exact ha
        · exact hfirst j (by omega) hj2
      · rintro ⟨i, h1, h2, hex, hfirst, hs⟩
        have hia : i ≠ a := fun h => ha (h ▸ hex)
        exact ⟨i, by omega, by omega, hex, fun j hj1 hj2 => hfirst j (by omega) hj2, hs⟩

/-- C35: `isMifareUltralight` returns true if and only if the registry
contains, among the indices `0 .. count-1`, an entry whose mode is poll A,
listen A or listen A active, and the first such entry has `sens_res[0] = 0x44`
and `sens_res[1] = 0`.  Entries after that first one do not affect the result,
and (the mode constants being pairwise different) an entry in mode poll A
active is never such an entry: a registry of poll-A-active entries gives
false whatever their SENS_RES. -/
theorem C35_isMifareUltralight_first_A_entry (c : NciDefs) (hc : c.WellFormed) (s : NfcTag) :
    (isMifareUltralight c s = true ↔
      ∃ i, i < s.mNumTechList ∧ s.isExaminedA c i ∧ (∀ j, j < i → ¬ s.isExaminedA c j) ∧
        (s.mTechParams i).param.pa.sens_res 0 = 0x44 ∧
        (s.mTechParams i).param.pa.sens_res 1 = 0) ∧
    (∀ i, i < s.mNumTechList → s.isExaminedA c i → (∀ j, j < i → ¬ s.isExaminedA c j) →
      ∀ s2 : NfcTag, i < s2.mNumTechList → (∀ j, j ≤ i → s2.mTechParams j = s.mTechParams j) →
        isMifareUltralight c s2 = isMifareUltralight c s) ∧
    (∀ i, (s.mTechParams i).mode = c.NFC_DISCOVERY_TYPE_POLL_A_ACTIVE → ¬ s.isExaminedA c i) ∧
    ((∀ i, i < s.mNumTechList → (s.mTechParams i).mode = c.NFC_DISCOVERY_TYPE_POLL_A_ACTIVE) →
      isMifareUltralight c s = false) := by
  have hactive : ∀ i, (s.mTechParams i).mode = c.NFC_DISCOVERY_TYPE_POLL_A_ACTIVE →
      ¬ s.isExaminedA c i := by
    intro i hm hex
    obtain ⟨-, hmodes, -⟩ := hc
    have hnd : c.modesA.Nodup := (List.nodup_append.1 hmodes).1
    simp only [NciDefs.modesA, List.nodup_cons, List.mem_cons, List.mem_singleton, not_or,
      List.not_mem_nil, not_false_eq_true, List.nodup_nil, and_true] at hnd
    unfold NfcTag.isExaminedA at hex
    rw [hm] at hex
    omega
  have hiff : isMifareUltralight c s = true ↔
      ∃ i, i < s.mNumTechList ∧ s.isExaminedA c i ∧ (∀ j, j < i → ¬ s.isExaminedA c j) ∧
        (s.mTechParams i).param.pa.sens_res 0 = 0x44 ∧
        (s.mTechParams i).param.pa.sens_res 1 = 0 := by
    unfold isMifareUltralight
    rw [List.range_eq_range', isMifareUltralight.loop_range c s s.mNumTechList 0]
    constructor
    · rintro ⟨i, -, h2, hex, hfirst, hs⟩
      exact ⟨i, by omega, hex, fun j hj => hfirst j (Nat.zero_le j) hj, hs⟩
    · rintro ⟨i, h2, hex, hfirst, hs⟩
      exact ⟨i, Nat.zero_le i, by omega, hex, fun j _ hj => hfirst j hj, hs⟩
  refine ⟨hiff, fun i hi hex hfirst s2 hi2 hsame => ?_, hactive, fun hall => ?_⟩
  · have hex2 : s2.isExaminedA c i := by
      unfold NfcTag.isExaminedA at hex ⊢
      rw [hsame i (Nat.le_refl i)]
      exact hex
    have hfirst2 : ∀ j ∈ List.range i, ¬ s2.isExaminedA c j := by
      intro j hj h
      have hji : j < i := List.mem_range.1 hj
      apply hfirst j hji
      unfold NfcTag.isExaminedA at h ⊢
      rw [← hsame j (Nat.le_of_lt hji)]
      exact h
    unfold isMifareUltralight
    rw [range_split _ i hi, range_split _ i hi2,
      isMifareUltralight.loop_first c s2 i _ hex2 _ hfirst2,
      isMifareUltralight.loop_first c s i _ hex _
        (fun j hj => hfirst j (List.mem_range.1 hj)),
      hsame i (Nat.le_refl i)]
  · cases hres : isMifareUltralight c s
    · rfl
    · obtain ⟨i, hi, hex, -⟩ := hiff.1 hres
      exact absurd hex (hactive i (hall i hi))

/-- C35 at a registry of three technology-A entries, poll A active
(SENS_RES 0x44 0x00), poll A and poll A (SENS_RES 0x44 0x00): the result is
that of the second entry, true for SENS_RES 0x44 0x00 and false for 0x04 0x00. -/
theorem C35_isMifareUltralight_first_A_entry_witness :
    stdDefs.WellFormed ∧
    ¬ (sampleThreeA 0x04).isExaminedA stdDefs 0 ∧
    (sampleThreeA 0x04).isExaminedA stdDefs 1 ∧
    isMifareUltralight stdDefs (sampleThreeA 0x04) = false ∧
    isMifareUltralight stdDefs (sampleThreeA 0x44) = true :=
  ⟨by decide, by decide, by decide, by decide,
    (C35_isMifareUltralight_first_A_entry stdDefs (by decide) (sampleThreeA 0x44)).1.2
      ⟨1, by decide, by decide, by decide, by decide, by decide⟩⟩

/-! ## The two interpreters -/

/-- C36: for every protocol value other than T2T and Kovio, every mode, handle
and raw-parameter record, the discovery-path `discoverTechnologies` run on a
reset registry and the activation-path `discoverTechnologies` run on the same
protocol, handle and raw parameters yield the same technology count and the
same tag, handle, library protocol and raw parameters at every index below
that count (the registry having room for at least one entry). -/
theorem C36_interpreters_agree (c : NciDefs) (hmax : 0 < c.MAX_NUM_TECHNOLOGY)
    (s1 s2 : NfcTag) (d : tNFA_DISC_RESULT) (a : tNFA_ACTIVATED)
    (hp : a.activate_ntf.protocol = d.discovery_ntf.protocol)
    (hh : a.activate_ntf.rf_disc_id = d.discovery_ntf.rf_disc_id)
    (hr : a.activate_ntf.rf_tech_param = d.discovery_ntf.rf_tech_param)
    (h2 : d.discovery_ntf.protocol ≠ c.NFC_PROTOCOL_T2T)
    (hk : d.discovery_ntf.protocol ≠ c.NFC_PROTOCOL_KOVIO) :
    (discoverTechnologies_DISC_RESULT c (resetTechnologies c s1) d).mNumTechList
      = (discoverTechnologies_ACTIVATED c s2 a).mNumTechList ∧
    ∀ i, i < (discoverTechnologies_DISC_RESULT c (resetTechnologies c s1) d).mNumTechList →
      (discoverTechnologies_DISC_RESULT c (resetTechnologies c s1) d).mTechList i
        = (discoverTechnologies_ACTIVATED c s2 a).mTechList i ∧
      (discoverTechnologies_DISC_RESULT c (resetTechnologies c s1) d).mTechHandles i
        = (discoverTechnologies_ACTIVATED c s2 a).mTechHandles i ∧
      (discoverTechnologies_DISC_RESULT c (resetTechnologies c s1) d).mTechLibNfcTypes i
        = (discoverTechnologies_ACTIVATED c s2 a).mTechLibNfcTypes i ∧
      (discoverTechnologies_DISC_RESULT c (resetTechnologies c s1) d).mTechParams i
        = (discoverTechnologies_ACTIVATED c s2 a).mTechParams i := by
  have hg : ¬ (resetTechnologies c s1).mNumTechList ≥ c.MAX_NUM_TECHNOLOGY := by
    show ¬ (0 ≥ c.MAX_NUM_TECHNOLOGY)
    omega
  have h0 : (resetTechnologies c s1).mNumTechList = 0 := rfl
  unfold discoverTechnologies_DISC_RESULT discoverTechnologies_ACTIVATED
  simp only [hg, if_false, hp, hh, hr, h2, hk]
  split_ifs <;>
  simp only [NfcTag.storeTechList, NfcTag.storeTechHandles, NfcTag.storeTechLibNfcTypes,
    NfcTag.storeTechParams, NfcTag.incNumTechList, h0, Nat.zero_add, true_and] <;>
  intro i hi <;>
  (have hi2 : i = 0 ∨ i = 1 := by omega) <;>
  rcases hi2 with rfl | rfl <;>
  first
    | (exfalso; omega)
    | simp [Function.update_apply]

/-- C36 at an ISO-DEP target on technology A: both paths give the two entries
ISO14443-4 and ISO14443-3A with handle 1. -/
theorem C36_interpreters_agree_witness :
    0 < stdDefs.MAX_NUM_TECHNOLOGY ∧
    sampleDiscoveryIsoDep.discovery_ntf.protocol ≠ stdDefs.NFC_PROTOCOL_T2T ∧
    sampleDiscoveryIsoDep.discovery_ntf.protocol ≠ stdDefs.NFC_PROTOCOL_KOVIO ∧
    (discoverTechnologies_DISC_RESULT stdDefs (resetTechnologies stdDefs sampleAfterT2T)
        sampleDiscoveryIsoDep).mNumTechList
      = (discoverTechnologies_ACTIVATED stdDefs sampleTag
          (sampleIsoDep stdDefs.NFC_DISCOVERY_TYPE_POLL_A)).mNumTechList ∧
    (discoverTechnologies_ACTIVATED stdDefs sampleTag
        (sampleIsoDep stdDefs.NFC_DISCOVERY_TYPE_POLL_A)).entries = [(3, 1, 4), (1, 1, 4)] :=
  ⟨by decide, by decide, by decide,
    (C36_interpreters_agree stdDefs (by decide) sampleAfterT2T sampleTag sampleDiscoveryIsoDep
      (sampleIsoDep stdDefs.NFC_DISCOVERY_TYPE_POLL_A) rfl rfl rfl (by decide) (by decide)).1,
    by decide⟩

/-! ## The sliding Kovio window -/

/-- After `IsSameKovio` has processed a Kovio poll-mode activation whose UID
fits the buffer, the record holds that UID and the time of the call, whatever
the call returned. -/
theorem IsSameKovio_record (c : NciDefs) (s : NfcTag) (a : tNFA_ACTIVATED) (now : timespec)
    (len : Nat) (u : Nat → Nat) (hlen : len ≤ c.NFC_KOVIO_MAX_LEN)
    (ha : a.isKovioUid c len u) :
    (IsSameKovio c s a now).2.kovioRecordIs len u now := by
  obtain ⟨hp, hm, hl, hu⟩ := ha
  cases h : (IsSameKovio c s a now).1
  · rw [IsSameKovio_snd_of_false c s a now hp hm h]
    have hmin : min a.activate_ntf.rf_tech_param.param.pk.uid_len c.NFC_KOVIO_MAX_LEN = len := by
      rw [hl]
      exact Nat.min_eq_left hlen
    refine ⟨hmin, fun i hi => ?_, rfl⟩
    simp [memcpyBytes, hmin, hi, hu i hi]
  · obtain ⟨h1, h2, -⟩ := (IsSameKovio_fst c s a now hp hm).1 h
    rw [IsSameKovio_snd_of_true c s a now h]
    refine ⟨by rw [← h1, hl], fun i hi => ?_, rfl⟩
    rw [← hu i hi]
    exact h2 i (by rw [hl]; exact hi)

/-- A Kovio poll-mode activation that carries the UID of the record and comes
less than 500 ms after the recorded time is reported as a duplicate. -/
theorem IsSameKovio_of_record (c : NciDefs) (s : NfcTag) (a : tNFA_ACTIVATED)
    (t now : timespec) (len : Nat) (u : Nat → Nat) (hs : s.kovioRecordIs len u t)
    (ha : a.isKovioUid c len u) (ht : t.Normalised) (hnow : now.Normalised)
    (hgap : t.within500ms now) :
    (IsSameKovio c s a now).1 = true := by
  obtain ⟨hp, hm, hl, hu⟩ := ha
  obtain ⟨h1, h2, h3⟩ := hs
  obtain ⟨hg0, hg1⟩ := hgap
  rw [IsSameKovio_fst c s a now hp hm]
  refine ⟨by rw [hl, h1], fun i hi => ?_, ?_⟩
  · rw [hl] at hi
    rw [h2 i hi, hu i hi]
  · rw [h3, TimeDiff_lt_500_iff t now ht hnow hg0 (by omega)]
    exact hg1

/-- Once the record holds the UID, every activation of a chain that carries it
and follows its predecessor by less than 500 ms is reported as a duplicate. -/
theorem IsSameKovio.results_chain (c : NciDefs) (len : Nat) (u : Nat → Nat)
    (hlen : len ≤ c.NFC_KOVIO_MAX_LEN) :
    ∀ (rest : List (tNFA_ACTIVATED × timespec)) (prev : tNFA_ACTIVATED × timespec) (s : NfcTag),
      prev.2.Normalised → s.kovioRecordIs len u prev.2 →
      (∀ p ∈ rest, p.1.isKovioUid c len u ∧ p.2.Normalised) →
      List.Chain (fun p q => p.2.within500ms q.2) prev rest →
      IsSameKovio.results c s rest = List.replicate rest.length true := by
  intro rest
  induction rest with
  | nil => intro _ _ _ _ _ _; rfl
  | cons q rest ih =>
    intro prev s hprev hs hall hchain
    obtain ⟨hq, hqn⟩ := hall q (List.mem_cons_self _ _)
    obtain ⟨hgap, hrest⟩ := List.chain_cons.1 hchain
    simp only [IsSameKovio.results, List.length_cons, List.replicate_succ]
    rw [IsSameKovio_of_record c s q.1 prev.2 q.2 len u hs hq hprev hqn hgap,
      ih q _ hqn (IsSameKovio_record c s q.1 q.2 len u hlen hq)
        (fun p hp => hall p (List.mem_cons_of_mem _ hp)) hrest]

/-- C37: for every chain of Kovio poll-mode activations that carry the same
UID, of length at most `NFC_KOVIO_MAX_LEN`, in which each activation follows
its predecessor by less than 500 ms, `IsSameKovio` reports every activation
after the first as a duplicate, however long the chain lasts: a suppressed
duplicate refreshes the stored timestamp too. -/
theorem C37_kovio_window_slides (c : NciDefs) (s : NfcTag) (len : Nat) (u : Nat → Nat)
    (first : tNFA_ACTIVATED × timespec) (rest : List (tNFA_ACTIVATED × timespec))
    (hlen : len ≤ c.NFC_KOVIO_MAX_LEN)
    (hall : ∀ p ∈ first :: rest, p.1.isKovioUid c len u ∧ p.2.Normalised)
    (hchain : List.Chain (fun p q => p.2.within500ms q.2) first rest) :
    (IsSameKovio.results c s (first :: rest)).tail = List.replicate rest.length true := by
  obtain ⟨hf, hfn⟩ := hall first (List.mem_cons_self _ _)
  simp only [IsSameKovio.results, List.tail_cons]
  exact IsSameKovio.results_chain c len u hlen rest first _ hfn
    (IsSameKovio_record c s first.1 first.2 len u hlen hf)
    (fun p hp => hall p (List.mem_cons_of_mem _ hp)) hchain

/-- C37 at four activations of one Kovio barcode (8-byte UID) received by the
fresh tag object 400 ms apart: the first is new, the other three are
duplicates, the last one 1.2 s after the first. -/
theorem C37_kovio_window_slides_witness :
    8 ≤ stdDefs.NFC_KOVIO_MAX_LEN ∧
    (∀ p ∈ sampleKovioFirst :: sampleKovioRest,
      p.1.isKovioUid stdDefs 8 (fun i => if i < 32 then 0xA0 + i else 0) ∧ p.2.Normalised) ∧
    List.Chain (fun p q => p.2.within500ms q.2) sampleKovioFirst sampleKovioRest ∧
    elapsedNanos { tv_sec := 100, tv_nsec := 0 } { tv_sec := 101, tv_nsec := 200000000 }
      = 1200000000 ∧
    (IsSameKovio.results stdDefs sampleTag (sampleKovioFirst :: sampleKovioRest)).head?
      = some false ∧
    (IsSameKovio.results stdDefs sampleTag (sampleKovioFirst :: sampleKovioRest)).tail
      = [true, true, true] :=
  have hchain : List.Chain (fun p q => p.2.within500ms q.2) sampleKovioFirst sampleKovioRest :=
    List.Chain.cons (by decide) (List.Chain.cons (by decide) (List.Chain.cons (by decide)
      List.Chain.nil))
  ⟨by decide, by decide, hchain, by decide, by decide,
    C37_kovio_window_slides stdDefs sampleTag 8 (fun i => if i < 32 then 0xA0 + i else 0)
      sampleKovioFirst sampleKovioRest (by decide) (by decide) hchain⟩

/-! ## The bounded wait -/

/-- The bounded wait ends within its bound. -/
theorem boundedWait_le (arrival : Nat → Option Nat) :
    ∀ (remaining tick : Nat), (boundedWait arrival remaining tick).2 ≤ tick + remaining := by
  intro remaining
  induction remaining with
  | zero => intro tick; simp [boundedWait]
  | succ n ih =>
    intro tick
    unfold boundedWait
    cases h : arrival tick with
    | none =>
      have := ih (tick + 1)
      simp only []
      omega
    | some status =>
      simp only []
      omega

/-- When no completion arrives before the bound, the bounded wait ends at the
bound without a status. -/
theorem boundedWait_timeout (arrival : Nat → Option Nat) :
    ∀ (remaining tick : Nat),
      (∀ t, tick ≤ t → t < tick + remaining → arrival t = none) →
      boundedWait arrival remaining tick = (none, tick + remaining) := by
  intro remaining
  induction remaining with
  | zero => intro tick _; rfl
  | succ n ih =>
    intro tick hnone
    unfold boundedWait
    rw [hnone tick (Nat.le_refl tick) (by omega)]
    simp only []
    rw [ih (tick + 1) (fun t h1 h2 => hnone t (by omega) (by omega))]
    congr 1
    omega

/-- C31: when the presence-check completion callback does not arrive within
the timeout bound, `presenceCheck` returns, and returns false: the call ends no
later than the bound and its result is a plain `false`, not an error; and
whatever the controller does, the call never outlasts the bound. -/
theorem C31_presenceCheck_never_hangs (c : NciDefs) (s : Coordinator)
    (arrival : Nat → Option Nat) (bound : Nat)
    (hnone : ∀ t, t < bound → arrival t = none) :
    (presenceCheck c s arrival bound).1 = false ∧
    (presenceCheck c s arrival bound).2 ≤ bound ∧
    (∀ arrival2 : Nat → Option Nat, (presenceCheck c s arrival2 bound).2 ≤ bound) := by
  have hle : ∀ arrival2 : Nat → Option Nat, (presenceCheck c s arrival2 bound).2 ≤ bound := by
    intro arrival2
    unfold presenceCheck
    cases (issueOperation s OperationKind.presenceCheck).1 with
    | busy => exact Nat.zero_le _
    | issued =>
      have h := boundedWait_le arrival2 bound 0
      rw [Nat.zero_add] at h
      cases hw : boundedWait arrival2 bound 0 with
      | mk st tick =>
        rw [hw] at h
        cases st <;> exact h
  refine ⟨?_, hle arrival, hle⟩
  unfold presenceCheck
  cases (issueOperation s OperationKind.presenceCheck).1 with
  | busy => rfl
  | issued =>
    have h := boundedWait_timeout arrival bound 0 (fun t _ h2 => hnone t (by omega))
    simp only [h]

/-- C31 at a controller that delivers the completion at tick 7: with the
bound 5 the idle coordinator's `presenceCheck` returns false at tick 5; with
the bound 10 it returns true at tick 7. -/
theorem C31_presenceCheck_never_hangs_witness :
    (∀ t, t < 5 → sampleArrivalAt7 t = none) ∧
    presenceCheck stdDefs Coordinator.idle sampleArrivalAt7 5 = (false, 5) ∧
    presenceCheck stdDefs Coordinator.idle sampleArrivalAt7 10 = (true, 7) :=
  have hnone : ∀ t, t < 5 → sampleArrivalAt7 t = none := by decide
  have h := C31_presenceCheck_never_hangs stdDefs Coordinator.idle sampleArrivalAt7 5 hnone
  ⟨hnone, Prod.ext h.1 (by decide), by decide⟩

end Nfcd
